import Mathlib

/-!
# SAS domain discovery (drivers/scsi/libsas/sas_discover.c)

A shallow embedding of the discovery, add/delete and suspend paths of
`sas_discover.c`.  One port and the devices reachable from it are modelled as
an explicit state (`Domain`); pointers to `struct domain_device` are indices
into the device table, intrusive list heads are lists of such indices, and the
work queue `topo_wq` is a list of pending events.  Calls that leave the file
(transport class, LLDD hooks, allocators) are recorded in `Domain.log`; their
outcomes are supplied by an `Env`.
-/

namespace SasDiscover

/-! ## Constants and types declared in headers outside the modelled file -/

/-- Modelled from the spec: `enum sas_device_type` of include/scsi/sas.h (the
device kinds end device, edge expander, fanout expander, SATA device, SATA
port-multiplier); the header is not among the sources. -/
def SAS_PHY_UNUSED : Nat := 0
/-- Modelled from the spec: end device kind of `enum sas_device_type`. -/
def SAS_END_DEVICE : Nat := 1
/-- Modelled from the spec: edge expander kind of `enum sas_device_type`. -/
def SAS_EDGE_EXPANDER_DEVICE : Nat := 2
/-- Modelled from the spec: fanout expander kind of `enum sas_device_type`. -/
def SAS_FANOUT_EXPANDER_DEVICE : Nat := 3
/-- Modelled from the spec: SATA device kind of `enum sas_device_type`. -/
def SAS_SATA_DEV : Nat := 5
/-- Modelled from the spec: SATA port-multiplier kind of `enum sas_device_type`. -/
def SAS_SATA_PM : Nat := 7
/-- Modelled from the spec: port-multiplier port kind of `enum sas_device_type`. -/
def SAS_SATA_PM_PORT : Nat := 8
/-- Modelled from the spec: pending SATA kind of `enum sas_device_type`. -/
def SAS_SATA_PENDING : Nat := 9

/-- Modelled from the spec: `SAS_PROTOCOL_SATA` of `enum sas_protocol`. -/
def SAS_PROTOCOL_SATA : Nat := 1
/-- Modelled from the spec: `SATA_OOB_MODE` of `enum sas_oob_mode`
(the oob-negotiated mode that indicates a SATA link). -/
def SATA_OOB_MODE : Nat := 1

/-- Modelled from the spec: errno `ENOMEM` (spec: OutOfMemory). -/
def ENOMEM : Int := 12
/-- Modelled from the spec: errno `ENODEV` (spec: NoDevice / UnknownDeviceType). -/
def ENODEV : Int := 19
/-- Modelled from the spec: errno `ENXIO` (unhandled device kind). -/
def ENXIO : Int := 6

/-- The drain-wait ceiling in seconds: `#define SAS_MAX_WAIT_RESCOURCE_CLEAR_TIME (3 * 60)`. -/
def SAS_MAX_WAIT_RESCOURCE_CLEAR_TIME : Nat := 3 * 60

/-- Bitwise complement of a 32-bit `int` constant, as an unsigned 32-bit pattern. -/
def not32 (x : Nat) : Nat := (2 ^ 32 - 1 - x % 2 ^ 32) % 2 ^ 32

/-- Ways in which the kernel code stops instead of returning. -/
inductive Fault where
  | BUG_ON
  | null_deref
  | out_of_fuel
  deriving DecidableEq, Repr

/-- A pointer to a `struct domain_device`: its index in the device table. -/
abbrev DevId := Nat

/-- The `enum sas_device_event` values that index `sas_topo_event_fns`. -/
inductive sas_device_event where
  | SAS_DEVICE_ADD
  | SAS_DEVICE_DEL
  deriving DecidableEq, Repr

/-- The identification payload `frame_rcvd`, given by the fields the discovery
code reads from it.  The C code overlays `struct dev_to_host_fis` (fields
`interrupt_reason`, `lbal`, `byte_count_low`, `byte_count_high`, `device`) and
`struct sas_identify_frame` (fields `dev_type`, `initiator_bits`,
`target_bits`) on the raw bytes; `byte0` is `frame_rcvd[0]`.  Every field is
one byte or less. -/
structure frame where
  byte0 : Nat
  interrupt_reason : Nat
  lbal : Nat
  byte_count_low : Nat
  byte_count_high : Nat
  device : Nat
  dev_type : Nat
  initiator_bits : Nat
  target_bits : Nat
  deriving DecidableEq, Repr

/-- The lifecycle bits of `dev->state` used in this file. -/
structure dev_state where
  SAS_DEV_GONE : Bool
  SAS_DEV_FOUND : Bool
  SAS_DEV_DESTROY : Bool
  SAS_DEV_PROBE_FAIL : Bool
  deriving DecidableEq, Repr

/-- The fields of `struct domain_device` touched by the discovery code.
`rphy` holds the reporting object (by its `phy_identifier`), `eh_list_node`
and `siblings` say whether that list node is linked, `freed` records that
`kfree(dev)` ran in `sas_free_device`. -/
structure domain_device where
  dev_type : Nat
  iproto : Nat
  tproto : Nat
  frame_rcvd : frame
  parent : Option DevId
  has_port : Bool
  rphy : Option Nat
  phy : Option Nat
  kref : Nat
  state : dev_state
  sas_addr : Nat
  linkrate : Nat
  min_linkrate : Nat
  max_linkrate : Nat
  pathways : Nat
  eh_list_node : Bool
  siblings : Bool
  ex_children : List DevId
  sata_ap : Bool
  freed : Bool
  deriving DecidableEq, Repr

/-- One member PHY of a port (`struct asd_sas_phy`). -/
structure asd_sas_phy where
  frame_rcvd : frame
  phy_identifier : Nat
  suspended : Bool
  target : Option DevId
  deriving DecidableEq, Repr

/-- The fields of `struct asd_sas_port` used by the discovery code, together
with `num_phys` and `rphy` of its transport-class `struct sas_port`
(`sas_port_num_phys`, `sas_port_rphy`). -/
structure asd_sas_port where
  phy_list : List asd_sas_phy
  oob_mode : Nat
  attached_sas_addr : Nat
  linkrate : Nat
  num_phys : Nat
  port_dev : Option DevId
  disco_list : List DevId
  dev_list : List DevId
  expander_list : List DevId
  suspended : Bool
  disc_pending_suspend : Bool
  disc_pending_resume : Bool
  disc_fanout_sas_addr : Nat
  disc_eeds_a : Nat
  disc_eeds_b : Nat
  disc_max_level : Nat
  sas_port_num_phys : Nat
  sas_port_rphy : Bool
  deriving DecidableEq, Repr

/-- Which optional LLDD hooks of `struct sas_domain_function_template` are
installed (non-NULL function pointers). -/
structure sas_domain_function_template where
  lldd_dev_found : Bool
  lldd_before_dev_gone : Bool
  lldd_dev_gone : Bool
  lldd_port_formed : Bool
  lldd_port_deformed : Bool
  deriving DecidableEq, Repr

/-- Calls that leave the file, in the order they are made. -/
inductive Action where
  | lldd_dev_found (d : DevId)
  | lldd_before_dev_gone (d : DevId)
  | lldd_dev_gone (d : DevId)
  | lldd_port_deformed (phy_identifier : Nat)
  | queue_work (ev : sas_device_event) (d : DevId)
  | sas_alloc_device (d : DevId)
  | sas_ata_init (d : DevId)
  | sas_end_device_alloc (d : DevId)
  | sas_expander_alloc (d : DevId) (type : Nat)
  | sas_probe_sata_device (d : DevId)
  | sas_rphy_add (d : DevId)
  | sas_rphy_free (d : DevId)
  | sas_rphy_delete (d : DevId)
  | sas_remove_children (d : DevId)
  | sas_del_parent_port (d : DevId)
  | sas_ata_end_eh (d : DevId)
  | sas_port_delete
  | sas_suspend_sata
  | sas_resume_sata
  | sas_discover_root_expander (d : DevId)
  | sas_discover_sata (d : DevId)
  | kfree (d : DevId)
  deriving DecidableEq, Repr

/-- The state of one port: the hook table of its host adapter, the port, the
device table, the pending lifecycle events of `topo_wq` (head first), the
host's `eh_active` counter and the log of outside calls. -/
structure Domain where
  dft : sas_domain_function_template
  port : asd_sas_port
  devs : List domain_device
  topo_wq : List (sas_device_event × DevId)
  eh_active : Int
  log : List Action
  deriving DecidableEq, Repr

/-- Outcomes of the outside calls made during one operation: allocator
results, return codes of the transport class and of the LLDD hook, and the
build option `CONFIG_SCSI_SAS_ATA`. -/
structure Env where
  CONFIG_SCSI_SAS_ATA : Bool
  sas_alloc_device : Bool
  kmalloc : sas_device_event → DevId → Bool
  lldd_dev_found : DevId → Int
  sas_ata_init : Int
  sas_end_device_alloc : Bool
  sas_expander_alloc : Bool
  sas_port_get_phy : Option Nat
  sas_probe_sata_device_fails : Bool
  sas_rphy_add : Int
  sas_discover_root_expander : Int
  sas_discover_sata : Int

/-! ## State helpers -/

/-- Dereference a device pointer. -/
def Domain.dev (s : Domain) (d : DevId) : Option domain_device := s.devs[d]?

/-- Write through a device pointer. -/
def Domain.updDev (s : Domain) (d : DevId) (f : domain_device → domain_device) : Domain :=
  match s.devs[d]? with
  | some x => { s with devs := s.devs.set d (f x) }
  | none => s

/-- Write to the port structure. -/
def Domain.setPort (s : Domain) (f : asd_sas_port → asd_sas_port) : Domain :=
  { s with port := f s.port }

/-- Append an outside call to the log. -/
def Domain.say (s : Domain) (a : Action) : Domain := { s with log := s.log ++ [a] }

/-- The reference count of a device (0 for a pointer into nothing). -/
def Domain.kref (s : Domain) (d : DevId) : Nat :=
  match s.devs[d]? with
  | some x => x.kref
  | none => 0

/-- Unlinking a node from a list, `list_del_init`: the device is no longer an element. -/
def list_del (d : DevId) (l : List DevId) : List DevId := l.filter (fun x => x != d)

/-- Modelled from the spec: `dev_is_sata` of include/scsi/libsas.h, true for
the SATA kinds of `enum sas_device_type`. -/
def dev_is_sata (dev : domain_device) : Bool :=
  dev.dev_type == SAS_SATA_DEV || dev.dev_type == SAS_SATA_PM ||
  dev.dev_type == SAS_SATA_PM_PORT || dev.dev_type == SAS_SATA_PENDING

/-- Modelled from the spec: the object `sas_alloc_device` returns (zeroed
storage, list nodes unlinked, reference count 1: "Allocates a device object
with refcount = 1"). -/
def fresh_device : domain_device :=
  { dev_type := 0, iproto := 0, tproto := 0,
    frame_rcvd := ⟨0, 0, 0, 0, 0, 0, 0, 0, 0⟩,
    parent := none, has_port := false, rphy := none, phy := none, kref := 1,
    state := ⟨false, false, false, false⟩,
    sas_addr := 0, linkrate := 0, min_linkrate := 0, max_linkrate := 0, pathways := 0,
    eh_list_node := false, siblings := false, ex_children := [], sata_ap := false,
    freed := false }

/-! ## sas_init_dev, sas_free_device, sas_put_device -/

/-- Embeds `sas_init_dev`: initialise the kind-specific list heads. -/
def sas_init_dev (dev : domain_device) : domain_device :=
  if dev.dev_type = SAS_END_DEVICE then { dev with eh_list_node := false }
  else if dev.dev_type = SAS_EDGE_EXPANDER_DEVICE ∨ dev.dev_type = SAS_FANOUT_EXPANDER_DEVICE then
    { dev with ex_children := [] }
  else dev

/-- Embeds `sas_free_device`, the kref release callback.  `put` is
`sas_put_device`, used on the parent. -/
def sas_free_device (put : Domain → DevId → Domain) (s : Domain) (d : DevId) : Domain :=
  let s1 := s.updDev d (fun x => { x with rphy := none })
  let s2 := match (s.dev d).bind (fun x => x.parent) with
    | some p => put s1 p
    | none => s1
  let s3 := s2.updDev d (fun x => { x with phy := none })
  let s4 := match s3.dev d with
    | some x => if dev_is_sata x && x.sata_ap then s3.updDev d (fun y => { y with sata_ap := false }) else s3
    | none => s3
  (s4.updDev d (fun x => { x with freed := true })).say (Action.kfree d)

/-- Modelled from the spec: `kref_put(&dev->kref, sas_free_device)` of
`sas_put_device` (sas_internal.h): "releases; triggers destructor exactly once
when count reaches zero".  The destructor releases the parent, so the chain of
parents is followed; each step zeroes one count, and `fuel` bounds the steps.
A count that is already zero stays zero and the destructor does not run again. -/
def kref_put : Nat → Domain → DevId → Domain
  | 0, s, _ => s
  | fuel + 1, s, d =>
    match s.devs[d]? with
    | none => s
    | some dev =>
      if dev.kref = 1 then
        sas_free_device (kref_put fuel) (s.updDev d (fun x => { x with kref := 0 })) d
      else s.updDev d (fun x => { x with kref := x.kref - 1 })

/-- Embeds `sas_put_device`.  The fuel is never used up: every step but the
last zeroes the count of another device (`sas_put_device_fuel`). -/
def sas_put_device (s : Domain) (d : DevId) : Domain := kref_put (s.devs.length + 1) s d

/-! ## LLDD notifications -/

/-- Embeds `sas_notify_lldd_dev_found`: returns the hook's result; once the
hook has been called the device is marked found and a reference is taken,
whatever the hook returned. -/
def sas_notify_lldd_dev_found (e : Env) (s : Domain) (d : DevId) : Int × Domain :=
  if !s.dft.lldd_dev_found then (0, s)
  else
    let res := e.lldd_dev_found d
    let s1 := s.say (Action.lldd_dev_found d)
    let s2 := s1.updDev d (fun x => { x with state := { x.state with SAS_DEV_FOUND := true } })
    let s3 := s2.updDev d (fun x => { x with kref := x.kref + 1 })
    (res, s3)

/-- Embeds `sas_notify_lldd_before_dev_gone`. -/
def sas_notify_lldd_before_dev_gone (s : Domain) (d : DevId) : Domain :=
  if s.dft.lldd_before_dev_gone then s.say (Action.lldd_before_dev_gone d) else s

/-- Embeds `sas_notify_lldd_dev_gone`: with the hook installed, a device
marked found is unmarked, the hook is called and the found reference dropped. -/
def sas_notify_lldd_dev_gone (s : Domain) (d : DevId) : Domain :=
  if !s.dft.lldd_dev_gone then s
  else
    match s.dev d with
    | none => s
    | some dev =>
      if dev.state.SAS_DEV_FOUND then
        let s1 := s.updDev d (fun x => { x with state := { x.state with SAS_DEV_FOUND := false } })
        let s2 := s1.say (Action.lldd_dev_gone d)
        sas_put_device s2 d
      else s

/-! ## Lifecycle events -/

/-- Embeds `sas_notify_device_event`: allocate the event and queue it on
`topo_wq`; returns 0 when the allocation fails, else the result of
`queue_work` on a fresh work item. -/
def sas_notify_device_event (e : Env) (s : Domain) (d : DevId) (ev : sas_device_event) :
    Int × Domain :=
  if !e.kmalloc ev d then (0, s)
  else (1, { s with topo_wq := s.topo_wq ++ [(ev, d)], log := s.log ++ [Action.queue_work ev d] })

/-- Embeds `sas_unregister_dev`: `test_and_set_bit(SAS_DEV_DESTROY)` gates the
delete event. -/
def sas_unregister_dev (e : Env) (s : Domain) (d : DevId) : Domain :=
  match s.dev d with
  | none => s
  | some dev =>
    if !dev.state.SAS_DEV_DESTROY then
      let s1 := s.updDev d (fun x => { x with state := { x.state with SAS_DEV_DESTROY := true } })
      (sas_notify_device_event e s1 d sas_device_event.SAS_DEVICE_DEL).2
    else s

/-- Modelled from the spec: `sas_fail_probe` of sas_internal.h, not among the
sources: "On registration failure, mark probe-failed and proceed to unwind";
"Registration failures are recorded on the device (flag) and drive the
unregistration path". -/
def sas_fail_probe (e : Env) (s : Domain) (d : DevId) : Domain :=
  let s1 := s.updDev d (fun x => { x with state := { x.state with SAS_DEV_PROBE_FAIL := true } })
  sas_unregister_dev e s1 d

/-- Modelled from the spec: `sas_probe_sata_device` of sas_ata.c, not among
the sources: the "consumer-facing probe for bridged (e.g., SATA) devices",
whose failure is recorded as probe-failed. -/
def sas_probe_sata_device (e : Env) (s : Domain) (d : DevId) : Domain :=
  let s1 := s.say (Action.sas_probe_sata_device d)
  if e.sas_probe_sata_device_fails then sas_fail_probe e s1 d else s1

/-- Both `if (!dev->parent) dev->port->port_dev = NULL; else
list_del_init(&dev->siblings);` of the two unregister helpers. -/
def detach_from_parent (s : Domain) (d : DevId) : Domain :=
  match s.dev d with
  | none => s
  | some dev =>
    match dev.parent with
    | none => s.setPort (fun p => { p with port_dev := none })
    | some _ => s.updDev d (fun x => { x with siblings := false })

/-- Embeds `sas_unregister_fail_dev`. -/
def sas_unregister_fail_dev (s : Domain) (d : DevId) : Domain :=
  let s1 := sas_notify_lldd_dev_gone s d
  let s2 := detach_from_parent s1 d
  sas_put_device s2 d

/-- Embeds `sas_unregister_common_dev`.  `list_del_init(&dev->dev_list_node)`
unlinks the node from whichever of `dev_list` and `expander_list` holds it. -/
def sas_unregister_common_dev (s : Domain) (d : DevId) : Domain :=
  let s1 := sas_notify_lldd_dev_gone s d
  let s2 := detach_from_parent s1 d
  let s3 := s2.setPort (fun p => { p with
    dev_list := list_del d p.dev_list, expander_list := list_del d p.expander_list })
  let s4 := match s3.dev d with
    | none => s3
    | some dev =>
      if dev.dev_type = SAS_EDGE_EXPANDER_DEVICE ∨ dev.dev_type = SAS_FANOUT_EXPANDER_DEVICE then s3
      else if dev_is_sata dev then s3.say (Action.sas_ata_end_eh d) else s3
  let s5 := match s4.dev d with
    | none => s4
    | some dev =>
      if dev.dev_type = SAS_END_DEVICE ∧ dev.eh_list_node = true then
        { s4.updDev d (fun x => { x with eh_list_node := false }) with eh_active := s4.eh_active - 1 }
      else s4
  sas_put_device s5 d

/-- Embeds `sas_add_device`, the handler of `SAS_DEVICE_ADD`. -/
def sas_add_device (e : Env) (s : Domain) (d : DevId) : Except Fault Domain :=
  match s.dev d with
  | none => Except.error Fault.null_deref
  | some dev =>
    if d ∉ s.port.disco_list then Except.error Fault.BUG_ON
    else
      let s1 :=
        if dev.state.SAS_DEV_DESTROY then s
        else
          let a := s.setPort (fun p => { p with dev_list := p.dev_list ++ [d] })
          let b := sas_probe_sata_device e a d
          match b.dev d with
          | none => b
          | some dev1 =>
            if !dev1.state.SAS_DEV_PROBE_FAIL then
              let c := b.say (Action.sas_rphy_add d)
              if e.sas_rphy_add ≠ 0 then sas_fail_probe e c d else c
            else b
      Except.ok (s1.setPort (fun p => { p with disco_list := list_del d p.disco_list }))

/-- Embeds `sas_del_device`, the handler of `SAS_DEVICE_DEL`. -/
def sas_del_device (s : Domain) (d : DevId) : Except Fault Domain :=
  match s.dev d with
  | none => Except.error Fault.null_deref
  | some dev =>
    match dev.rphy with
    | none => Except.error Fault.null_deref
    | some _ =>
      let s0 :=
        if dev.dev_type = SAS_EDGE_EXPANDER_DEVICE ∨ dev.dev_type = SAS_FANOUT_EXPANDER_DEVICE then
          s.say (Action.sas_del_parent_port d)
        else s
      let s1 :=
        if d ∉ s0.port.dev_list ∧ d ∉ s0.port.expander_list then
          sas_unregister_fail_dev (s0.say (Action.sas_rphy_free d)) d
        else if dev.state.SAS_DEV_PROBE_FAIL then
          let a := s0.updDev d
            (fun x => { x with state := { x.state with SAS_DEV_PROBE_FAIL := false } })
          sas_unregister_common_dev (a.say (Action.sas_rphy_free d)) d
        else
          let a := sas_notify_lldd_before_dev_gone s0 d
          let b := a.say (Action.sas_remove_children d)
          let c := b.say (Action.sas_rphy_delete d)
          sas_unregister_common_dev c d
      Except.ok (if s1.port.sas_port_num_phys = 0 then s1.say Action.sas_port_delete else s1)

/-- The table `sas_topo_event_fns`. -/
def sas_topo_event_fns (e : Env) (ev : sas_device_event) (s : Domain) (d : DevId) :
    Except Fault Domain :=
  match ev with
  | sas_device_event.SAS_DEVICE_ADD => sas_add_device e s d
  | sas_device_event.SAS_DEVICE_DEL => sas_del_device s d

/-- Embeds `sas_unregister_domain_devices`: the pending list forwards, the
two active lists backwards. -/
def sas_unregister_domain_devices (e : Env) (s : Domain) (gone : Bool) : Domain :=
  let mark (t : Domain) (d : DevId) : Domain :=
    if gone then t.updDev d (fun x => { x with state := { x.state with SAS_DEV_GONE := true } })
    else t
  let s1 := s.port.disco_list.foldl (fun t d => sas_unregister_dev e t d) s
  let s2 := s.port.dev_list.reverse.foldl (fun t d => sas_unregister_dev e (mark t d) d) s1
  let s3 := s.port.expander_list.reverse.foldl (fun t d => sas_unregister_dev e (mark t d) d) s2
  s3.setPort (fun p => { p with sas_port_rphy := false })

/-! ## Suspend and resume -/

/-- The PHY loop of `sas_suspend_devices`, carrying `port->suspended`.  The
guard tests `lldd_port_formed` and the call goes through `lldd_port_deformed`. -/
def suspend_phys (dft : sas_domain_function_template) :
    List asd_sas_phy → Bool → Except Fault (List asd_sas_phy × Bool × List Action)
  | [], susp => Except.ok ([], susp, [])
  | phy :: rest, _ =>
    if dft.lldd_port_formed && !dft.lldd_port_deformed then Except.error Fault.null_deref
    else
      match suspend_phys dft rest true with
      | Except.error f => Except.error f
      | Except.ok (phys, susp, acts) =>
        Except.ok ({ phy with suspended := true } :: phys, susp,
          (if dft.lldd_port_formed then [Action.lldd_port_deformed phy.phy_identifier] else [])
            ++ acts)

/-- Embeds `sas_suspend_devices`, the handler of `DISCE_SUSPEND`. -/
def sas_suspend_devices (s : Domain) : Except Fault Domain :=
  let s0 := s.setPort (fun p => { p with disc_pending_suspend := false })
  let s1 := s0.say Action.sas_suspend_sata
  let s2 := s1.port.dev_list.foldl sas_notify_lldd_dev_gone s1
  let s3 := s2.port.expander_list.foldl sas_notify_lldd_dev_gone s2
  match suspend_phys s3.dft s3.port.phy_list s3.port.suspended with
  | Except.error f => Except.error f
  | Except.ok (phys, susp, acts) =>
    Except.ok { s3.setPort (fun p => { p with phy_list := phys, suspended := susp }) with
      log := s3.log ++ acts }

/-- Embeds `sas_resume_devices`, the handler of `DISCE_RESUME`. -/
def sas_resume_devices (s : Domain) : Domain :=
  (s.setPort (fun p => { p with disc_pending_resume := false })).say Action.sas_resume_sata

/-! ## Root device classification -/

/-- Embeds `sas_device_set_phy` for a non-NULL device: pin the last seen phy. -/
def sas_device_set_phy (e : Env) (s : Domain) (d : DevId) : Domain :=
  match e.sas_port_get_phy with
  | some new_phy => s.updDev d (fun x => { x with phy := some new_phy })
  | none => s

/-- Lines 95-111 of `sas_get_port_device`: the kind and protocol roles read
from the payload.  `~0x10` is an `int`; the `u8` register is promoted before
the mask is applied. -/
def classify_frame (oob_mode : Nat) (fr : frame) (x : domain_device) : domain_device :=
  if fr.byte0 = 0x34 ∧ oob_mode = SATA_OOB_MODE then
    { x with
      dev_type :=
        if fr.interrupt_reason = 1 ∧ fr.lbal = 1 ∧ fr.byte_count_low = 0x69 ∧
            fr.byte_count_high = 0x96 ∧ (fr.device &&& not32 0x10) = 0 then SAS_SATA_PM
        else SAS_SATA_DEV,
      tproto := SAS_PROTOCOL_SATA }
  else
    { x with dev_type := fr.dev_type, iproto := fr.initiator_bits, tproto := fr.target_bits }

/-- Lines 116-139 of `sas_get_port_device`: the switch that allocates the
reporting object.  Returns `rc`, whether `rphy` is non-NULL, and the state. -/
def alloc_rphy (e : Env) (s : Domain) (d : DevId) (ty : Nat) : Int × Bool × Domain :=
  if ty = SAS_SATA_DEV then
    let a := s.say (Action.sas_ata_init d)
    if e.sas_ata_init ≠ 0 then (e.sas_ata_init, false, a)
    else (e.sas_ata_init, e.sas_end_device_alloc, a.say (Action.sas_end_device_alloc d))
  else if ty = SAS_END_DEVICE then
    (-ENODEV, e.sas_end_device_alloc, s.say (Action.sas_end_device_alloc d))
  else if ty = SAS_EDGE_EXPANDER_DEVICE then
    (-ENODEV, e.sas_expander_alloc, s.say (Action.sas_expander_alloc d SAS_EDGE_EXPANDER_DEVICE))
  else if ty = SAS_FANOUT_EXPANDER_DEVICE then
    (-ENODEV, e.sas_expander_alloc,
      s.say (Action.sas_expander_alloc d SAS_FANOUT_EXPANDER_DEVICE))
  else (-ENODEV, false, s)

/-- Lines 146-172 of `sas_get_port_device`: fill in the device, make it the
port's root, link it on `disco_list` or `expander_list`, point the PHYs at it. -/
def link_root (e : Env) (s : Domain) (d : DevId) (phy : asd_sas_phy) : Domain :=
  let s6 := s.updDev d (fun x => { x with sas_addr := s.port.attached_sas_addr })
  let s7 := s6.setPort (fun p => { p with port_dev := some d })
  let s8 := s7.updDev d (fun x => { x with
    linkrate := s7.port.linkrate, min_linkrate := s7.port.linkrate,
    max_linkrate := s7.port.linkrate, pathways := s7.port.num_phys })
  let s9 := s8.setPort (fun p => { p with
    disc_fanout_sas_addr := 0, disc_eeds_a := 0, disc_eeds_b := 0, disc_max_level := 0 })
  let s10 := sas_device_set_phy e s9 d
  let s11 := s10.updDev d (fun x => { x with rphy := some phy.phy_identifier })
  let linked := match s11.dev d with
    | some x => dev_is_sata x || x.dev_type == SAS_END_DEVICE
    | none => false
  let s12 :=
    if linked then s11.setPort (fun p => { p with disco_list := p.disco_list ++ [d] })
    else s11.setPort (fun p => { p with expander_list := p.expander_list ++ [d] })
  s12.setPort (fun p => { p with
    phy_list := p.phy_list.map (fun q => { q with target := some d }) })

/-- Line 78 of `sas_get_port_device`: a successful `sas_alloc_device`; the
new device gets the next index of the device table. -/
def alloc_device (s : Domain) : Domain :=
  ({ s with devs := s.devs ++ [fresh_device] } : Domain).say
    (Action.sas_alloc_device s.devs.length)

/-- Lines 88-115 of `sas_get_port_device`: copy the payload of the first PHY,
classify, initialise the kind-specific state, set `dev->port`. -/
def classify_root (s : Domain) (d : DevId) (phy : asd_sas_phy) : Domain :=
  let s1 := s.updDev d (fun x => { x with frame_rcvd := phy.frame_rcvd })
  let s2 := s1.updDev d (classify_frame s1.port.oob_mode phy.frame_rcvd)
  let s3 := s2.updDev d sas_init_dev
  s3.updDev d (fun x => { x with has_port := true })

/-- The kind of a device, as the `switch (dev->dev_type)` statements read it. -/
def Domain.dev_type (s : Domain) (d : DevId) : Nat :=
  match s.dev d with
  | some x => x.dev_type
  | none => 0

/-- Embeds `sas_get_port_device`: allocate the root device, classify it from
the payload of the first PHY, allocate its reporting object and link it.
Returns the C return value and the state; the new device is at index
`s.devs.length`. -/
def sas_get_port_device (e : Env) (s : Domain) : Int × Domain :=
  if !e.sas_alloc_device then (-ENOMEM, s)
  else
    let d : DevId := s.devs.length
    let s0 := alloc_device s
    match s0.port.phy_list with
    | [] => (-ENODEV, sas_put_device s0 d)
    | phy :: _ =>
      let s4 := classify_root s0 d phy
      let r := alloc_rphy e s4 d (s4.dev_type d)
      if !r.2.1 then (r.1, sas_put_device r.2.2 d)
      else (0, link_root e r.2.2 d phy)

/-! ## Discovery -/

/-- Embeds `sas_discover_end_dev`. -/
def sas_discover_end_dev (e : Env) (s : Domain) (d : DevId) : Int × Domain :=
  let r := sas_notify_lldd_dev_found e s d
  if r.1 ≠ 0 then (r.1, r.2)
  else (0, (sas_notify_device_event e r.2 d sas_device_event.SAS_DEVICE_ADD).2)

/-- The test of the drain-wait loop: all three device lists are empty. -/
def lists_empty (p : asd_sas_port) : Bool :=
  p.dev_list.isEmpty && p.expander_list.isEmpty && p.disco_list.isEmpty

/-- The drain-wait loop of `sas_discover_domain`, started with counter `cnt`.
`polls k` is the state the k-th poll (counting from 0) finds after its
`msleep(100)`; other contexts may have changed it in between.  Returns the
state at the last poll and whether the lists were found empty (`true`) or the
ceiling was exceeded (`false`).  Each iteration uses one unit of fuel. -/
def drain_wait (polls : Nat → Domain) : Nat → Nat → Except Fault (Bool × Domain)
  | 0, _ => Except.error Fault.out_of_fuel
  | fuel + 1, cnt =>
    if lists_empty (polls cnt).port then Except.ok (true, polls cnt)
    else if cnt + 1 > SAS_MAX_WAIT_RESCOURCE_CLEAR_TIME * 10 then Except.ok (false, polls cnt)
    else drain_wait polls fuel (cnt + 1)

/-- The part of `sas_discover_domain` that runs under `disco_mutex`: classify
the root device, dispatch on its kind, unwind on error.
`sas_discover_root_expander` and `sas_discover_sata` are defined in other
files; they are recorded as outside calls and contribute their return code. -/
def sas_discover_domain_locked (e : Env) (s : Domain) : Except Fault Domain :=
  let r := sas_get_port_device e s
  if r.1 ≠ 0 then Except.ok r.2
  else
    let s1 := r.2
    match s1.port.port_dev with
    | none => Except.error Fault.null_deref
    | some d =>
      match s1.dev d with
      | none => Except.error Fault.null_deref
      | some dev =>
        let q : Int × Domain :=
          if dev.dev_type = SAS_END_DEVICE then sas_discover_end_dev e s1 d
          else if dev.dev_type = SAS_EDGE_EXPANDER_DEVICE ∨
              dev.dev_type = SAS_FANOUT_EXPANDER_DEVICE then
            (e.sas_discover_root_expander, s1.say (Action.sas_discover_root_expander d))
          else if (dev.dev_type = SAS_SATA_DEV ∨ dev.dev_type = SAS_SATA_PM) ∧
              e.CONFIG_SCSI_SAS_ATA = true then
            (e.sas_discover_sata, s1.say (Action.sas_discover_sata d))
          else (- ENXIO, s1)
        if q.1 ≠ 0 then
          let a := q.2.say (Action.sas_rphy_free d)
          let b := a.setPort (fun p => { p with disco_list := list_del d p.disco_list })
          let c := b.setPort (fun p => { p with
            dev_list := list_del d p.dev_list, expander_list := list_del d p.expander_list })
          let f := sas_put_device c d
          Except.ok (f.setPort (fun p => { p with port_dev := none }))
        else Except.ok q.2

/-- Embeds `sas_discover_domain`.  `s` is the state on entry, `polls` the
states found by the polls of the drain-wait loop. -/
def sas_discover_domain (e : Env) (fuel : Nat) (polls : Nat → Domain) (s : Domain) :
    Except Fault Domain :=
  if s.port.port_dev.isSome then
    match drain_wait polls fuel 0 with
    | Except.error f => Except.error f
    | Except.ok (false, t) => Except.ok t
    | Except.ok (true, t) => sas_discover_domain_locked e t
  else sas_discover_domain_locked e s

/-! ## Reachable states

The operations of the file as steps of one port's state.  Discovery is a step
taken when its drain-wait has finished, so every poll sees the current state;
the handler of the event at the head of `topo_wq` runs next, which is the
submission order. -/

/-- One operation of the discovery engine on the port. -/
inductive Step : Domain → Domain → Prop where
  | discover (e : Env) (fuel : Nat) (s t : Domain) :
      sas_discover_domain e fuel (fun _ => s) s = Except.ok t → Step s t
  | run_event (e : Env) (ev : sas_device_event) (d : DevId)
      (rest : List (sas_device_event × DevId)) (s t : Domain) :
      s.topo_wq = (ev, d) :: rest →
      sas_topo_event_fns e ev { s with topo_wq := rest } d = Except.ok t → Step s t
  | unregister_dev (e : Env) (d : DevId) (s : Domain) :
      Step s (sas_unregister_dev e s d)
  | unregister_domain_devices (e : Env) (gone : Bool) (s : Domain) :
      Step s (sas_unregister_domain_devices e s gone)
  | suspend (s t : Domain) : sas_suspend_devices s = Except.ok t → Step s t

/-- A port before its first discovery: no device, no root, empty lists, no event. -/
def initial (s : Domain) : Prop :=
  s.devs = [] ∧ s.topo_wq = [] ∧ s.port.port_dev = none ∧ s.port.disco_list = [] ∧
  s.port.dev_list = [] ∧ s.port.expander_list = []

/-- The states the operations reach from a port before its first discovery. -/
inductive Reachable : Domain → Prop where
  | init (s : Domain) : initial s → Reachable s
  | step (s t : Domain) : Reachable s → Step s t → Reachable t

/-- A device has a lifecycle event still queued. -/
def event_queued (s : Domain) (d : DevId) : Prop :=
  (sas_device_event.SAS_DEVICE_ADD, d) ∈ s.topo_wq ∨
  (sas_device_event.SAS_DEVICE_DEL, d) ∈ s.topo_wq

/-- The `SAS_DEV_FOUND` bit of a device (clear for a pointer into nothing). -/
def Domain.found (s : Domain) (d : DevId) : Bool :=
  match s.dev d with
  | some x => x.state.SAS_DEV_FOUND
  | none => false

/-- The `SAS_DEV_DESTROY` bit of a device. -/
def Domain.destroy (s : Domain) (d : DevId) : Bool :=
  match s.dev d with
  | some x => x.state.SAS_DEV_DESTROY
  | none => false

/-- The `SAS_DEV_PROBE_FAIL` bit of a device. -/
def Domain.probe_fail (s : Domain) (d : DevId) : Bool :=
  match s.dev d with
  | some x => x.state.SAS_DEV_PROBE_FAIL
  | none => false

/-- Calling `sas_unregister_dev` on one device once per element of `es`. -/
def unregister_calls (es : List Env) (s : Domain) (d : DevId) : Domain :=
  es.foldl (fun t e => sas_unregister_dev e t d) s

/-- The number of `SAS_DEVICE_DEL` events queued for a device. -/
def del_events (s : Domain) (d : DevId) : Nat :=
  s.topo_wq.count (sas_device_event.SAS_DEVICE_DEL, d)

/-! ## Example states -/

/-- An identify frame of a SAS end device (SSP target). -/
def end_frame : frame := ⟨0x10, 0, 0, 0, 0, 0, 1, 0, 8⟩

/-- A register FIS with the port-multiplier signature and device register `dev`. -/
def pm_fis (dev : Nat) : frame := ⟨0x34, 1, 1, 0x69, 0x96, dev, 3, 0, 0⟩

/-- A port of one PHY that received `fr`, nothing discovered yet. -/
def port_of (fr : frame) (oob : Nat) : asd_sas_port :=
  { phy_list := [⟨fr, 3, false, none⟩], oob_mode := oob, attached_sas_addr := 77,
    linkrate := 9, num_phys := 1, port_dev := none, disco_list := [], dev_list := [],
    expander_list := [], suspended := false, disc_pending_suspend := false,
    disc_pending_resume := false, disc_fanout_sas_addr := 0, disc_eeds_a := 0,
    disc_eeds_b := 0, disc_max_level := 0, sas_port_num_phys := 1, sas_port_rphy := false }

/-- A domain around a port, with the given hooks installed. -/
def domain_of (dft : sas_domain_function_template) (p : asd_sas_port) : Domain :=
  { dft := dft, port := p, devs := [], topo_wq := [], eh_active := 0, log := [] }

/-- No optional hook installed. -/
def no_hooks : sas_domain_function_template := ⟨false, false, false, false, false⟩

/-- Every hook installed. -/
def all_hooks : sas_domain_function_template := ⟨true, true, true, true, true⟩

/-- An environment where every outside call succeeds. -/
def env_ok : Env :=
  { CONFIG_SCSI_SAS_ATA := true, sas_alloc_device := true, kmalloc := fun _ _ => true,
    lldd_dev_found := fun _ => 0, sas_ata_init := 0, sas_end_device_alloc := true,
    sas_expander_alloc := true, sas_port_get_phy := some 1,
    sas_probe_sata_device_fails := false, sas_rphy_add := 0,
    sas_discover_root_expander := 0, sas_discover_sata := 0 }

/-- An environment where every outside call succeeds except the allocation
of lifecycle events. -/
def env_nomem : Env := { env_ok with kmalloc := fun _ _ => false }

/-- A port of one PHY whose end device has just been classified as the root
(device 0, on `disco_list`), with every hook installed. -/
def classified_domain : Domain :=
  (sas_get_port_device env_ok (domain_of all_hooks (port_of end_frame 2))).2

/-- A port whose root device (device 0) is still on `disco_list`. -/
def busy_domain : Domain :=
  { classified_domain with topo_wq := [(sas_device_event.SAS_DEVICE_ADD, 0)] }

/-- The record of the root device once `classify_root` has run on a freshly
allocated device. -/
def classified (oob_mode : Nat) (fr : frame) : domain_device :=
  { sas_init_dev (classify_frame oob_mode fr { fresh_device with frame_rcvd := fr }) with
    has_port := true }

/-- A port that has no member PHY, with every hook installed. -/
def no_phy_domain : Domain :=
  domain_of all_hooks { port_of end_frame 2 with phy_list := [] }

/-- The root end device (device 0) registered on `dev_list`, marked found,
holding the allocator's and the consumer's reference. -/
def active_domain : Domain :=
  { dft := all_hooks,
    port := { port_of end_frame 2 with port_dev := some 0, dev_list := [0] },
    devs := [{ classified 2 end_frame with
      rphy := some 3, kref := 2, state := ⟨false, true, false, false⟩ }],
    topo_wq := [], eh_active := 0, log := [] }

/-- The state after discovery of the root end device with every hook
installed: device 0 is on `disco_list`, marked found, with its Add event queued. -/
def discovered_domain : Domain := (sas_discover_end_dev env_ok classified_domain 0).2

/-- An environment in which `sas_rphy_add` fails. -/
def env_rphy_add_fails : Env := { env_ok with sas_rphy_add := -5 }

/-- Only the found hook installed. -/
def found_hook_only : sas_domain_function_template := ⟨true, false, false, false, false⟩

/-- An environment in which the consumer's found hook rejects the device. -/
def env_found_fails : Env := { env_ok with lldd_dev_found := fun _ => -19 }

/-- The failures of root-device classification: an empty PHY list, a device
type that none of the cases of the `switch` recognises, or a SATA device
whose `sas_ata_init` fails. -/
def classification_fails (e : Env) (s : Domain) : Prop :=
  match s.port.phy_list with
  | [] => True
  | phy :: _ =>
    ((classify_frame s.port.oob_mode phy.frame_rcvd fresh_device).dev_type ≠ SAS_SATA_DEV ∧
      (classify_frame s.port.oob_mode phy.frame_rcvd fresh_device).dev_type ≠ SAS_END_DEVICE ∧
      (classify_frame s.port.oob_mode phy.frame_rcvd fresh_device).dev_type ≠
        SAS_EDGE_EXPANDER_DEVICE ∧
      (classify_frame s.port.oob_mode phy.frame_rcvd fresh_device).dev_type ≠
        SAS_FANOUT_EXPANDER_DEVICE) ∨
    ((classify_frame s.port.oob_mode phy.frame_rcvd fresh_device).dev_type = SAS_SATA_DEV ∧
      e.sas_ata_init ≠ 0)

/-- An identify frame with the device type of an unused PHY. -/
def unused_frame : frame := ⟨0x00, 0, 0, 0, 0, 0, 0, 0, 0⟩

/-- The state an operation returned, or `dflt` if it stopped with a fault. -/
def returned (r : Except Fault Domain) (dflt : Domain) : Domain :=
  match r with
  | Except.ok t => t
  | Except.error _ => dflt

/-- A port of one PHY with an end-device identify frame, every hook
installed, before its first discovery. -/
def fresh_port : Domain := domain_of all_hooks (port_of end_frame 2)

/-- `fresh_port` after a discovery during which the allocation of the Add
event failed. -/
def discovered_no_event : Domain :=
  returned (sas_discover_domain env_nomem 1 (fun _ => fresh_port) fresh_port) fresh_port

/-- `discovered_no_event` after `sas_unregister_domain_devices`. -/
def unregister_requested : Domain := sas_unregister_domain_devices env_ok discovered_no_event true

/-- `unregister_requested` after its queued Delete event has run. -/
def deleted_on_disco_list : Domain :=
  returned
    (sas_topo_event_fns env_ok sas_device_event.SAS_DEVICE_DEL
      { unregister_requested with topo_wq := [] } 0)
    unregister_requested

/-- The number of devices holding exactly one reference: the releases that
can still run the destructor. -/
def Domain.last_refs (s : Domain) : Nat := s.devs.countP (fun x => x.kref == 1)

/-! ## The three device lists of a port -/

/-- A device is linked on at least one of `disco_list`, `dev_list` and
`expander_list`. -/
def on_some_list (p : asd_sas_port) (d : DevId) : Prop :=
  d ∈ p.disco_list ∨ d ∈ p.dev_list ∨ d ∈ p.expander_list

/-- A device is linked on two of the three lists at once. -/
def on_two_lists (p : asd_sas_port) (d : DevId) : Prop :=
  (d ∈ p.disco_list ∧ d ∈ p.dev_list) ∨ (d ∈ p.disco_list ∧ d ∈ p.expander_list) ∨
  (d ∈ p.dev_list ∧ d ∈ p.expander_list)

/-- A device is a member of exactly one of the three lists. -/
def on_exactly_one_list (p : asd_sas_port) (d : DevId) : Prop :=
  on_some_list p d ∧ ¬ on_two_lists p d

instance (p : asd_sas_port) (d : DevId) : Decidable (on_some_list p d) := by
  unfold on_some_list; exact inferInstance

instance (p : asd_sas_port) (d : DevId) : Decidable (on_two_lists p d) := by
  unfold on_two_lists; exact inferInstance

instance (p : asd_sas_port) (d : DevId) : Decidable (on_exactly_one_list p d) := by
  unfold on_exactly_one_list; exact inferInstance

/-- The references a device holds besides the one taken for the consumer's
found hook: `sas_notify_lldd_dev_found` takes a reference when it sets
`SAS_DEV_FOUND`, `sas_notify_lldd_dev_gone` gives it back when it clears the
bit. -/
def Domain.own_refs (s : Domain) (d : DevId) : Nat :=
  s.kref d - (if s.found d = true then 1 else 0)

/-- The state after `sas_unregister_dev` on the discovered root end device:
device 0 is on `disco_list`, destroy-requested, its Add event still queued
ahead of its Delete event. -/
def destroy_requested : Domain := sas_unregister_dev env_ok discovered_domain 0

/-- The state after the Add event of `destroy_requested` has run. -/
def add_skipped : Domain :=
  returned
    (sas_topo_event_fns env_ok sas_device_event.SAS_DEVICE_ADD
      { destroy_requested with topo_wq := [(sas_device_event.SAS_DEVICE_DEL, 0)] } 0)
    destroy_requested

/-- The state `add_skipped` once the port has lost its PHY: the root pointer
still names device 0, the three lists are empty, the PHY list is empty. -/
def stale_root : Domain :=
  { add_skipped with port := { add_skipped.port with phy_list := [] } }

/-- The state after a whole `sas_discover_domain` on `fresh_port` during
which the consumer's found hook rejects the device. -/
def dispatch_failed : Domain :=
  returned (sas_discover_domain env_found_fails 1 (fun _ => fresh_port) fresh_port) fresh_port

/-- The state after the Add event of `discovered_domain` has run: device 0
is registered on `dev_list`. -/
def added_domain : Domain :=
  returned
    (sas_topo_event_fns env_ok sas_device_event.SAS_DEVICE_ADD
      { discovered_domain with topo_wq := [] } 0)
    discovered_domain

/-- A state change that gives no device a reference of its own, clears no
destroy request and queues a Delete event only for a destroy-requested
device. -/
structure Soft (s t : Domain) : Prop where
  valid : ∀ i, (t.dev i).isSome = (s.dev i).isSome
  own : ∀ i, t.own_refs i ≤ s.own_refs i
  destroy : ∀ i, s.destroy i = true → t.destroy i = true
  queue : ∀ i, (sas_device_event.SAS_DEVICE_DEL, i) ∈ t.topo_wq →
    (sas_device_event.SAS_DEVICE_DEL, i) ∈ s.topo_wq ∨ t.destroy i = true

/-- What holds of the three lists between operations. -/
structure ListInv (s : Domain) : Prop where
  valid : ∀ i, on_some_list s.port i → (s.dev i).isSome = true
  at_most_one : ∀ i, ¬ on_two_lists s.port i
  del_requested : ∀ i, (sas_device_event.SAS_DEVICE_DEL, i) ∈ s.topo_wq → s.destroy i = true
  listed : ∀ i, 1 ≤ s.own_refs i → s.destroy i = false → on_some_list s.port i
  root : ∀ i, s.port.port_dev = some i → s.destroy i = false → on_some_list s.port i

/-- A state change of the dispatch of root device `d`: the port, the destroy
requests and the Delete events are as before, and only `d` can have gained a
reference, which the found hook holds. -/
structure Dispatched (s t : Domain) (d : DevId) : Prop where
  port : t.port = s.port
  valid : ∀ i, (t.dev i).isSome = (s.dev i).isSome
  destroy : ∀ i, t.destroy i = s.destroy i
  own : ∀ i, i ≠ d → t.own_refs i = s.own_refs i
  own_self : t.own_refs d ≤ s.kref d
  queue : ∀ i, (sas_device_event.SAS_DEVICE_DEL, i) ∈ t.topo_wq →
    (sas_device_event.SAS_DEVICE_DEL, i) ∈ s.topo_wq

/-! ## What releasing a reference leaves alone -/

/-- The fields of a device that `sas_put_device` never writes, and the count,
which it never raises. -/
def put_keeps (x y : domain_device) : Prop :=
  y.dev_type = x.dev_type ∧ y.iproto = x.iproto ∧ y.tproto = x.tproto ∧
  y.parent = x.parent ∧ y.state = x.state ∧ y.eh_list_node = x.eh_list_node ∧
  y.kref ≤ x.kref

/-- The same, through a device pointer. -/
def dev_keeps (a b : Option domain_device) : Prop :=
  match a, b with
  | some x, some y => put_keeps x y
  | none, none => True
  | _, _ => False

/-- A state change that only releases references: hooks, port, queue and
`eh_active` unchanged, devices changed as `put_keeps` allows, and only
`kfree` added to the log. -/
structure Frame (s t : Domain) : Prop where
  dft : t.dft = s.dft
  port : t.port = s.port
  topo_wq : t.topo_wq = s.topo_wq
  eh_active : t.eh_active = s.eh_active
  devs : ∀ i, dev_keeps (s.dev i) (t.dev i)
  log : ∃ l, t.log = s.log ++ l ∧ ∀ a ∈ l, ∃ d, a = Action.kfree d

/-! ## Basic facts about the state helpers -/

@[simp] theorem updDev_port (s : Domain) (d : DevId) (f : domain_device → domain_device) :
    (s.updDev d f).port = s.port := by
  unfold Domain.updDev; split <;> rfl

@[simp] theorem updDev_topo_wq (s : Domain) (d : DevId) (f : domain_device → domain_device) :
    (s.updDev d f).topo_wq = s.topo_wq := by
  unfold Domain.updDev; split <;> rfl

@[simp] theorem updDev_log (s : Domain) (d : DevId) (f : domain_device → domain_device) :
    (s.updDev d f).log = s.log := by
  unfold Domain.updDev; split <;> rfl

@[simp] theorem updDev_dft (s : Domain) (d : DevId) (f : domain_device → domain_device) :
    (s.updDev d f).dft = s.dft := by
  unfold Domain.updDev; split <;> rfl

@[simp] theorem updDev_eh_active (s : Domain) (d : DevId) (f : domain_device → domain_device) :
    (s.updDev d f).eh_active = s.eh_active := by
  unfold Domain.updDev; split <;> rfl

@[simp] theorem updDev_length (s : Domain) (d : DevId) (f : domain_device → domain_device) :
    (s.updDev d f).devs.length = s.devs.length := by
  unfold Domain.updDev; split <;> simp

theorem dev_updDev (s : Domain) (d i : DevId) (f : domain_device → domain_device) :
    (s.updDev d f).dev i = if i = d then (s.dev d).map f else s.dev i := by
  unfold Domain.updDev Domain.dev
  by_cases h : i = d
  · subst h
    cases hx : s.devs[i]? with
    | none => simp [hx]
    | some x =>
      have hlt : i < s.devs.length := by
        rcases List.getElem?_eq_some.mp hx with ⟨h, _⟩
        exact h
      simp [List.getElem?_set, hlt]
  · cases hx : s.devs[d]? with
    | none => simp [h]
    | some x =>
      have hne : d ≠ i := fun h2 => h h2.symm
      simp [h, List.getElem?_set, hne]

@[simp] theorem dev_updDev_self (s : Domain) (d : DevId) (f : domain_device → domain_device) :
    (s.updDev d f).dev d = (s.dev d).map f := by
  simp [dev_updDev]

@[simp] theorem say_port (s : Domain) (a : Action) : (s.say a).port = s.port := rfl
@[simp] theorem say_devs (s : Domain) (a : Action) : (s.say a).devs = s.devs := rfl
@[simp] theorem say_topo_wq (s : Domain) (a : Action) : (s.say a).topo_wq = s.topo_wq := rfl
@[simp] theorem say_dft (s : Domain) (a : Action) : (s.say a).dft = s.dft := rfl
@[simp] theorem say_eh_active (s : Domain) (a : Action) : (s.say a).eh_active = s.eh_active := rfl
@[simp] theorem say_log (s : Domain) (a : Action) : (s.say a).log = s.log ++ [a] := rfl
@[simp] theorem dev_say (s : Domain) (a : Action) (i : DevId) : (s.say a).dev i = s.dev i := rfl

@[simp] theorem setPort_port (s : Domain) (f : asd_sas_port → asd_sas_port) :
    (s.setPort f).port = f s.port := rfl
@[simp] theorem setPort_devs (s : Domain) (f : asd_sas_port → asd_sas_port) :
    (s.setPort f).devs = s.devs := rfl
@[simp] theorem setPort_topo_wq (s : Domain) (f : asd_sas_port → asd_sas_port) :
    (s.setPort f).topo_wq = s.topo_wq := rfl
@[simp] theorem setPort_dft (s : Domain) (f : asd_sas_port → asd_sas_port) :
    (s.setPort f).dft = s.dft := rfl
@[simp] theorem setPort_eh_active (s : Domain) (f : asd_sas_port → asd_sas_port) :
    (s.setPort f).eh_active = s.eh_active := rfl
@[simp] theorem setPort_log (s : Domain) (f : asd_sas_port → asd_sas_port) :
    (s.setPort f).log = s.log := rfl
@[simp] theorem dev_setPort (s : Domain) (f : asd_sas_port → asd_sas_port) (i : DevId) :
    (s.setPort f).dev i = s.dev i := rfl
@[simp] theorem kref_setPort (s : Domain) (f : asd_sas_port → asd_sas_port) (i : DevId) :
    (s.setPort f).kref i = s.kref i := rfl
@[simp] theorem kref_say (s : Domain) (a : Action) (i : DevId) : (s.say a).kref i = s.kref i :=
  rfl

theorem kref_eq (s : Domain) (d : DevId) :
    s.kref d = match s.dev d with
      | some x => x.kref
      | none => 0 := rfl

theorem mem_list_del (d x : DevId) (l : List DevId) : x ∈ list_del d l ↔ x ∈ l ∧ x ≠ d := by
  simp [list_del, List.mem_filter]

theorem not_mem_list_del (d : DevId) (l : List DevId) : d ∉ list_del d l := by
  simp [mem_list_del]

/-! ## Releasing references -/

theorem put_keeps_refl (x : domain_device) : put_keeps x x := by
  simp [put_keeps]

theorem put_keeps_trans {x y z : domain_device} (h1 : put_keeps x y) (h2 : put_keeps y z) :
    put_keeps x z := by
  obtain ⟨a1, a2, a3, a4, a5, a6, a7⟩ := h1
  obtain ⟨b1, b2, b3, b4, b5, b6, b7⟩ := h2
  exact ⟨b1.trans a1, b2.trans a2, b3.trans a3, b4.trans a4, b5.trans a5, b6.trans a6,
    le_trans b7 a7⟩

theorem dev_keeps_refl (a : Option domain_device) : dev_keeps a a := by
  cases a with
  | none => trivial
  | some x => exact put_keeps_refl x

theorem dev_keeps_trans {a b c : Option domain_device} (h1 : dev_keeps a b)
    (h2 : dev_keeps b c) : dev_keeps a c := by
  cases a <;> cases b <;> cases c <;> simp only [dev_keeps] at h1 h2 ⊢
  exact put_keeps_trans h1 h2

theorem Frame.refl (s : Domain) : Frame s s :=
  ⟨rfl, rfl, rfl, rfl, fun i => dev_keeps_refl _, ⟨[], by simp, by simp⟩⟩

theorem Frame.trans {s t u : Domain} (h1 : Frame s t) (h2 : Frame t u) : Frame s u := by
  obtain ⟨a1, a2, a3, a4, a5, l1, a6, a7⟩ := h1
  obtain ⟨b1, b2, b3, b4, b5, l2, b6, b7⟩ := h2
  refine ⟨b1.trans a1, b2.trans a2, b3.trans a3, b4.trans a4,
    fun i => dev_keeps_trans (a5 i) (b5 i), ⟨l1 ++ l2, ?_, ?_⟩⟩
  · rw [b6, a6, List.append_assoc]
  · intro a ha
    rcases List.mem_append.mp ha with h | h
    · exact a7 a h
    · exact b7 a h

theorem Frame.updDev (s : Domain) (d : DevId) (f : domain_device → domain_device)
    (hf : ∀ x, put_keeps x (f x)) : Frame s (s.updDev d f) := by
  refine ⟨by simp, by simp, by simp, by simp, ?_, ⟨[], by simp, by simp⟩⟩
  intro i
  rw [dev_updDev]
  by_cases h : i = d
  · subst h
    simp only [if_true]
    cases hx : s.dev i with
    | none => trivial
    | some x => exact hf x
  · simp only [h, if_false]
    exact dev_keeps_refl _

theorem Frame.say_kfree (s : Domain) (d : DevId) : Frame s (s.say (Action.kfree d)) :=
  ⟨rfl, rfl, rfl, rfl, fun i => dev_keeps_refl _, ⟨[Action.kfree d], rfl, by simp⟩⟩

theorem sas_free_device_frame (put : Domain → DevId → Domain)
    (hput : ∀ s p, Frame s (put s p)) (s : Domain) (d : DevId) :
    Frame s (sas_free_device put s d) := by
  have hA : ∀ s3 : Domain, Frame s3 (match s3.dev d with
      | some x => if dev_is_sata x && x.sata_ap then
          s3.updDev d (fun y => { y with sata_ap := false }) else s3
      | none => s3) := by
    intro s3
    split
    · split
      · exact Frame.updDev s3 d _ (fun x => by simp [put_keeps])
      · exact Frame.refl _
    · exact Frame.refl _
  have hB : ∀ s1 : Domain, Frame s1 (match (s.dev d).bind (fun x => x.parent) with
      | some p => put s1 p
      | none => s1) := by
    intro s1
    split
    · exact hput _ _
    · exact Frame.refl _
  unfold sas_free_device
  dsimp only
  refine Frame.trans ?_ (Frame.say_kfree _ d)
  refine Frame.trans ?_ (Frame.updDev _ d _ (fun x => by simp [put_keeps]))
  refine Frame.trans ?_ (hA _)
  refine Frame.trans ?_ (Frame.updDev _ d _ (fun x => by simp [put_keeps]))
  refine Frame.trans ?_ (hB _)
  exact Frame.updDev _ d _ (fun x => by simp [put_keeps])

theorem kref_put_frame (fuel : Nat) : ∀ (s : Domain) (d : DevId), Frame s (kref_put fuel s d) := by
  induction fuel with
  | zero => intro s d; exact Frame.refl s
  | succ n ih =>
    intro s d
    unfold kref_put
    split
    · exact Frame.refl s
    · split
      · exact Frame.trans (Frame.updDev s d _ (fun x => by simp [put_keeps]))
          (sas_free_device_frame (kref_put n) ih _ d)
      · exact Frame.updDev s d _ (fun x => by simp [put_keeps])

theorem sas_put_device_frame (s : Domain) (d : DevId) : Frame s (sas_put_device s d) :=
  kref_put_frame _ s d

theorem Frame.kref_le {s t : Domain} (h : Frame s t) (i : DevId) : t.kref i ≤ s.kref i := by
  have h5 := h.devs i
  rw [kref_eq, kref_eq]
  cases hs : s.dev i <;> cases ht : t.dev i <;> simp only [hs, ht, dev_keeps] at h5 ⊢
  · exact le_refl _
  · exact h5.2.2.2.2.2.2

theorem kref_updDev_self (s : Domain) (d : DevId) (f : domain_device → domain_device) :
    (s.updDev d f).kref d = match s.dev d with
      | some x => (f x).kref
      | none => 0 := by
  rw [kref_eq, dev_updDev_self]
  cases s.dev d <;> rfl

/-- One release lowers the count of the device by one (a count of zero stays zero). -/
theorem kref_sas_put_device (s : Domain) (d : DevId) :
    (sas_put_device s d).kref d = s.kref d - 1 := by
  unfold sas_put_device kref_put
  cases hx : s.devs[d]? with
  | none =>
    have : s.dev d = none := hx
    simp [kref_eq, this]
  | some dev =>
    have hd : s.dev d = some dev := hx
    simp only []
    split
    · rename_i h1
      have hle := (sas_free_device_frame (kref_put s.devs.length) (kref_put_frame _)
        (s.updDev d (fun x => { x with kref := 0 })) d).kref_le d
      rw [kref_updDev_self, hd] at hle
      simp only [] at hle
      rw [kref_eq s d, hd]
      simp only [h1]
      omega
    · rw [kref_updDev_self, hd, kref_eq s d, hd]

/-! ## The fuel of `kref_put` is never used up -/

theorem last_refs_updDev_keep (s : Domain) (d : DevId) (f : domain_device → domain_device)
    (hf : ∀ x, (f x).kref = x.kref) : (s.updDev d f).last_refs = s.last_refs := by
  unfold Domain.updDev Domain.last_refs
  cases hx : s.devs[d]? with
  | none => rfl
  | some x =>
    obtain ⟨hlt, hget⟩ := List.getElem?_eq_some.mp hx
    simp only []
    rw [List.countP_set _ _ _ _ hlt, hget, hf x]
    have := List.boole_getElem_le_countP (fun x => x.kref == 1) s.devs d hlt
    rw [hget] at this
    omega

theorem last_refs_updDev_zero (s : Domain) (d : DevId) (x : domain_device)
    (hx : s.devs[d]? = some x) (h1 : x.kref = 1) :
    (s.updDev d (fun y => { y with kref := 0 })).last_refs + 1 = s.last_refs := by
  unfold Domain.updDev Domain.last_refs
  obtain ⟨hlt, hget⟩ := List.getElem?_eq_some.mp hx
  rw [hx]
  simp only []
  rw [List.countP_set _ _ _ _ hlt, hget]
  have := List.boole_getElem_le_countP (fun x => x.kref == 1) s.devs d hlt
  rw [hget] at this
  simp only [h1, beq_self_eq_true, if_true] at this ⊢
  simp
  omega

/-- Any fuel above the number of devices holding their last reference gives
the same result: the recursion of `kref_put` has ended before. -/
theorem kref_put_fuel (n : Nat) :
    ∀ (m : Nat) (s : Domain) (d : DevId), s.last_refs < n → s.last_refs < m →
      kref_put n s d = kref_put m s d := by
  induction n with
  | zero => intro m s d hn _; omega
  | succ n ih =>
    intro m s d hn hm
    cases m with
    | zero => omega
    | succ m =>
      unfold kref_put
      cases hx : s.devs[d]? with
      | none => rfl
      | some x =>
        simp only []
        by_cases h1 : x.kref = 1
        · rw [if_pos h1, if_pos h1]
          have hz := last_refs_updDev_zero s d x hx h1
          have key : ∀ p, kref_put n ((s.updDev d (fun y => { y with kref := 0 })).updDev d
              (fun y => { y with rphy := none })) p =
              kref_put m ((s.updDev d (fun y => { y with kref := 0 })).updDev d
              (fun y => { y with rphy := none })) p := by
            intro p
            have hk := last_refs_updDev_keep (s.updDev d (fun y => { y with kref := 0 })) d
              (fun y => { y with rphy := none }) (fun _ => rfl)
            exact ih m _ p (by omega) (by omega)
          unfold sas_free_device
          simp only [key]
        · rw [if_neg h1, if_neg h1]

/-- The fuel `sas_put_device` passes is enough: more fuel changes nothing. -/
theorem sas_put_device_fuel (s : Domain) (d : DevId) (n : Nat) (h : s.devs.length < n) :
    kref_put n s d = sas_put_device s d := by
  unfold sas_put_device
  have hle : s.last_refs ≤ s.devs.length := List.countP_le_length _
  exact kref_put_fuel n _ s d (by omega) (by omega)

/-! ## Classification of the root device -/

@[simp] theorem alloc_device_port (s : Domain) : (alloc_device s).port = s.port := rfl
@[simp] theorem alloc_device_topo_wq (s : Domain) : (alloc_device s).topo_wq = s.topo_wq := rfl
@[simp] theorem alloc_device_dft (s : Domain) : (alloc_device s).dft = s.dft := rfl
@[simp] theorem alloc_device_eh_active (s : Domain) :
    (alloc_device s).eh_active = s.eh_active := rfl
@[simp] theorem alloc_device_log (s : Domain) :
    (alloc_device s).log = s.log ++ [Action.sas_alloc_device s.devs.length] := rfl
@[simp] theorem alloc_device_length (s : Domain) :
    (alloc_device s).devs.length = s.devs.length + 1 := by
  simp [alloc_device, Domain.say]

@[simp] theorem dev_alloc_device_new (s : Domain) :
    (alloc_device s).dev s.devs.length = some fresh_device := by
  simp [alloc_device, Domain.say, Domain.dev]

theorem dev_alloc_device_old (s : Domain) (i : DevId) (h : i < s.devs.length) :
    (alloc_device s).dev i = s.dev i := by
  simp [alloc_device, Domain.say, Domain.dev, List.getElem?_append_left h]

@[simp] theorem classify_root_port (s : Domain) (d : DevId) (phy : asd_sas_phy) :
    (classify_root s d phy).port = s.port := by
  simp [classify_root]

@[simp] theorem classify_root_topo_wq (s : Domain) (d : DevId) (phy : asd_sas_phy) :
    (classify_root s d phy).topo_wq = s.topo_wq := by
  simp [classify_root]

@[simp] theorem classify_root_dft (s : Domain) (d : DevId) (phy : asd_sas_phy) :
    (classify_root s d phy).dft = s.dft := by
  simp [classify_root]

@[simp] theorem classify_root_eh_active (s : Domain) (d : DevId) (phy : asd_sas_phy) :
    (classify_root s d phy).eh_active = s.eh_active := by
  simp [classify_root]

@[simp] theorem classify_root_log (s : Domain) (d : DevId) (phy : asd_sas_phy) :
    (classify_root s d phy).log = s.log := by
  simp [classify_root]

/-- The device record `classify_root` leaves, from the record it found. -/
theorem dev_classify_root_self (s : Domain) (d : DevId) (phy : asd_sas_phy) :
    (classify_root s d phy).dev d = (s.dev d).map (fun x =>
      { sas_init_dev (classify_frame s.port.oob_mode phy.frame_rcvd
          { x with frame_rcvd := phy.frame_rcvd }) with has_port := true }) := by
  simp [classify_root, Option.map_map, Function.comp_def]

theorem dev_classify_root_ne (s : Domain) (d i : DevId) (phy : asd_sas_phy) (h : i ≠ d) :
    (classify_root s d phy).dev i = s.dev i := by
  simp [classify_root, dev_updDev, h]

theorem sas_init_dev_keeps (x : domain_device) :
    (sas_init_dev x).dev_type = x.dev_type ∧ (sas_init_dev x).tproto = x.tproto ∧
    (sas_init_dev x).iproto = x.iproto ∧ (sas_init_dev x).kref = x.kref ∧
    (sas_init_dev x).state = x.state ∧ (sas_init_dev x).parent = x.parent ∧
    (sas_init_dev x).rphy = x.rphy := by
  unfold sas_init_dev
  split_ifs <;> simp

theorem classify_frame_keeps (oob : Nat) (fr : frame) (x : domain_device) :
    (classify_frame oob fr x).kref = x.kref ∧ (classify_frame oob fr x).state = x.state ∧
    (classify_frame oob fr x).parent = x.parent ∧ (classify_frame oob fr x).rphy = x.rphy := by
  unfold classify_frame
  split_ifs <;> simp

theorem alloc_rphy_state (e : Env) (s : Domain) (d : DevId) (ty : Nat) :
    (alloc_rphy e s d ty).2.2.port = s.port ∧ (alloc_rphy e s d ty).2.2.topo_wq = s.topo_wq ∧
    (alloc_rphy e s d ty).2.2.dft = s.dft ∧ (alloc_rphy e s d ty).2.2.devs = s.devs ∧
    (alloc_rphy e s d ty).2.2.eh_active = s.eh_active := by
  unfold alloc_rphy
  split_ifs <;> simp

@[simp] theorem alloc_rphy_port (e : Env) (s : Domain) (d : DevId) (ty : Nat) :
    (alloc_rphy e s d ty).2.2.port = s.port := (alloc_rphy_state e s d ty).1

@[simp] theorem alloc_rphy_topo_wq (e : Env) (s : Domain) (d : DevId) (ty : Nat) :
    (alloc_rphy e s d ty).2.2.topo_wq = s.topo_wq := (alloc_rphy_state e s d ty).2.1

@[simp] theorem alloc_rphy_dft (e : Env) (s : Domain) (d : DevId) (ty : Nat) :
    (alloc_rphy e s d ty).2.2.dft = s.dft := (alloc_rphy_state e s d ty).2.2.1

@[simp] theorem dev_alloc_rphy (e : Env) (s : Domain) (d i : DevId) (ty : Nat) :
    (alloc_rphy e s d ty).2.2.dev i = s.dev i := by
  unfold Domain.dev
  rw [(alloc_rphy_state e s d ty).2.2.2.1]

@[simp] theorem alloc_rphy_length (e : Env) (s : Domain) (d : DevId) (ty : Nat) :
    (alloc_rphy e s d ty).2.2.devs.length = s.devs.length := by
  rw [(alloc_rphy_state e s d ty).2.2.2.1]

@[simp] theorem link_root_topo_wq (e : Env) (s : Domain) (d : DevId) (phy : asd_sas_phy) :
    (link_root e s d phy).topo_wq = s.topo_wq := by
  unfold link_root sas_device_set_phy
  dsimp only
  split <;> split <;> simp

@[simp] theorem link_root_log (e : Env) (s : Domain) (d : DevId) (phy : asd_sas_phy) :
    (link_root e s d phy).log = s.log := by
  unfold link_root sas_device_set_phy
  dsimp only
  split <;> split <;> simp

@[simp] theorem link_root_dft (e : Env) (s : Domain) (d : DevId) (phy : asd_sas_phy) :
    (link_root e s d phy).dft = s.dft := by
  unfold link_root sas_device_set_phy
  dsimp only
  split <;> split <;> simp

theorem dev_link_root_ne (e : Env) (s : Domain) (d i : DevId) (phy : asd_sas_phy) (h : i ≠ d) :
    (link_root e s d phy).dev i = s.dev i := by
  unfold link_root sas_device_set_phy
  dsimp only
  cases e.sas_port_get_phy <;> dsimp only <;> split <;> simp [dev_updDev, h]

/-- What `link_root` does to the device it links and to the port's lists. -/
theorem link_root_spec (e : Env) (s : Domain) (d : DevId) (phy : asd_sas_phy)
    (x : domain_device) (hx : s.dev d = some x) :
    (∃ y, (link_root e s d phy).dev d = some y ∧ y.dev_type = x.dev_type ∧
      y.tproto = x.tproto ∧ y.iproto = x.iproto ∧ y.kref = x.kref ∧ y.state = x.state ∧
      y.parent = x.parent ∧ y.rphy = some phy.phy_identifier) ∧
    (link_root e s d phy).port.port_dev = some d ∧
    (link_root e s d phy).port.dev_list = s.port.dev_list ∧
    (link_root e s d phy).port.disco_list =
      (if dev_is_sata x || x.dev_type == SAS_END_DEVICE then s.port.disco_list ++ [d]
       else s.port.disco_list) ∧
    (link_root e s d phy).port.expander_list =
      (if dev_is_sata x || x.dev_type == SAS_END_DEVICE then s.port.expander_list
       else s.port.expander_list ++ [d]) := by
  unfold link_root sas_device_set_phy
  dsimp only
  cases e.sas_port_get_phy <;> dsimp only <;>
    simp only [dev_updDev_self, dev_setPort, hx, Option.map_some', dev_is_sata] <;>
    split <;> simp_all

theorem sas_get_port_device_nomem (e : Env) (s : Domain) (h : e.sas_alloc_device = false) :
    sas_get_port_device e s = (-ENOMEM, s) := by
  simp [sas_get_port_device, h]

theorem sas_get_port_device_no_phy (e : Env) (s : Domain) (h : e.sas_alloc_device = true)
    (hphy : s.port.phy_list = []) :
    sas_get_port_device e s = (-ENODEV, sas_put_device (alloc_device s) s.devs.length) := by
  simp [sas_get_port_device, h, hphy]

theorem sas_get_port_device_phy (e : Env) (s : Domain) (phy : asd_sas_phy)
    (rest : List asd_sas_phy) (h : e.sas_alloc_device = true)
    (hphy : s.port.phy_list = phy :: rest) :
    sas_get_port_device e s =
      if !(alloc_rphy e (classify_root (alloc_device s) s.devs.length phy) s.devs.length
          ((classify_root (alloc_device s) s.devs.length phy).dev_type s.devs.length)).2.1 then
        ((alloc_rphy e (classify_root (alloc_device s) s.devs.length phy) s.devs.length
          ((classify_root (alloc_device s) s.devs.length phy).dev_type s.devs.length)).1,
         sas_put_device (alloc_rphy e (classify_root (alloc_device s) s.devs.length phy)
          s.devs.length
          ((classify_root (alloc_device s) s.devs.length phy).dev_type s.devs.length)).2.2
          s.devs.length)
      else
        (0, link_root e (alloc_rphy e (classify_root (alloc_device s) s.devs.length phy)
          s.devs.length
          ((classify_root (alloc_device s) s.devs.length phy).dev_type s.devs.length)).2.2
          s.devs.length phy) := by
  simp [sas_get_port_device, h, hphy]

theorem dev_classify_root_new (s : Domain) (phy : asd_sas_phy) :
    (classify_root (alloc_device s) s.devs.length phy).dev s.devs.length =
      some (classified s.port.oob_mode phy.frame_rcvd) := by
  rw [dev_classify_root_self, dev_alloc_device_new]
  rfl

theorem dev_type_classify_root_new (s : Domain) (phy : asd_sas_phy) :
    (classify_root (alloc_device s) s.devs.length phy).dev_type s.devs.length =
      (classified s.port.oob_mode phy.frame_rcvd).dev_type := by
  unfold Domain.dev_type
  rw [dev_classify_root_new]

theorem classified_fields (oob : Nat) (fr : frame) :
    (classified oob fr).dev_type = (classify_frame oob fr fresh_device).dev_type ∧
    (classified oob fr).tproto = (classify_frame oob fr fresh_device).tproto ∧
    (classified oob fr).kref = 1 ∧ (classified oob fr).state = ⟨false, false, false, false⟩ ∧
    (classified oob fr).parent = none ∧ (classified oob fr).rphy = none := by
  unfold classified
  have h1 := sas_init_dev_keeps (classify_frame oob fr { fresh_device with frame_rcvd := fr })
  have h2 := classify_frame_keeps oob fr { fresh_device with frame_rcvd := fr }
  obtain ⟨a1, a2, a3, a4, a5, a6, a7⟩ := h1
  obtain ⟨b1, b2, b3, b4⟩ := h2
  refine ⟨?_, ?_, ?_, ?_, ?_, ?_⟩
  · simp only [a1]; unfold classify_frame; split_ifs <;> rfl
  · simp only [a2]; unfold classify_frame; split_ifs <;> rfl
  · simp only [a4, b1]; rfl
  · simp only [a5, b2]; rfl
  · simp only [a6, b3]; rfl
  · simp only [a7, b4]; rfl

/-- The device `sas_get_port_device` leaves at the new index, whether it
succeeded or released it again: kind, protocol and flags are those of the
classified record. -/
theorem sas_get_port_device_dev (e : Env) (s : Domain) (phy : asd_sas_phy)
    (rest : List asd_sas_phy) (h : e.sas_alloc_device = true)
    (hphy : s.port.phy_list = phy :: rest) :
    ∃ y, (sas_get_port_device e s).2.dev s.devs.length = some y ∧
      y.dev_type = (classified s.port.oob_mode phy.frame_rcvd).dev_type ∧
      y.tproto = (classified s.port.oob_mode phy.frame_rcvd).tproto ∧
      y.state = ⟨false, false, false, false⟩ ∧ y.parent = none ∧ y.kref ≤ 1 := by
  rw [sas_get_port_device_phy e s phy rest h hphy]
  have hc := dev_classify_root_new s phy
  obtain ⟨c1, c2, c3, c4, c5, c6⟩ := classified_fields s.port.oob_mode phy.frame_rcvd
  generalize classify_root (alloc_device s) s.devs.length phy = s4 at hc ⊢
  have hr := dev_alloc_rphy e s4 s.devs.length s.devs.length (s4.dev_type s.devs.length)
  generalize alloc_rphy e s4 s.devs.length (s4.dev_type s.devs.length) = r at hr ⊢
  rw [hc] at hr
  generalize classified s.port.oob_mode phy.frame_rcvd = x at hr c1 c2 c3 c4 c5 c6 ⊢
  split
  · have hf := (sas_put_device_frame r.2.2 s.devs.length).devs s.devs.length
    rw [hr] at hf
    dsimp only
    cases hy : (sas_put_device r.2.2 s.devs.length).dev s.devs.length with
    | none => rw [hy] at hf; exact hf.elim
    | some y =>
      rw [hy] at hf
      obtain ⟨k1, _, k3, k4, k5, _, k7⟩ := hf
      exact ⟨y, rfl, k1, k3, k5.trans c4, k4.trans c5, by omega⟩
  · obtain ⟨⟨y, hy, k1, k2, _, k4, k5, k6, _⟩, _⟩ := link_root_spec e _ s.devs.length phy _ hr
    exact ⟨y, hy, k1, k2, k5.trans c4, k6.trans c5, by omega⟩

set_option maxRecDepth 100000 in
theorem pm_mask_u8 (n : Nat) (h : n < 256) : (n &&& not32 0x10) = 0 ↔ (n = 0x00 ∨ n = 0x10) := by
  have key : ∀ m : Fin 256, ((m.val &&& not32 0x10) = 0 ↔ (m.val = 0x00 ∨ m.val = 0x10)) := by
    decide
  exact key ⟨n, h⟩


/-! ## C3: SATA disambiguation -/

/-- C3 (as stated) fails: the payload with signature byte 0x34 captured in
SATA OOB mode, interrupt_reason 1, lbal 1, byte counts 0x69 and 0x96 and
device register 0xA0 has the low nibble of the register equal to 0, yet
`sas_get_port_device` classifies the device as a plain SATA device. -/
theorem C3_counterexample :
    ¬ (((sas_get_port_device env_ok
          (domain_of no_hooks (port_of (pm_fis 0xA0) SATA_OOB_MODE))).2.dev 0).map
          (fun x => x.dev_type) = some SAS_SATA_PM ↔
        ((pm_fis 0xA0).interrupt_reason = 1 ∧ (pm_fis 0xA0).lbal = 1 ∧
          (pm_fis 0xA0).byte_count_low = 0x69 ∧ (pm_fis 0xA0).byte_count_high = 0x96 ∧
          (pm_fis 0xA0).device &&& 0x0F = 0)) := by
  decide

/-- C3 (amended): for a payload with signature byte 0x34 captured on a port in
SATA OOB mode, `sas_get_port_device` classifies the device as SATA
port-multiplier exactly when interrupt_reason = 1, lbal = 1, byte_count_low =
0x69, byte_count_high = 0x96 and the device register has no bit set other
than bit 4 (`device & ~0x10 = 0`: the register is 0x00 or 0x10); every other
such payload is classified as a plain SATA device, and in both cases the
target protocol is SATA. -/
theorem C3_sata_classification (e : Env) (s : Domain) (phy : asd_sas_phy)
    (rest : List asd_sas_phy) (halloc : e.sas_alloc_device = true)
    (hphy : s.port.phy_list = phy :: rest) (hsig : phy.frame_rcvd.byte0 = 0x34)
    (hoob : s.port.oob_mode = SATA_OOB_MODE) (hu8 : phy.frame_rcvd.device < 256) :
    ∃ x, (sas_get_port_device e s).2.dev s.devs.length = some x ∧
      x.tproto = SAS_PROTOCOL_SATA ∧
      (x.dev_type = SAS_SATA_PM ↔
        (phy.frame_rcvd.interrupt_reason = 1 ∧ phy.frame_rcvd.lbal = 1 ∧
          phy.frame_rcvd.byte_count_low = 0x69 ∧ phy.frame_rcvd.byte_count_high = 0x96 ∧
          (phy.frame_rcvd.device = 0x00 ∨ phy.frame_rcvd.device = 0x10))) ∧
      (x.dev_type ≠ SAS_SATA_PM → x.dev_type = SAS_SATA_DEV) := by
  obtain ⟨y, hy, k1, k2, _, _, _⟩ := sas_get_port_device_dev e s phy rest halloc hphy
  obtain ⟨c1, c2, _⟩ := classified_fields s.port.oob_mode phy.frame_rcvd
  rw [c1] at k1
  rw [c2] at k2
  have hm := pm_mask_u8 phy.frame_rcvd.device hu8
  refine ⟨y, hy, ?_, ?_, ?_⟩
  · rw [k2]
    simp [classify_frame, hsig, hoob]
  · rw [k1]
    simp only [classify_frame, hsig, hoob, and_self, if_true]
    split_ifs with hc
    · simp only [true_iff]
      exact ⟨hc.1, hc.2.1, hc.2.2.1, hc.2.2.2.1, hm.mp hc.2.2.2.2⟩
    · constructor
      · intro hbad
        exact absurd hbad (by decide)
      · intro hc2
        exact absurd ⟨hc2.1, hc2.2.1, hc2.2.2.1, hc2.2.2.2.1, hm.mpr hc2.2.2.2.2⟩ hc
  · rw [k1]
    simp only [classify_frame, hsig, hoob, and_self, if_true]
    split_ifs with hc
    · intro hbad
      exact absurd rfl hbad
    · intro _
      rfl

/-- C3 witness: a port-multiplier signature with device register 0x10 on a
SATA OOB port. -/
theorem C3_sata_classification_witness :
    ∃ x, (sas_get_port_device env_ok
        (domain_of no_hooks (port_of (pm_fis 0x10) SATA_OOB_MODE))).2.dev 0 = some x ∧
      x.tproto = SAS_PROTOCOL_SATA ∧
      (x.dev_type = SAS_SATA_PM ↔
        ((pm_fis 0x10).interrupt_reason = 1 ∧ (pm_fis 0x10).lbal = 1 ∧
          (pm_fis 0x10).byte_count_low = 0x69 ∧ (pm_fis 0x10).byte_count_high = 0x96 ∧
          ((pm_fis 0x10).device = 0x00 ∨ (pm_fis 0x10).device = 0x10))) ∧
      (x.dev_type ≠ SAS_SATA_PM → x.dev_type = SAS_SATA_DEV) :=
  C3_sata_classification env_ok (domain_of no_hooks (port_of (pm_fis 0x10) SATA_OOB_MODE))
    ⟨pm_fis 0x10, 3, false, none⟩ [] rfl rfl rfl rfl (by decide)

/-! ## Requesting deletion -/

theorem sas_notify_device_event_eq (e : Env) (s : Domain) (d : DevId) (ev : sas_device_event) :
    (sas_notify_device_event e s d ev).2 =
      if e.kmalloc ev d then
        { s with topo_wq := s.topo_wq ++ [(ev, d)], log := s.log ++ [Action.queue_work ev d] }
      else s := by
  unfold sas_notify_device_event
  cases e.kmalloc ev d <;> simp

@[simp] theorem sas_notify_device_event_port (e : Env) (s : Domain) (d : DevId)
    (ev : sas_device_event) : (sas_notify_device_event e s d ev).2.port = s.port := by
  rw [sas_notify_device_event_eq]; split <;> rfl

@[simp] theorem sas_notify_device_event_dft (e : Env) (s : Domain) (d : DevId)
    (ev : sas_device_event) : (sas_notify_device_event e s d ev).2.dft = s.dft := by
  rw [sas_notify_device_event_eq]; split <;> rfl

@[simp] theorem sas_notify_device_event_devs (e : Env) (s : Domain) (d : DevId)
    (ev : sas_device_event) : (sas_notify_device_event e s d ev).2.devs = s.devs := by
  rw [sas_notify_device_event_eq]; split <;> rfl

@[simp] theorem dev_sas_notify_device_event (e : Env) (s : Domain) (d i : DevId)
    (ev : sas_device_event) : (sas_notify_device_event e s d ev).2.dev i = s.dev i := by
  unfold Domain.dev; rw [sas_notify_device_event_devs]

theorem sas_notify_device_event_topo_wq (e : Env) (s : Domain) (d : DevId)
    (ev : sas_device_event) :
    (sas_notify_device_event e s d ev).2.topo_wq =
      s.topo_wq ++ (if e.kmalloc ev d then [(ev, d)] else []) := by
  rw [sas_notify_device_event_eq]; split <;> simp

theorem sas_notify_device_event_log (e : Env) (s : Domain) (d : DevId)
    (ev : sas_device_event) :
    (sas_notify_device_event e s d ev).2.log =
      s.log ++ (if e.kmalloc ev d then [Action.queue_work ev d] else []) := by
  rw [sas_notify_device_event_eq]; split <;> simp

@[simp] theorem sas_unregister_dev_port (e : Env) (s : Domain) (d : DevId) :
    (sas_unregister_dev e s d).port = s.port := by
  unfold sas_unregister_dev
  split
  · rfl
  · split <;> simp

@[simp] theorem sas_unregister_dev_dft (e : Env) (s : Domain) (d : DevId) :
    (sas_unregister_dev e s d).dft = s.dft := by
  unfold sas_unregister_dev
  split
  · rfl
  · split <;> simp

/-- A device already marked destroy-requested is left alone. -/
theorem sas_unregister_dev_again (e : Env) (s : Domain) (d : DevId) (h : s.destroy d = true) :
    sas_unregister_dev e s d = s := by
  unfold sas_unregister_dev
  unfold Domain.destroy at h
  split
  · rfl
  · rename_i dev hdev
    rw [hdev] at h
    simp only [] at h
    simp [h]

theorem dev_sas_unregister_dev (e : Env) (s : Domain) (d i : DevId) :
    (sas_unregister_dev e s d).dev i =
      if i = d then (s.dev d).map (fun x =>
        { x with state := { x.state with SAS_DEV_DESTROY := true } })
      else s.dev i := by
  unfold sas_unregister_dev
  cases hx : s.dev d with
  | none =>
    simp only []
    split_ifs with h
    · subst h; simp [hx]
    · rfl
  | some x =>
    simp only []
    cases hd : x.state.SAS_DEV_DESTROY with
    | false =>
      simp only [Bool.not_false, if_true, dev_sas_notify_device_event, dev_updDev, hx]
    | true =>
      simp only [Bool.not_true, Bool.false_eq_true, if_false]
      split_ifs with h
      · subst h
        rw [hx]
        simp only [Option.map_some']
        congr 1
        cases x with
        | mk a1 a2 a3 a4 a5 a6 a7 a8 a9 st =>
          cases st
          simp only [] at hd
          simp [hd]
      · rfl

theorem destroy_sas_unregister_dev (e : Env) (s : Domain) (d : DevId) (x : domain_device)
    (hx : s.dev d = some x) : (sas_unregister_dev e s d).destroy d = true := by
  unfold Domain.destroy
  rw [dev_sas_unregister_dev, if_pos rfl, hx]
  rfl

theorem sas_unregister_dev_topo_wq (e : Env) (s : Domain) (d : DevId) :
    (sas_unregister_dev e s d).topo_wq =
      s.topo_wq ++ (if s.destroy d = false ∧ (s.dev d).isSome ∧
          e.kmalloc sas_device_event.SAS_DEVICE_DEL d = true
        then [(sas_device_event.SAS_DEVICE_DEL, d)] else []) := by
  unfold sas_unregister_dev Domain.destroy
  cases hx : s.dev d with
  | none => simp
  | some x =>
    simp only []
    by_cases hd : x.state.SAS_DEV_DESTROY = true
    · simp [hd]
    · simp only [Bool.not_eq_true] at hd
      simp [hd, sas_notify_device_event_topo_wq]

theorem sas_unregister_dev_log (e : Env) (s : Domain) (d : DevId) :
    (sas_unregister_dev e s d).log =
      s.log ++ (if s.destroy d = false ∧ (s.dev d).isSome ∧
          e.kmalloc sas_device_event.SAS_DEVICE_DEL d = true
        then [Action.queue_work sas_device_event.SAS_DEVICE_DEL d] else []) := by
  unfold sas_unregister_dev Domain.destroy
  cases hx : s.dev d with
  | none => simp
  | some x =>
    simp only []
    by_cases hd : x.state.SAS_DEV_DESTROY = true
    · simp [hd]
    · simp only [Bool.not_eq_true] at hd
      simp [hd, sas_notify_device_event_log]

theorem unregister_calls_again (es : List Env) (s : Domain) (d : DevId)
    (h : s.destroy d = true) : unregister_calls es s d = s := by
  induction es with
  | nil => rfl
  | cons e es ih =>
    unfold unregister_calls at ih ⊢
    rw [List.foldl_cons, sas_unregister_dev_again e s d h]
    exact ih


/-! ## C2: one delete event per device -/

/-- C2 (as stated) fails: when the event allocation of the first
`sas_unregister_dev` call fails, three calls on a device that was not marked
destroy-requested enqueue no `SAS_DEVICE_DEL` event at all. -/
theorem C2_counterexample :
    classified_domain.destroy 0 = false ∧
    ¬ (del_events (unregister_calls [env_nomem, env_ok, env_ok] classified_domain 0) 0 =
        del_events classified_domain 0 + 1) := by
  decide

/-- C2 (amended): for every device not yet marked destroy-requested and every
n >= 1, n calls of `sas_unregister_dev` enqueue at most one `SAS_DEVICE_DEL`
event, and exactly one when the event allocation of the first call succeeds:
the first call sets `SAS_DEV_DESTROY` and, the allocation succeeding,
enqueues the delete at the tail of the queue, and every later call enqueues
nothing and changes nothing. -/
theorem C2_unregister_once (e : Env) (es : List Env) (s : Domain) (d : DevId)
    (x : domain_device) (hx : s.dev d = some x) (hnew : x.state.SAS_DEV_DESTROY = false) :
    (sas_unregister_dev e s d).destroy d = true ∧
    unregister_calls (e :: es) s d = sas_unregister_dev e s d ∧
    del_events (unregister_calls (e :: es) s d) d ≤ del_events s d + 1 ∧
    (e.kmalloc sas_device_event.SAS_DEVICE_DEL d = true →
      (sas_unregister_dev e s d).topo_wq =
        s.topo_wq ++ [(sas_device_event.SAS_DEVICE_DEL, d)] ∧
      del_events (unregister_calls (e :: es) s d) d = del_events s d + 1) := by
  have h1 := destroy_sas_unregister_dev e s d x hx
  have hd : s.destroy d = false := by
    unfold Domain.destroy
    rw [hx]
    exact hnew
  have h2 : (sas_unregister_dev e s d).topo_wq =
      s.topo_wq ++ (if e.kmalloc sas_device_event.SAS_DEVICE_DEL d = true
        then [(sas_device_event.SAS_DEVICE_DEL, d)] else []) := by
    rw [sas_unregister_dev_topo_wq]
    simp [hd, hx]
  have h3 : unregister_calls (e :: es) s d = sas_unregister_dev e s d := by
    have := unregister_calls_again es (sas_unregister_dev e s d) d h1
    unfold unregister_calls at this ⊢
    rw [List.foldl_cons]
    exact this
  refine ⟨h1, h3, ?_, ?_⟩
  · rw [h3]
    unfold del_events
    rw [h2, List.count_append]
    split_ifs <;> simp
  · intro hkm
    rw [h3]
    unfold del_events
    rw [h2, if_pos hkm]
    exact ⟨rfl, by simp⟩

/-- C2 witness: three calls on the freshly classified root device, all
allocations succeeding. -/
theorem C2_unregister_once_witness :
    classified_domain.dev 0 = some (classified_domain.devs.getD 0 fresh_device) ∧
    (classified_domain.devs.getD 0 fresh_device).state.SAS_DEV_DESTROY = false ∧
    (sas_unregister_dev env_ok classified_domain 0).destroy 0 = true ∧
    unregister_calls (env_ok :: [env_ok, env_ok]) classified_domain 0 =
      sas_unregister_dev env_ok classified_domain 0 ∧
    del_events (unregister_calls (env_ok :: [env_ok, env_ok]) classified_domain 0) 0 ≤
      del_events classified_domain 0 + 1 ∧
    (env_ok.kmalloc sas_device_event.SAS_DEVICE_DEL 0 = true →
      (sas_unregister_dev env_ok classified_domain 0).topo_wq =
        classified_domain.topo_wq ++ [(sas_device_event.SAS_DEVICE_DEL, 0)] ∧
      del_events (unregister_calls (env_ok :: [env_ok, env_ok]) classified_domain 0) 0 =
        del_events classified_domain 0 + 1) :=
  ⟨by rfl, by rfl,
    C2_unregister_once env_ok [env_ok, env_ok] classified_domain 0
      (classified_domain.devs.getD 0 fresh_device) (by rfl) (by rfl)⟩

/-! ## C9: the drain-wait loop -/

theorem drain_wait_timeout (polls : Nat → Domain)
    (hbusy : ∀ k, lists_empty (polls k).port = false) :
    ∀ (fuel cnt : Nat), cnt ≤ SAS_MAX_WAIT_RESCOURCE_CLEAR_TIME * 10 →
      SAS_MAX_WAIT_RESCOURCE_CLEAR_TIME * 10 + 1 - cnt ≤ fuel →
      drain_wait polls fuel cnt =
        Except.ok (false, polls (SAS_MAX_WAIT_RESCOURCE_CLEAR_TIME * 10)) := by
  intro fuel
  induction fuel with
  | zero =>
    intro cnt h1 h2
    omega
  | succ n ih =>
    intro cnt h1 h2
    unfold drain_wait
    rw [hbusy cnt]
    simp only [Bool.false_eq_true, if_false]
    split_ifs with h3
    · have : cnt = SAS_MAX_WAIT_RESCOURCE_CLEAR_TIME * 10 := by omega
      rw [this]
    · exact ih (cnt + 1) (by omega) (by omega)

theorem drain_wait_needs_fuel (polls : Nat → Domain)
    (hbusy : ∀ k, lists_empty (polls k).port = false) :
    ∀ (fuel cnt : Nat), cnt + fuel ≤ SAS_MAX_WAIT_RESCOURCE_CLEAR_TIME * 10 →
      drain_wait polls fuel cnt = Except.error Fault.out_of_fuel := by
  intro fuel
  induction fuel with
  | zero =>
    intro cnt _
    rfl
  | succ n ih =>
    intro cnt h1
    unfold drain_wait
    rw [hbusy cnt]
    simp only [Bool.false_eq_true, if_false]
    split_ifs with h3
    · omega
    · exact ih (cnt + 1) (by omega)

/-- C9: for a port that already has a root device and whose three device
lists are never all empty at any poll, the drain-wait loop of
`sas_discover_domain` terminates: it makes exactly 1801 polls (the count
exceeds 180 s at 100 ms granularity) and returns the state as the last poll
found it, so discovery itself allocated no device, enqueued no event and left
the lists and the root pointer as they were. -/
theorem C9_drain_wait_timeout (e : Env) (polls : Nat → Domain) (s : Domain)
    (hroot : s.port.port_dev.isSome = true)
    (hbusy : ∀ k, lists_empty (polls k).port = false) :
    (∀ fuel, SAS_MAX_WAIT_RESCOURCE_CLEAR_TIME * 10 + 1 ≤ fuel →
      sas_discover_domain e fuel polls s =
        Except.ok (polls (SAS_MAX_WAIT_RESCOURCE_CLEAR_TIME * 10))) ∧
    (∀ fuel, fuel ≤ SAS_MAX_WAIT_RESCOURCE_CLEAR_TIME * 10 →
      sas_discover_domain e fuel polls s = Except.error Fault.out_of_fuel) ∧
    SAS_MAX_WAIT_RESCOURCE_CLEAR_TIME * 10 = 1800 := by
  refine ⟨?_, ?_, by decide⟩
  · intro fuel hfuel
    unfold sas_discover_domain
    rw [if_pos hroot, drain_wait_timeout polls hbusy fuel 0 (Nat.zero_le _) (by omega)]
  · intro fuel hfuel
    unfold sas_discover_domain
    rw [if_pos hroot, drain_wait_needs_fuel polls hbusy fuel 0 (by omega)]

/-- C9 witness: the root device of the port never leaves `disco_list`. -/
theorem C9_drain_wait_timeout_witness :
    busy_domain.port.port_dev.isSome = true ∧ lists_empty busy_domain.port = false ∧
    (∀ fuel, SAS_MAX_WAIT_RESCOURCE_CLEAR_TIME * 10 + 1 ≤ fuel →
      sas_discover_domain env_ok fuel (fun _ => busy_domain) busy_domain =
        Except.ok busy_domain) ∧
    (∀ fuel, fuel ≤ SAS_MAX_WAIT_RESCOURCE_CLEAR_TIME * 10 →
      sas_discover_domain env_ok fuel (fun _ => busy_domain) busy_domain =
        Except.error Fault.out_of_fuel) ∧
    SAS_MAX_WAIT_RESCOURCE_CLEAR_TIME * 10 = 1800 :=
  ⟨by rfl, by rfl,
    C9_drain_wait_timeout env_ok (fun _ => busy_domain) busy_domain (by rfl) (fun _ => by rfl)⟩

/-! ## The gone notification -/

theorem found_eq (s : Domain) (d : DevId) :
    s.found d = match s.dev d with
      | some x => x.state.SAS_DEV_FOUND
      | none => false := rfl

theorem Frame.found_same {s t : Domain} (h : Frame s t) (i : DevId) : t.found i = s.found i := by
  have h5 := h.devs i
  rw [SasDiscover.found_eq, SasDiscover.found_eq]
  cases hs : s.dev i <;> cases ht : t.dev i <;> simp only [hs, ht, dev_keeps] at h5 ⊢
  rw [h5.2.2.2.2.1]

theorem kref_updDev_ne (s : Domain) (d i : DevId) (f : domain_device → domain_device)
    (h : i ≠ d) : (s.updDev d f).kref i = s.kref i := by
  rw [kref_eq, kref_eq, dev_updDev, if_neg h]

theorem kref_updDev_keep (s : Domain) (d i : DevId) (f : domain_device → domain_device)
    (hf : ∀ x, (f x).kref = x.kref) : (s.updDev d f).kref i = s.kref i := by
  by_cases h : i = d
  · subst h
    rw [kref_updDev_self, kref_eq]
    cases s.dev i with
    | none => rfl
    | some x => exact hf x
  · exact kref_updDev_ne s d i f h

theorem found_updDev_ne (s : Domain) (d i : DevId) (f : domain_device → domain_device)
    (h : i ≠ d) : (s.updDev d f).found i = s.found i := by
  rw [found_eq, found_eq, dev_updDev, if_neg h]

theorem found_updDev_keep (s : Domain) (d i : DevId) (f : domain_device → domain_device)
    (hf : ∀ x, (f x).state.SAS_DEV_FOUND = x.state.SAS_DEV_FOUND) :
    (s.updDev d f).found i = s.found i := by
  by_cases h : i = d
  · subst h
    rw [found_eq, found_eq, dev_updDev_self]
    cases s.dev i with
    | none => rfl
    | some x => exact hf x
  · exact found_updDev_ne s d i f h

@[simp] theorem sas_put_device_port (s : Domain) (d : DevId) :
    (sas_put_device s d).port = s.port := (sas_put_device_frame s d).port

@[simp] theorem sas_put_device_dft (s : Domain) (d : DevId) :
    (sas_put_device s d).dft = s.dft := (sas_put_device_frame s d).dft

@[simp] theorem sas_put_device_topo_wq (s : Domain) (d : DevId) :
    (sas_put_device s d).topo_wq = s.topo_wq := (sas_put_device_frame s d).topo_wq

@[simp] theorem found_sas_put_device (s : Domain) (d i : DevId) :
    (sas_put_device s d).found i = s.found i := (sas_put_device_frame s d).found_same i

@[simp] theorem sas_notify_lldd_dev_gone_port (s : Domain) (d : DevId) :
    (sas_notify_lldd_dev_gone s d).port = s.port := by
  unfold sas_notify_lldd_dev_gone
  split_ifs
  · rfl
  · split
    · rfl
    · split_ifs <;> simp

@[simp] theorem sas_notify_lldd_dev_gone_dft (s : Domain) (d : DevId) :
    (sas_notify_lldd_dev_gone s d).dft = s.dft := by
  unfold sas_notify_lldd_dev_gone
  split_ifs
  · rfl
  · split
    · rfl
    · split_ifs <;> simp

@[simp] theorem sas_notify_lldd_dev_gone_topo_wq (s : Domain) (d : DevId) :
    (sas_notify_lldd_dev_gone s d).topo_wq = s.topo_wq := by
  unfold sas_notify_lldd_dev_gone
  split_ifs
  · rfl
  · split
    · rfl
    · split_ifs <;> simp

/-- With the hook installed the notified device is no longer marked found;
no other device changes its mark. -/
theorem found_sas_notify_lldd_dev_gone (s : Domain) (d i : DevId) :
    (sas_notify_lldd_dev_gone s d).found i =
      if s.dft.lldd_dev_gone = true ∧ i = d then false else s.found i := by
  unfold sas_notify_lldd_dev_gone
  cases hh : s.dft.lldd_dev_gone with
  | false => simp
  | true =>
    simp only [Bool.not_true, Bool.false_eq_true, if_false, true_and]
    cases hx : s.dev d with
    | none =>
      simp only []
      split_ifs with h
      · subst h; rw [found_eq, hx]
      · rfl
    | some x =>
      simp only []
      by_cases hf : x.state.SAS_DEV_FOUND = true
      · simp only [hf, if_true, found_sas_put_device]
        split_ifs with h
        · subst h
          rw [found_eq]
          simp [hx]
        · change (s.updDev d _).found i = s.found i
          exact found_updDev_ne s d i _ h
      · simp only [hf, Bool.false_eq_true, if_false]
        split_ifs with h
        · subst h
          rw [found_eq, hx]
          simpa using hf
        · rfl

/-- The notification drops the found reference, and only that one. -/
theorem kref_sas_notify_lldd_dev_gone (s : Domain) (d : DevId) :
    (sas_notify_lldd_dev_gone s d).kref d =
      s.kref d - (if s.dft.lldd_dev_gone = true ∧ s.found d = true then 1 else 0) := by
  unfold sas_notify_lldd_dev_gone
  cases hh : s.dft.lldd_dev_gone with
  | false => simp
  | true =>
    simp only [Bool.not_true, Bool.false_eq_true, if_false, true_and]
    rw [found_eq]
    cases hx : s.dev d with
    | none => simp
    | some x =>
      simp only []
      by_cases hf : x.state.SAS_DEV_FOUND = true
      · simp only [hf, if_true]
        rw [kref_sas_put_device]
        simp only [kref_say]
        rw [kref_updDev_keep]
        intro _
        rfl
      · simp [hf]

/-- The log of the notification: the hook call, if made, then the `kfree`s
of the release. -/
theorem sas_notify_lldd_dev_gone_log (s : Domain) (d : DevId) :
    ∃ k, (∀ a ∈ k, ∃ i, a = Action.kfree i) ∧
      (sas_notify_lldd_dev_gone s d).log =
        s.log ++ (if s.dft.lldd_dev_gone = true ∧ s.found d = true
          then [Action.lldd_dev_gone d] else []) ++ k := by
  unfold sas_notify_lldd_dev_gone
  cases hh : s.dft.lldd_dev_gone with
  | false => exact ⟨[], by simp, by simp⟩
  | true =>
    simp only [Bool.not_true, Bool.false_eq_true, if_false, true_and]
    rw [found_eq]
    cases hx : s.dev d with
    | none => exact ⟨[], by simp, by simp⟩
    | some x =>
      simp only []
      by_cases hf : x.state.SAS_DEV_FOUND = true
      · simp only [hf, if_true]
        obtain ⟨k, hk1, hk2⟩ := (sas_put_device_frame ((s.updDev d (fun x =>
          { x with state := { x.state with SAS_DEV_FOUND := false } })).say
            (Action.lldd_dev_gone d)) d).log
        refine ⟨k, hk2, ?_⟩
        rw [hk1]
        simp
      · simp only [hf, Bool.false_eq_true, if_false]
        exact ⟨[], by simp, by simp⟩

/-! ## Suspend -/

@[simp] theorem found_setPort (s : Domain) (f : asd_sas_port → asd_sas_port) (i : DevId) :
    (s.setPort f).found i = s.found i := rfl

@[simp] theorem found_say (s : Domain) (a : Action) (i : DevId) :
    (s.say a).found i = s.found i := rfl

theorem foldl_gone_port (L : List DevId) :
    ∀ s : Domain, (L.foldl sas_notify_lldd_dev_gone s).port = s.port := by
  induction L with
  | nil => intro s; rfl
  | cons a L ih => intro s; rw [List.foldl_cons, ih]; simp

theorem foldl_gone_dft (L : List DevId) :
    ∀ s : Domain, (L.foldl sas_notify_lldd_dev_gone s).dft = s.dft := by
  induction L with
  | nil => intro s; rfl
  | cons a L ih => intro s; rw [List.foldl_cons, ih]; simp

theorem foldl_gone_topo_wq (L : List DevId) :
    ∀ s : Domain, (L.foldl sas_notify_lldd_dev_gone s).topo_wq = s.topo_wq := by
  induction L with
  | nil => intro s; rfl
  | cons a L ih => intro s; rw [List.foldl_cons, ih]; simp

theorem foldl_gone_found (L : List DevId) :
    ∀ (s : Domain) (i : DevId), (L.foldl sas_notify_lldd_dev_gone s).found i =
      if s.dft.lldd_dev_gone = true ∧ i ∈ L then false else s.found i := by
  induction L with
  | nil => intro s i; simp
  | cons a L ih =>
    intro s i
    rw [List.foldl_cons, ih, found_sas_notify_lldd_dev_gone, sas_notify_lldd_dev_gone_dft]
    by_cases hh : s.dft.lldd_dev_gone = true
    · by_cases h1 : i ∈ L
      · simp [hh, h1]
      · by_cases h2 : i = a
        · simp [hh, h2]
        · simp [hh, h1, h2]
    · simp [hh]

theorem foldl_gone_log (L : List DevId) :
    ∀ s : Domain, ∃ l, (L.foldl sas_notify_lldd_dev_gone s).log = s.log ++ l ∧
      ∀ i ∈ L, s.dft.lldd_dev_gone = true → s.found i = true → Action.lldd_dev_gone i ∈ l := by
  induction L with
  | nil => intro s; exact ⟨[], by simp, by simp⟩
  | cons a L ih =>
    intro s
    obtain ⟨l2, h2, h3⟩ := ih (sas_notify_lldd_dev_gone s a)
    obtain ⟨k, _, hk⟩ := sas_notify_lldd_dev_gone_log s a
    refine ⟨(if s.dft.lldd_dev_gone = true ∧ s.found a = true
      then [Action.lldd_dev_gone a] else []) ++ k ++ l2, ?_, ?_⟩
    · rw [List.foldl_cons, h2, hk]
      simp
    · intro i hi hh hf
      by_cases hia : i = a
      · subst hia
        simp [hh, hf]
      · have hiL : i ∈ L := by
          rcases List.mem_cons.mp hi with h | h
          · exact absurd h hia
          · exact h
        have := h3 i hiL (by simpa using hh)
          (by rw [found_sas_notify_lldd_dev_gone]; simp [hia, hf])
        simp [this]

theorem suspend_phys_ok (dft : sas_domain_function_template)
    (h : dft.lldd_port_formed = true → dft.lldd_port_deformed = true) :
    ∀ (l : List asd_sas_phy) (susp : Bool), ∃ acts,
      suspend_phys dft l susp = Except.ok
        (l.map (fun p => { p with suspended := true }), (if l = [] then susp else true), acts) ∧
      ∀ a ∈ acts, ∃ i, a = Action.lldd_port_deformed i := by
  intro l
  induction l with
  | nil => intro susp; exact ⟨[], rfl, by simp⟩
  | cons p l ih =>
    intro susp
    obtain ⟨acts, h1, h2⟩ := ih true
    have hg : (dft.lldd_port_formed && !dft.lldd_port_deformed) = false := by
      cases hf : dft.lldd_port_formed with
      | false => rfl
      | true => simp [h hf]
    refine ⟨(if dft.lldd_port_formed then [Action.lldd_port_deformed p.phy_identifier]
      else []) ++ acts, ?_, ?_⟩
    · unfold suspend_phys
      rw [hg, h1]
      simp
    · intro a ha
      rcases List.mem_append.mp ha with h3 | h3
      · split_ifs at h3
        · exact ⟨p.phy_identifier, by simpa using h3⟩
        · simp at h3
      · exact h2 a h3


/-! ## C10: suspend -/

/-- C10 (as stated) fails: on a port without member PHYs `sas_suspend_devices`
returns without marking the port suspended, because `port->suspended = 1` is
inside the loop over the PHYs. -/
theorem C10_counterexample :
    ∃ t, sas_suspend_devices no_phy_domain = Except.ok t ∧ ¬ (t.port.suspended = true) :=
  ⟨_, rfl, by decide⟩

/-- C10 (amended): when `lldd_port_deformed` is installed whenever
`lldd_port_formed` is, `sas_suspend_devices` returns; afterwards membership
of disco_list, dev_list and expander_list is unchanged, every member PHY is
marked suspended, the port is marked suspended provided it has at least one
member PHY (otherwise its mark is unchanged), and the gone notification
has been issued for every device on dev_list and expander_list: with the
gone hook installed no such device is marked found any more, and the hook was
called for each one that was marked found. -/
theorem C10_suspend (s : Domain)
    (hhooks : s.dft.lldd_port_formed = true → s.dft.lldd_port_deformed = true) :
    ∃ t, sas_suspend_devices s = Except.ok t ∧
      t.port.disco_list = s.port.disco_list ∧ t.port.dev_list = s.port.dev_list ∧
      t.port.expander_list = s.port.expander_list ∧
      t.port.phy_list = s.port.phy_list.map (fun p => { p with suspended := true }) ∧
      (∀ p ∈ t.port.phy_list, p.suspended = true) ∧
      (s.port.phy_list ≠ [] → t.port.suspended = true) ∧
      (s.port.phy_list = [] → t.port.suspended = s.port.suspended) ∧
      (∀ d, d ∈ s.port.dev_list ∨ d ∈ s.port.expander_list →
        s.dft.lldd_dev_gone = true →
          t.found d = false ∧
          (s.found d = true → ∃ l, t.log = s.log ++ l ∧ Action.lldd_dev_gone d ∈ l)) := by
  unfold sas_suspend_devices
  dsimp only
  have hp1 := foldl_gone_port ((s.setPort (fun p =>
    { p with disc_pending_suspend := false })).say Action.sas_suspend_sata).port.dev_list
    ((s.setPort (fun p => { p with disc_pending_suspend := false })).say Action.sas_suspend_sata)
  have hd1 := foldl_gone_dft ((s.setPort (fun p =>
    { p with disc_pending_suspend := false })).say Action.sas_suspend_sata).port.dev_list
    ((s.setPort (fun p => { p with disc_pending_suspend := false })).say Action.sas_suspend_sata)
  have hf1 := foldl_gone_found ((s.setPort (fun p =>
    { p with disc_pending_suspend := false })).say Action.sas_suspend_sata).port.dev_list
    ((s.setPort (fun p => { p with disc_pending_suspend := false })).say Action.sas_suspend_sata)
  obtain ⟨l1, hl1, hg1⟩ := foldl_gone_log ((s.setPort (fun p =>
    { p with disc_pending_suspend := false })).say Action.sas_suspend_sata).port.dev_list
    ((s.setPort (fun p => { p with disc_pending_suspend := false })).say Action.sas_suspend_sata)
  simp only [say_port, setPort_port, say_dft, setPort_dft, found_say, found_setPort, say_log,
    setPort_log] at hp1 hd1 hf1 hl1 hg1
  simp only [say_port, setPort_port]
  generalize List.foldl sas_notify_lldd_dev_gone ((s.setPort (fun p =>
    { p with disc_pending_suspend := false })).say Action.sas_suspend_sata) s.port.dev_list = s2
    at hp1 hd1 hf1 hl1 ⊢
  have hp2 := foldl_gone_port s2.port.expander_list s2
  have hd2 := foldl_gone_dft s2.port.expander_list s2
  have hf2 := foldl_gone_found s2.port.expander_list s2
  obtain ⟨l2, hl2, hg2⟩ := foldl_gone_log s2.port.expander_list s2
  generalize List.foldl sas_notify_lldd_dev_gone s2 s2.port.expander_list = s3
    at hp2 hd2 hf2 hl2 ⊢
  have hp3 : s3.port = { s.port with disc_pending_suspend := false } := hp2.trans hp1
  have hd3 : s3.dft = s.dft := hd2.trans hd1
  obtain ⟨acts, ha1, _⟩ := suspend_phys_ok s3.dft (by rw [hd3]; exact hhooks)
    s3.port.phy_list s3.port.suspended
  rw [ha1]
  refine ⟨_, rfl, ?_, ?_, ?_, ?_, ?_, ?_, ?_, ?_⟩
  · simp [hp3]
  · simp [hp3]
  · simp [hp3]
  · simp [hp3]
  · intro p hp
    simp only [setPort_port] at hp
    obtain ⟨q, _, hq⟩ := List.mem_map.mp hp
    rw [← hq]
  · intro hne
    simp [hp3, hne]
  · intro he
    simp [hp3, he]
  · intro d hd hh
    have hin2 : s2.port.expander_list = s.port.expander_list := by rw [hp1]
    constructor
    · show s3.found d = false
      rw [hf2, hd1, hin2, hf1]
      rcases hd with h | h
      · simp [hh, h]
      · simp [hh, h]
    · intro hfound
      refine ⟨[Action.sas_suspend_sata] ++ l1 ++ l2 ++ acts, ?_, ?_⟩
      · show s3.log ++ acts = _
        rw [hl2, hl1]
        simp
      · by_cases h1 : d ∈ s.port.dev_list
        · have := hg1 d h1 hh hfound
          simp [this]
        · have h2 : d ∈ s.port.expander_list := by
            rcases hd with h | h
            · exact absurd h h1
            · exact h
          have hf : s2.found d = true := by
            rw [hf1]
            simp [h1, hfound]
          have := hg2 d (by rw [hin2]; exact h2) (by rw [hd1]; exact hh) hf
          simp [this]

/-- C10 witness: suspending the port whose root end device is active. -/
theorem C10_suspend_witness :
    ∃ t, sas_suspend_devices active_domain = Except.ok t ∧
      t.port.disco_list = active_domain.port.disco_list ∧
      t.port.dev_list = active_domain.port.dev_list ∧
      t.port.expander_list = active_domain.port.expander_list ∧
      t.port.phy_list =
        active_domain.port.phy_list.map (fun p => { p with suspended := true }) ∧
      (∀ p ∈ t.port.phy_list, p.suspended = true) ∧
      (active_domain.port.phy_list ≠ [] → t.port.suspended = true) ∧
      (active_domain.port.phy_list = [] → t.port.suspended = active_domain.port.suspended) ∧
      (∀ d, d ∈ active_domain.port.dev_list ∨ d ∈ active_domain.port.expander_list →
        active_domain.dft.lldd_dev_gone = true →
          t.found d = false ∧
          (active_domain.found d = true →
            ∃ l, t.log = active_domain.log ++ l ∧ Action.lldd_dev_gone d ∈ l)) :=
  C10_suspend active_domain (fun _ => rfl)

/-! ## The add handler -/

@[simp] theorem sas_fail_probe_port (e : Env) (s : Domain) (d : DevId) :
    (sas_fail_probe e s d).port = s.port := by
  simp [sas_fail_probe]

@[simp] theorem sas_fail_probe_dft (e : Env) (s : Domain) (d : DevId) :
    (sas_fail_probe e s d).dft = s.dft := by
  simp [sas_fail_probe]

@[simp] theorem sas_probe_sata_device_port (e : Env) (s : Domain) (d : DevId) :
    (sas_probe_sata_device e s d).port = s.port := by
  unfold sas_probe_sata_device
  dsimp only
  split_ifs <;> simp

@[simp] theorem sas_probe_sata_device_dft (e : Env) (s : Domain) (d : DevId) :
    (sas_probe_sata_device e s d).dft = s.dft := by
  unfold sas_probe_sata_device
  dsimp only
  split_ifs <;> simp

/-- The port after the add handler: the device is unlinked from `disco_list`;
it was linked at the tail of `dev_list` unless destroy had been requested. -/
theorem sas_add_device_port (e : Env) (s : Domain) (d : DevId) (x : domain_device)
    (hx : s.dev d = some x) (hd : d ∈ s.port.disco_list) :
    ∃ t, sas_add_device e s d = Except.ok t ∧
      t.port.disco_list = list_del d s.port.disco_list ∧
      t.port.expander_list = s.port.expander_list ∧
      t.port.dev_list =
        (if x.state.SAS_DEV_DESTROY = true then s.port.dev_list else s.port.dev_list ++ [d]) ∧
      t.dft = s.dft := by
  unfold sas_add_device
  rw [hx]
  simp only [hd, not_true_eq_false, if_false]
  refine ⟨_, rfl, ?_⟩
  by_cases hdes : x.state.SAS_DEV_DESTROY = true
  · simp [hdes]
  · simp only [hdes, Bool.false_eq_true, if_false, setPort_port, setPort_dft]
    split
    · simp
    · split_ifs <;> simp

/-! ## The delete handler -/

theorem detach_from_parent_keeps (s : Domain) (d : DevId) :
    (detach_from_parent s d).dft = s.dft ∧ (detach_from_parent s d).log = s.log ∧
    (detach_from_parent s d).topo_wq = s.topo_wq ∧
    (detach_from_parent s d).port.disco_list = s.port.disco_list ∧
    (detach_from_parent s d).port.dev_list = s.port.dev_list ∧
    (detach_from_parent s d).port.expander_list = s.port.expander_list ∧
    (detach_from_parent s d).port.sas_port_num_phys = s.port.sas_port_num_phys ∧
    (∀ i, (detach_from_parent s d).kref i = s.kref i) ∧
    (∀ i, (detach_from_parent s d).found i = s.found i) := by
  unfold detach_from_parent
  split
  · simp
  · split
    · simp
    · refine ⟨by simp, by simp, by simp, by simp, by simp, by simp, by simp, ?_, ?_⟩
      · intro i
        exact kref_updDev_keep s d i _ (fun _ => rfl)
      · intro i
        exact found_updDev_keep s d i _ (fun _ => rfl)

/-- The root pointer is cleared when a device without parent is detached. -/
theorem detach_from_parent_root (s : Domain) (d : DevId) (x : domain_device)
    (hx : s.dev d = some x) (hp : x.parent = none) :
    (detach_from_parent s d).port.port_dev = none := by
  unfold detach_from_parent
  rw [hx]
  simp [hp]

/-- What `sas_unregister_common_dev` does to the lists, to the count of the
device and to the log: the device leaves both active lists, the found
reference (if the gone hook is called) and the registry reference are
dropped, and the gone hook is called at most once. -/
theorem sas_unregister_common_dev_spec (s : Domain) (d : DevId) :
    d ∉ (sas_unregister_common_dev s d).port.dev_list ∧
    d ∉ (sas_unregister_common_dev s d).port.expander_list ∧
    (sas_unregister_common_dev s d).port.disco_list = s.port.disco_list ∧
    (sas_unregister_common_dev s d).port.sas_port_num_phys = s.port.sas_port_num_phys ∧
    (sas_unregister_common_dev s d).kref d =
      s.kref d - (if s.dft.lldd_dev_gone = true ∧ s.found d = true then 1 else 0) - 1 ∧
    ∃ k, (∀ a ∈ k, (∃ i, a = Action.kfree i) ∨ a = Action.sas_ata_end_eh d) ∧
      (sas_unregister_common_dev s d).log =
        s.log ++ (if s.dft.lldd_dev_gone = true ∧ s.found d = true
          then [Action.lldd_dev_gone d] else []) ++ k := by
  unfold sas_unregister_common_dev
  dsimp only
  obtain ⟨k1, hk1, hl1⟩ := sas_notify_lldd_dev_gone_log s d
  have hkr1 := kref_sas_notify_lldd_dev_gone s d
  have hp1 := sas_notify_lldd_dev_gone_port s d
  generalize sas_notify_lldd_dev_gone s d = s1 at hl1 hkr1 hp1 ⊢
  obtain ⟨_, b2, _, b4, b5, b6, b7, b8, _⟩ := detach_from_parent_keeps s1 d
  generalize detach_from_parent s1 d = s2 at b2 b4 b5 b6 b7 b8 ⊢
  have hs3 : ∀ s3 : Domain, s3 = s2.setPort (fun p => { p with
      dev_list := list_del d p.dev_list, expander_list := list_del d p.expander_list }) →
      s3.port.dev_list = list_del d s2.port.dev_list ∧
      s3.port.expander_list = list_del d s2.port.expander_list ∧
      s3.port.disco_list = s2.port.disco_list ∧
      s3.port.sas_port_num_phys = s2.port.sas_port_num_phys ∧
      s3.kref d = s2.kref d ∧ s3.log = s2.log := by
    intro s3 h
    subst h
    exact ⟨rfl, rfl, rfl, rfl, rfl, rfl⟩
  obtain ⟨hs3p, hs3e, hs3d, hs3n, hs3k, hs3l⟩ := hs3 _ rfl
  generalize s2.setPort (fun p => { p with
      dev_list := list_del d p.dev_list, expander_list := list_del d p.expander_list }) = s3
    at hs3p hs3e hs3d hs3n hs3k hs3l ⊢
  have h4 : ∀ s4 : Domain, s4 = (match s3.dev d with
      | none => s3
      | some dev =>
        if dev.dev_type = SAS_EDGE_EXPANDER_DEVICE ∨ dev.dev_type = SAS_FANOUT_EXPANDER_DEVICE
        then s3
        else if dev_is_sata dev = true then s3.say (Action.sas_ata_end_eh d) else s3) →
      s4.port = s3.port ∧ s4.kref d = s3.kref d ∧
      ∃ k, (∀ a ∈ k, a = Action.sas_ata_end_eh d) ∧ s4.log = s3.log ++ k := by
    intro s4 h
    subst h
    split
    · exact ⟨rfl, rfl, [], by simp, by simp⟩
    · split_ifs
      · exact ⟨rfl, rfl, [], by simp, by simp⟩
      · exact ⟨rfl, rfl, [Action.sas_ata_end_eh d], by simp, by simp⟩
      · exact ⟨rfl, rfl, [], by simp, by simp⟩
  obtain ⟨c1, c2, k4, c3, c4⟩ := h4 _ rfl
  generalize (match s3.dev d with
      | none => s3
      | some dev =>
        if dev.dev_type = SAS_EDGE_EXPANDER_DEVICE ∨ dev.dev_type = SAS_FANOUT_EXPANDER_DEVICE
        then s3
        else if dev_is_sata dev = true then s3.say (Action.sas_ata_end_eh d) else s3) = s4
    at c1 c2 c4 ⊢
  have h5 : ∀ s5 : Domain, s5 = (match s4.dev d with
      | none => s4
      | some dev =>
        if dev.dev_type = SAS_END_DEVICE ∧ dev.eh_list_node = true then
          { s4.updDev d (fun x => { x with eh_list_node := false }) with
            eh_active := s4.eh_active - 1 }
        else s4) →
      s5.port = s4.port ∧ s5.kref d = s4.kref d ∧ s5.log = s4.log := by
    intro s5 h
    subst h
    split
    · exact ⟨rfl, rfl, rfl⟩
    · split_ifs
      · refine ⟨by simp, ?_, by simp⟩
        exact kref_updDev_keep s4 d d _ (fun _ => rfl)
      · exact ⟨rfl, rfl, rfl⟩
  obtain ⟨e1, e2, e3⟩ := h5 _ rfl
  generalize (match s4.dev d with
      | none => s4
      | some dev =>
        if dev.dev_type = SAS_END_DEVICE ∧ dev.eh_list_node = true then
          { s4.updDev d (fun x => { x with eh_list_node := false }) with
            eh_active := s4.eh_active - 1 }
        else s4) = s5 at e1 e2 e3 ⊢
  obtain ⟨k6, hk6a, hk6b⟩ := (sas_put_device_frame s5 d).log
  have hport : (sas_put_device s5 d).port = s3.port := by
    rw [sas_put_device_port, e1, c1]
  refine ⟨?_, ?_, ?_, ?_, ?_, ?_⟩
  · rw [hport, hs3p]; exact not_mem_list_del d _
  · rw [hport, hs3e]; exact not_mem_list_del d _
  · rw [hport, hs3d, b4, hp1]
  · rw [hport, hs3n, b7, hp1]
  · rw [kref_sas_put_device, e2, c2, hs3k, b8, hkr1]
  · refine ⟨k1 ++ k4 ++ k6, ?_, ?_⟩
    · intro a ha
      rcases List.mem_append.mp ha with h | h
      · rcases List.mem_append.mp h with h | h
        · exact Or.inl (hk1 a h)
        · exact Or.inr (c3 a h)
      · exact Or.inl (hk6b a h)
    · rw [hk6a, e3, c4, hs3l, b2, hl1]
      simp

/-- The add handler when `sas_rphy_add` fails: the device is on `dev_list`,
marked probe-failed and destroy-requested, and a delete event is queued if
its allocation succeeds. -/
theorem sas_add_device_rphy_add_fails (e : Env) (s : Domain) (d : DevId) (x : domain_device)
    (hx : s.dev d = some x) (hd : d ∈ s.port.disco_list)
    (hdes : x.state.SAS_DEV_DESTROY = false) (hpf : x.state.SAS_DEV_PROBE_FAIL = false)
    (hprobe : e.sas_probe_sata_device_fails = false) (herr : e.sas_rphy_add ≠ 0) :
    ∃ t, sas_add_device e s d = Except.ok t ∧
      t.dev d = some { x with state :=
        ⟨x.state.SAS_DEV_GONE, x.state.SAS_DEV_FOUND, true, true⟩ } ∧
      t.port.dev_list = s.port.dev_list ++ [d] ∧ t.dft = s.dft ∧
      t.log = s.log ++ [Action.sas_probe_sata_device d, Action.sas_rphy_add d] ++
        (if e.kmalloc sas_device_event.SAS_DEVICE_DEL d = true
          then [Action.queue_work sas_device_event.SAS_DEVICE_DEL d] else []) ∧
      t.topo_wq = s.topo_wq ++
        (if e.kmalloc sas_device_event.SAS_DEVICE_DEL d = true
          then [(sas_device_event.SAS_DEVICE_DEL, d)] else []) := by
  unfold sas_add_device
  rw [hx]
  simp only [hd, not_true_eq_false, if_false, hdes, Bool.false_eq_true]
  have hb : (sas_probe_sata_device e (s.setPort (fun p =>
      { p with dev_list := p.dev_list ++ [d] })) d) =
      (s.setPort (fun p => { p with dev_list := p.dev_list ++ [d] })).say
        (Action.sas_probe_sata_device d) := by
    simp [sas_probe_sata_device, hprobe]
  rw [hb]
  simp only [dev_say, dev_setPort, hx, hpf, Bool.not_false, if_true, herr, ne_eq,
    not_false_eq_true]
  refine ⟨_, rfl, ?_, ?_, ?_, ?_, ?_⟩
  · simp only [dev_setPort, sas_fail_probe, dev_sas_unregister_dev, if_true, dev_updDev_self,
      dev_say, hx, Option.map_some']
  · simp
  · simp
  · simp only [setPort_log, sas_fail_probe, sas_unregister_dev_log, updDev_log, say_log,
      setPort_log]
    have h1 : ((((s.setPort (fun p => { p with dev_list := p.dev_list ++ [d] })).say
        (Action.sas_probe_sata_device d)).say (Action.sas_rphy_add d)).updDev d (fun x =>
        { x with state := { x.state with SAS_DEV_PROBE_FAIL := true } })).destroy d = false := by
      unfold Domain.destroy
      simp [hx, hdes]
    simp [h1, hx]
  · simp only [setPort_topo_wq, sas_fail_probe, sas_unregister_dev_topo_wq, updDev_topo_wq,
      say_topo_wq]
    have h1 : ((((s.setPort (fun p => { p with dev_list := p.dev_list ++ [d] })).say
        (Action.sas_probe_sata_device d)).say (Action.sas_rphy_add d)).updDev d (fun x =>
        { x with state := { x.state with SAS_DEV_PROBE_FAIL := true } })).destroy d = false := by
      unfold Domain.destroy
      simp [hx, hdes]
    simp [h1, hx]

theorem kfree_ne_gone {k : List Action} (hk : ∀ a ∈ k, (∃ i, a = Action.kfree i) ∨
    a = Action.sas_ata_end_eh d) (d2 : DevId) :
    Action.lldd_dev_gone d2 ∉ k ∧ Action.sas_rphy_delete d2 ∉ k := by
  constructor
  · intro h
    rcases hk _ h with ⟨i, hi⟩ | hi
    · cases hi
    · cases hi
  · intro h
    rcases hk _ h with ⟨i, hi⟩ | hi
    · cases hi
    · cases hi

/-- The delete handler on a device that is on an active list and marked
probe-failed: the reporting object is freed, never withdrawn; the device
leaves `dev_list`; the gone hook is called at most once; the found reference
(if the hook is called) and the registry reference are dropped. -/
theorem sas_del_device_probe_fail (s : Domain) (d : DevId) (x : domain_device) (r : Nat)
    (hx : s.dev d = some x) (hr : x.rphy = some r)
    (hlist : d ∈ s.port.dev_list ∨ d ∈ s.port.expander_list)
    (hpf : x.state.SAS_DEV_PROBE_FAIL = true) :
    ∃ t, sas_del_device s d = Except.ok t ∧
      d ∉ t.port.dev_list ∧ d ∉ t.port.expander_list ∧
      t.port.disco_list = s.port.disco_list ∧
      t.kref d =
        s.kref d - (if s.dft.lldd_dev_gone = true ∧ s.found d = true then 1 else 0) - 1 ∧
      ∃ l, t.log = s.log ++ l ∧ Action.sas_rphy_delete d ∉ l ∧ Action.sas_rphy_free d ∈ l ∧
        l.count (Action.lldd_dev_gone d) ≤ 1 := by
  unfold sas_del_device
  rw [hx]
  simp only [hr]
  have h0 : ∀ s0 : Domain, s0 = (if x.dev_type = SAS_EDGE_EXPANDER_DEVICE ∨
      x.dev_type = SAS_FANOUT_EXPANDER_DEVICE then s.say (Action.sas_del_parent_port d) else s) →
      s0.port = s.port ∧ s0.dft = s.dft ∧ s0.dev d = s.dev d ∧ s0.kref d = s.kref d ∧
      s0.found d = s.found d ∧
      ∃ k, s0.log = s.log ++ k ∧ ∀ a ∈ k, a = Action.sas_del_parent_port d := by
    intro s0 h
    subst h
    split_ifs
    · exact ⟨rfl, rfl, rfl, rfl, rfl, [Action.sas_del_parent_port d], rfl, by simp⟩
    · exact ⟨rfl, rfl, rfl, rfl, rfl, [], by simp, by simp⟩
  obtain ⟨a1, a2, a3, a4, a5, k0, a6, a7⟩ := h0 _ rfl
  generalize (if x.dev_type = SAS_EDGE_EXPANDER_DEVICE ∨
      x.dev_type = SAS_FANOUT_EXPANDER_DEVICE then s.say (Action.sas_del_parent_port d) else s)
    = s0 at a1 a2 a3 a4 a5 a6 ⊢
  have hl : ¬ (d ∉ s0.port.dev_list ∧ d ∉ s0.port.expander_list) := by
    rw [a1]
    intro h
    rcases hlist with h1 | h1
    · exact h.1 h1
    · exact h.2 h1
  simp only [hl, if_false, hpf, if_true]
  obtain ⟨b1, b2, b3, b4, b5, k, b6, b7⟩ := sas_unregister_common_dev_spec
    ((s0.updDev d (fun x => { x with state :=
      { x.state with SAS_DEV_PROBE_FAIL := false } })).say (Action.sas_rphy_free d)) d
  simp only [say_port, updDev_port, say_dft, updDev_dft, kref_say, found_say, say_log,
    updDev_log, kref_updDev_keep, found_updDev_keep, implies_true] at b3 b4 b5 b7
  rw [a2, a4, a5] at b5
  rw [a2, a5, a6] at b7
  rw [a1] at b3
  generalize sas_unregister_common_dev ((s0.updDev d (fun x => { x with state :=
      { x.state with SAS_DEV_PROBE_FAIL := false } })).say (Action.sas_rphy_free d)) d = u
    at b1 b2 b3 b4 b5 b7 ⊢
  obtain ⟨g1, g2⟩ := kfree_ne_gone b6 d
  have hk0g : Action.lldd_dev_gone d ∉ k0 := by
    intro h
    have := a7 _ h
    cases this
  have hk0d : Action.sas_rphy_delete d ∉ k0 := by
    intro h
    have := a7 _ h
    cases this
  have hcount : (k0 ++ [Action.sas_rphy_free d] ++
      (if s.dft.lldd_dev_gone = true ∧ s.found d = true then [Action.lldd_dev_gone d] else [])
      ++ k).count (Action.lldd_dev_gone d) ≤ 1 := by
    rw [List.count_append, List.count_append, List.count_append,
      List.count_eq_zero_of_not_mem hk0g, List.count_eq_zero_of_not_mem g1]
    split_ifs <;> simp
  have hnd : Action.sas_rphy_delete d ∉ (k0 ++ [Action.sas_rphy_free d] ++
      (if s.dft.lldd_dev_gone = true ∧ s.found d = true then [Action.lldd_dev_gone d] else [])
      ++ k) := by
    intro h
    simp only [List.mem_append, List.mem_singleton] at h
    rcases h with ((h | h) | h) | h
    · exact hk0d h
    · cases h
    · split_ifs at h
      · simp at h
      · simp at h
    · exact g2 h
  by_cases hz : u.port.sas_port_num_phys = 0
  · rw [if_pos hz]
    refine ⟨_, rfl, b1, b2, b3, b5,
      (k0 ++ [Action.sas_rphy_free d] ++ (if s.dft.lldd_dev_gone = true ∧ s.found d = true
        then [Action.lldd_dev_gone d] else []) ++ k) ++ [Action.sas_port_delete], ?_, ?_, ?_, ?_⟩
    · rw [say_log, b7]
      simp only [List.append_assoc]
    · intro h
      rcases List.mem_append.mp h with h | h
      · exact hnd h
      · simp at h
    · simp
    · rw [List.count_append]
      have : List.count (Action.lldd_dev_gone d) [Action.sas_port_delete] = 0 := by simp
      omega
  · rw [if_neg hz]
    refine ⟨_, rfl, b1, b2, b3, b5, _, ?_, hnd, by simp, hcount⟩
    rw [b7]
    simp only [List.append_assoc]


/-! ## C5: the add handler empties the pending list -/

/-- C5: for every device on `disco_list` when `sas_add_device` runs, the
handler returns and the device is no longer on `disco_list`, whether
registration succeeded, failed or was skipped; and when destroy had not been
requested (so in particular when registration succeeds) the device, whose
`dev_list_node` was not linked on `expander_list`, is on `dev_list` and on no
other port list.  When registration succeeds the device record is
untouched. -/
theorem C5_add_unlinks_pending (e : Env) (s : Domain) (d : DevId) (x : domain_device)
    (hx : s.dev d = some x) (hd : d ∈ s.port.disco_list) :
    ∃ t, sas_add_device e s d = Except.ok t ∧ d ∉ t.port.disco_list ∧
      (x.state.SAS_DEV_DESTROY = false → d ∉ s.port.expander_list →
        d ∈ t.port.dev_list ∧ d ∉ t.port.expander_list ∧ d ∉ t.port.disco_list) ∧
      (x.state.SAS_DEV_DESTROY = false → x.state.SAS_DEV_PROBE_FAIL = false →
        e.sas_probe_sata_device_fails = false → e.sas_rphy_add = 0 →
        t.dev d = some x ∧ Action.sas_rphy_add d ∈ t.log) := by
  obtain ⟨t, h1, h2, h3, h4, _⟩ := sas_add_device_port e s d x hx hd
  have hnot : d ∉ t.port.disco_list := by
    rw [h2]
    exact not_mem_list_del d _
  refine ⟨t, h1, hnot, ?_, ?_⟩
  · intro hdes hexp
    refine ⟨?_, ?_, hnot⟩
    · rw [h4]
      simp [hdes]
    · rw [h3]
      exact hexp
  · intro hdes hpf hprobe hadd
    have ht : sas_add_device e s d = Except.ok
        ((((s.setPort (fun p => { p with dev_list := p.dev_list ++ [d] })).say
          (Action.sas_probe_sata_device d)).say (Action.sas_rphy_add d)).setPort
            (fun p => { p with disco_list := list_del d p.disco_list })) := by
      unfold sas_add_device
      rw [hx]
      simp [hd, hdes, sas_probe_sata_device, hprobe, hx, hpf, hadd]
    rw [ht] at h1
    cases h1
    constructor
    · simp [hx]
    · simp

/-- C5 witness: the add handler on the freshly discovered root end device. -/
theorem C5_add_unlinks_pending_witness :
    ∃ t, sas_add_device env_ok discovered_domain 0 = Except.ok t ∧
      0 ∉ t.port.disco_list ∧
      ((discovered_domain.devs.getD 0 fresh_device).state.SAS_DEV_DESTROY = false →
        0 ∉ discovered_domain.port.expander_list →
        0 ∈ t.port.dev_list ∧ 0 ∉ t.port.expander_list ∧ 0 ∉ t.port.disco_list) ∧
      ((discovered_domain.devs.getD 0 fresh_device).state.SAS_DEV_DESTROY = false →
        (discovered_domain.devs.getD 0 fresh_device).state.SAS_DEV_PROBE_FAIL = false →
        env_ok.sas_probe_sata_device_fails = false → env_ok.sas_rphy_add = 0 →
        t.dev 0 = some (discovered_domain.devs.getD 0 fresh_device) ∧
        Action.sas_rphy_add 0 ∈ t.log) :=
  C5_add_unlinks_pending env_ok discovered_domain 0
    (discovered_domain.devs.getD 0 fresh_device) (by rfl) (by decide)

/-! ## C8: a device whose registration failed -/

/-- C8 (as stated) fails: with the found hook installed and no gone hook, the
root end device is discovered (marked found, two references), its
registration fails in `sas_add_device` (probe-failed and destroy-requested
are set), and `sas_del_device` then leaves its reference count at one. -/
theorem C8_counterexample :
    ∃ s1 s2 s3,
      sas_discover_domain env_ok 1
        (fun _ => domain_of found_hook_only (port_of end_frame 2))
        (domain_of found_hook_only (port_of end_frame 2)) = Except.ok s1 ∧
      sas_add_device env_rphy_add_fails { s1 with topo_wq := [] } 0 = Except.ok s2 ∧
      s2.probe_fail 0 = true ∧ s2.destroy 0 = true ∧
      s2.topo_wq = [(sas_device_event.SAS_DEVICE_DEL, 0)] ∧
      sas_del_device { s2 with topo_wq := [] } 0 = Except.ok s3 ∧
      ¬ (s3.kref 0 = 0) :=
  ⟨_, _, _, rfl, rfl, rfl, rfl, rfl, rfl, by decide⟩

/-- C8 (amended): for every device whose registration with the reporting
layer (`sas_rphy_add`) fails inside `sas_add_device`, probe-failed is recorded
and deletion is requested, and the following `sas_del_device` never withdraws
it from the consumer layer (`sas_rphy_delete` is not called; the reporting
object is freed instead), removes it from the active list and calls the
consumer's gone hook at most once; it drops the registry reference and, if it
calls the gone hook, the found reference, so it leaves the reference count at
zero provided the device held the allocator's reference plus one more exactly
if it was marked found, and the gone hook is installed if the device was
marked found. -/
theorem C8_failed_registration (e : Env) (s : Domain) (d : DevId) (x : domain_device)
    (r : Nat) (hx : s.dev d = some x) (hd : d ∈ s.port.disco_list)
    (hdes : x.state.SAS_DEV_DESTROY = false) (hpf : x.state.SAS_DEV_PROBE_FAIL = false)
    (hprobe : e.sas_probe_sata_device_fails = false) (herr : e.sas_rphy_add ≠ 0)
    (hr : x.rphy = some r) :
    ∃ s1 s2, sas_add_device e s d = Except.ok s1 ∧
      s1.probe_fail d = true ∧ s1.destroy d = true ∧ d ∈ s1.port.dev_list ∧
      sas_del_device s1 d = Except.ok s2 ∧
      d ∉ s2.port.dev_list ∧ d ∉ s2.port.expander_list ∧ d ∉ s2.port.disco_list ∧
      s2.kref d = x.kref -
        (if s.dft.lldd_dev_gone = true ∧ x.state.SAS_DEV_FOUND = true then 1 else 0) - 1 ∧
      (x.kref = 1 + (if x.state.SAS_DEV_FOUND = true then 1 else 0) →
        (x.state.SAS_DEV_FOUND = true → s.dft.lldd_dev_gone = true) → s2.kref d = 0) ∧
      ∃ l, s2.log = s1.log ++ l ∧ Action.sas_rphy_delete d ∉ l ∧
        Action.sas_rphy_free d ∈ l ∧ l.count (Action.lldd_dev_gone d) ≤ 1 := by
  obtain ⟨s1, h1, h2, h3, h4, _, _⟩ :=
    sas_add_device_rphy_add_fails e s d x hx hd hdes hpf hprobe herr
  obtain ⟨_, h1b, h5, _⟩ := sas_add_device_port e s d x hx hd
  rw [h1] at h1b
  cases h1b
  have hin : d ∈ s1.port.dev_list := by
    rw [h3]
    simp
  obtain ⟨s2, g1, g2, g3, g4, g5, l, g6, g7, g8, g9⟩ :=
    sas_del_device_probe_fail s1 d _ r h2 hr (Or.inl hin) rfl
  have hk1 : s1.kref d = x.kref := by
    rw [kref_eq, h2]
  have hf1 : s1.found d = x.state.SAS_DEV_FOUND := by
    rw [found_eq, h2]
  have hk2 : s2.kref d = x.kref -
      (if s.dft.lldd_dev_gone = true ∧ x.state.SAS_DEV_FOUND = true then 1 else 0) - 1 := by
    rw [g5, hk1, hf1, h4]
  refine ⟨s1, s2, h1, ?_, ?_, hin, g1, g2, g3, ?_, hk2, ?_, l, g6, g7, g8, g9⟩
  · unfold Domain.probe_fail
    rw [h2]
  · unfold Domain.destroy
    rw [h2]
  · rw [g4, h5]
    exact not_mem_list_del d _
  · intro hkref hpair
    rw [hk2, hkref]
    by_cases hf : x.state.SAS_DEV_FOUND = true
    · simp [hf, hpair hf]
    · simp [hf]

/-- C8 witness: the discovered root end device with every hook installed,
`sas_rphy_add` failing; the device held two references and was marked found,
so the count ends at zero. -/
theorem C8_failed_registration_witness :
    ∃ s1 s2, sas_add_device env_rphy_add_fails discovered_domain 0 = Except.ok s1 ∧
      s1.probe_fail 0 = true ∧ s1.destroy 0 = true ∧ 0 ∈ s1.port.dev_list ∧
      sas_del_device s1 0 = Except.ok s2 ∧
      0 ∉ s2.port.dev_list ∧ 0 ∉ s2.port.expander_list ∧ 0 ∉ s2.port.disco_list ∧
      s2.kref 0 = 0 ∧
      ∃ l, s2.log = s1.log ++ l ∧ Action.sas_rphy_delete 0 ∉ l ∧
        Action.sas_rphy_free 0 ∈ l ∧ l.count (Action.lldd_dev_gone 0) ≤ 1 :=
  match C8_failed_registration env_rphy_add_fails discovered_domain 0
    (discovered_domain.devs.getD 0 fresh_device) 3 (by rfl) (by decide) (by rfl) (by rfl)
    (by rfl) (by decide) (by rfl) with
  | ⟨s1, s2, a1, a2, a3, a4, a5, a6, a7, a8, _, a10, a11⟩ =>
    ⟨s1, s2, a1, a2, a3, a4, a5, a6, a7, a8, a10 (by rfl) (fun _ => by rfl), a11⟩

/-! ## Discovery of a root end device -/

theorem alloc_rphy_end (e : Env) (s : Domain) (d : DevId) :
    alloc_rphy e s d SAS_END_DEVICE =
      (-ENODEV, e.sas_end_device_alloc, s.say (Action.sas_end_device_alloc d)) := by
  unfold alloc_rphy
  simp [SAS_END_DEVICE, SAS_SATA_DEV]

/-- A successful classification of a SAS end device: the new device is the
root, is on `disco_list` only, and holds the allocator's reference. -/
theorem sas_get_port_device_end_ok (e : Env) (s : Domain) (phy : asd_sas_phy)
    (rest : List asd_sas_phy) (halloc : e.sas_alloc_device = true)
    (hphy : s.port.phy_list = phy :: rest)
    (hclass : (classify_frame s.port.oob_mode phy.frame_rcvd fresh_device).dev_type =
      SAS_END_DEVICE)
    (hrphy : e.sas_end_device_alloc = true) :
    ∃ s1 y, sas_get_port_device e s = (0, s1) ∧ s1.port.port_dev = some s.devs.length ∧
      s1.dev s.devs.length = some y ∧ y.dev_type = SAS_END_DEVICE ∧ y.kref = 1 ∧
      y.state = ⟨false, false, false, false⟩ ∧ y.parent = none ∧
      s1.topo_wq = s.topo_wq ∧ s1.dft = s.dft ∧
      s1.log = s.log ++ [Action.sas_alloc_device s.devs.length,
        Action.sas_end_device_alloc s.devs.length] ∧
      s1.port.disco_list = s.port.disco_list ++ [s.devs.length] ∧
      s1.port.dev_list = s.port.dev_list ∧
      s1.port.expander_list = s.port.expander_list := by
  rw [sas_get_port_device_phy e s phy rest halloc hphy]
  have hc := dev_classify_root_new s phy
  have hty := dev_type_classify_root_new s phy
  obtain ⟨c1, c2, c3, c4, c5, c6⟩ := classified_fields s.port.oob_mode phy.frame_rcvd
  rw [c1, hclass] at hty
  rw [hty, alloc_rphy_end]
  simp only [hrphy, Bool.not_true, Bool.false_eq_true, if_false]
  have hx : ((classify_root (alloc_device s) s.devs.length phy).say
      (Action.sas_end_device_alloc s.devs.length)).dev s.devs.length =
        some (classified s.port.oob_mode phy.frame_rcvd) := by
    rw [dev_say, hc]
  obtain ⟨⟨y, hy, k1, k2, k3, k4, k5, k6, k7⟩, p1, p2, p3, p4⟩ :=
    link_root_spec e _ s.devs.length phy _ hx
  have hend : (dev_is_sata (classified s.port.oob_mode phy.frame_rcvd) ||
      (classified s.port.oob_mode phy.frame_rcvd).dev_type == SAS_END_DEVICE) = true := by
    rw [c1, hclass]
    simp
  rw [hend] at p3 p4
  simp only [if_true, say_port, classify_root_port, alloc_device_port] at p2 p3 p4
  refine ⟨_, y, rfl, p1, hy, ?_, ?_, ?_, ?_, ?_, ?_, ?_, p3, p2, p4⟩
  · rw [k1, c1, hclass]
  · rw [k4, c3]
  · rw [k5, c4]
  · rw [k6, c5]
  · simp
  · simp
  · simp

theorem dev_sas_notify_lldd_dev_found (e : Env) (s : Domain) (d : DevId)
    (h : s.dft.lldd_dev_found = true) :
    (sas_notify_lldd_dev_found e s d).1 = e.lldd_dev_found d ∧
    (sas_notify_lldd_dev_found e s d).2.dev d = (s.dev d).map (fun x =>
      { x with state := { x.state with SAS_DEV_FOUND := true }, kref := x.kref + 1 }) ∧
    (sas_notify_lldd_dev_found e s d).2.port = s.port ∧
    (sas_notify_lldd_dev_found e s d).2.topo_wq = s.topo_wq ∧
    (sas_notify_lldd_dev_found e s d).2.dft = s.dft ∧
    (sas_notify_lldd_dev_found e s d).2.log = s.log ++ [Action.lldd_dev_found d] := by
  unfold sas_notify_lldd_dev_found
  rw [h]
  refine ⟨rfl, ?_, by simp, by simp, by simp, by simp⟩
  simp only [Bool.not_true, Bool.false_eq_true, if_false, dev_updDev_self, dev_say,
    Option.map_map]
  rfl

theorem sas_discover_domain_no_root (e : Env) (fuel : Nat) (polls : Nat → Domain) (s : Domain)
    (h : s.port.port_dev = none) :
    sas_discover_domain e fuel polls s = sas_discover_domain_locked e s := by
  unfold sas_discover_domain
  rw [h]
  rfl

/-- Discovery of a root end device, up to the dispatch: the result of
`sas_discover_end_dev` decides between queueing the Add event and unwinding. -/
theorem sas_discover_domain_locked_end (e : Env) (s : Domain) (phy : asd_sas_phy)
    (rest : List asd_sas_phy) (halloc : e.sas_alloc_device = true)
    (hphy : s.port.phy_list = phy :: rest)
    (hclass : (classify_frame s.port.oob_mode phy.frame_rcvd fresh_device).dev_type =
      SAS_END_DEVICE)
    (hrphy : e.sas_end_device_alloc = true) (hhook : s.dft.lldd_dev_found = true) :
    ∃ s2 y, s2.dev s.devs.length = some y ∧ y.kref = 2 ∧
      y.state = ⟨false, true, false, false⟩ ∧ y.parent = none ∧
      s2.port.port_dev = some s.devs.length ∧
      s2.port.disco_list = s.port.disco_list ++ [s.devs.length] ∧
      s2.port.dev_list = s.port.dev_list ∧ s2.port.expander_list = s.port.expander_list ∧
      s2.topo_wq = s.topo_wq ∧ s2.dft = s.dft ∧
      s2.log = s.log ++ [Action.sas_alloc_device s.devs.length,
        Action.sas_end_device_alloc s.devs.length, Action.lldd_dev_found s.devs.length] ∧
      sas_discover_domain_locked e s =
        if e.lldd_dev_found s.devs.length ≠ 0 then
          Except.ok ((sas_put_device ((((s2.say (Action.sas_rphy_free s.devs.length)).setPort
            (fun p => { p with disco_list := list_del s.devs.length p.disco_list })).setPort
            (fun p => { p with
              dev_list := list_del s.devs.length p.dev_list,
              expander_list := list_del s.devs.length p.expander_list })))
            s.devs.length).setPort (fun p => { p with port_dev := none }))
        else
          Except.ok (sas_notify_device_event e s2 s.devs.length
            sas_device_event.SAS_DEVICE_ADD).2 := by
  obtain ⟨s1, y, h1, h2, h3, h4, h5, h6, h7, h8, h9, h10, h11, h12, h13⟩ :=
    sas_get_port_device_end_ok e s phy rest halloc hphy hclass hrphy
  have hh1 : s1.dft.lldd_dev_found = true := by rw [h9]; exact hhook
  obtain ⟨f1, f2, f3, f4, f5, f6⟩ := dev_sas_notify_lldd_dev_found e s1 s.devs.length hh1
  refine ⟨(sas_notify_lldd_dev_found e s1 s.devs.length).2,
    { y with state := { y.state with SAS_DEV_FOUND := true }, kref := y.kref + 1 },
    ?_, ?_, ?_, h7, ?_, ?_, ?_, ?_, ?_, ?_, ?_, ?_⟩
  · rw [f2, h3]; rfl
  · simp [h5]
  · simp [h6]
  · rw [f3, h2]
  · rw [f3, h11]
  · rw [f3, h12]
  · rw [f3, h13]
  · rw [f4, h8]
  · rw [f5, h9]
  · rw [f6, h10]; simp
  · unfold sas_discover_domain_locked
    rw [h1]
    simp only [ne_eq, not_true_eq_false, if_false, h2, h3, h4, if_true]
    unfold sas_discover_end_dev
    dsimp only
    rw [f1]
    by_cases hres : e.lldd_dev_found s.devs.length = 0
    · simp [hres]
    · simp [hres]


/-! ## C4: discovery of a root end device -/

/-- C4 (as stated) fails: on a port with no prior root whose payload
classifies as a SAS end device, when the found hook returns an error the hook
is called once and no `SAS_DEVICE_ADD` event is enqueued. -/
theorem C4_counterexample :
    ∃ t, sas_discover_domain env_found_fails 1
        (fun _ => domain_of all_hooks (port_of end_frame 2))
        (domain_of all_hooks (port_of end_frame 2)) = Except.ok t ∧
      (domain_of all_hooks (port_of end_frame 2)).port.port_dev = none ∧
      (classify_frame 2 end_frame fresh_device).dev_type = SAS_END_DEVICE ∧
      t.log.count (Action.lldd_dev_found 0) = 1 ∧
      ¬ (t.topo_wq.count (sas_device_event.SAS_DEVICE_ADD, 0) = 1) :=
  ⟨_, rfl, rfl, rfl, by decide, by decide⟩

/-- C4 (amended): for every port with no prior root device whose payload
classifies as a SAS end device, when the device, its reporting object and the
event are allocated and the found hook is installed and returns 0,
`sas_discover_domain` calls the hook exactly once and then enqueues exactly
one `SAS_DEVICE_ADD` event for the new root device, the hook call happening
before the enqueue; no other lifecycle event is enqueued. -/
theorem C4_end_device_discovery (e : Env) (s : Domain) (phy : asd_sas_phy)
    (rest : List asd_sas_phy) (fuel : Nat) (polls : Nat → Domain)
    (hroot : s.port.port_dev = none) (hphy : s.port.phy_list = phy :: rest)
    (hclass : (classify_frame s.port.oob_mode phy.frame_rcvd fresh_device).dev_type =
      SAS_END_DEVICE)
    (halloc : e.sas_alloc_device = true) (hrphy : e.sas_end_device_alloc = true)
    (hhook : s.dft.lldd_dev_found = true) (hacc : e.lldd_dev_found s.devs.length = 0)
    (hkm : e.kmalloc sas_device_event.SAS_DEVICE_ADD s.devs.length = true) :
    ∃ t, sas_discover_domain e fuel polls s = Except.ok t ∧
      t.topo_wq = s.topo_wq ++ [(sas_device_event.SAS_DEVICE_ADD, s.devs.length)] ∧
      t.log = s.log ++ [Action.sas_alloc_device s.devs.length,
        Action.sas_end_device_alloc s.devs.length, Action.lldd_dev_found s.devs.length,
        Action.queue_work sas_device_event.SAS_DEVICE_ADD s.devs.length] ∧
      t.port.port_dev = some s.devs.length ∧
      t.port.disco_list = s.port.disco_list ++ [s.devs.length] := by
  obtain ⟨s2, y, _, _, _, _, a5, a6, _, _, a9, _, a11, a12⟩ :=
    sas_discover_domain_locked_end e s phy rest halloc hphy hclass hrphy hhook
  rw [sas_discover_domain_no_root e fuel polls s hroot, a12]
  simp only [hacc, ne_eq, not_true_eq_false, if_false]
  refine ⟨_, rfl, ?_, ?_, ?_, ?_⟩
  · rw [sas_notify_device_event_topo_wq, hkm, a9]
    simp
  · rw [sas_notify_device_event_log, hkm, a11]
    simp
  · rw [sas_notify_device_event_port, a5]
  · rw [sas_notify_device_event_port, a6]

/-- C4 witness: the port of one PHY with an end-device identify frame. -/
theorem C4_end_device_discovery_witness :
    ∃ t, sas_discover_domain env_ok 1 (fun _ => domain_of all_hooks (port_of end_frame 2))
        (domain_of all_hooks (port_of end_frame 2)) = Except.ok t ∧
      t.topo_wq = (domain_of all_hooks (port_of end_frame 2)).topo_wq ++
        [(sas_device_event.SAS_DEVICE_ADD,
          (domain_of all_hooks (port_of end_frame 2)).devs.length)] ∧
      t.log = (domain_of all_hooks (port_of end_frame 2)).log ++
        [Action.sas_alloc_device (domain_of all_hooks (port_of end_frame 2)).devs.length,
          Action.sas_end_device_alloc (domain_of all_hooks (port_of end_frame 2)).devs.length,
          Action.lldd_dev_found (domain_of all_hooks (port_of end_frame 2)).devs.length,
          Action.queue_work sas_device_event.SAS_DEVICE_ADD
            (domain_of all_hooks (port_of end_frame 2)).devs.length] ∧
      t.port.port_dev = some (domain_of all_hooks (port_of end_frame 2)).devs.length ∧
      t.port.disco_list = (domain_of all_hooks (port_of end_frame 2)).port.disco_list ++
        [(domain_of all_hooks (port_of end_frame 2)).devs.length] :=
  C4_end_device_discovery env_ok (domain_of all_hooks (port_of end_frame 2))
    ⟨end_frame, 3, false, none⟩ [] 1 (fun _ => domain_of all_hooks (port_of end_frame 2))
    rfl rfl rfl rfl rfl rfl rfl rfl

/-! ## C7: dispatch failure -/

/-- C7, what the code does: for every port with no prior root whose payload
classifies as a SAS end device, when the found hook is installed and returns
an error, `sas_discover_domain` returns with the root pointer null, the
device on none of the three lists and no event enqueued, but the device is
still marked found and its reference count is one, not zero: the reference
`sas_notify_lldd_dev_found` took is never dropped. -/
theorem C7_found_reference_not_dropped (e : Env) (s : Domain) (phy : asd_sas_phy)
    (rest : List asd_sas_phy) (fuel : Nat) (polls : Nat → Domain)
    (hroot : s.port.port_dev = none) (hphy : s.port.phy_list = phy :: rest)
    (hclass : (classify_frame s.port.oob_mode phy.frame_rcvd fresh_device).dev_type =
      SAS_END_DEVICE)
    (halloc : e.sas_alloc_device = true) (hrphy : e.sas_end_device_alloc = true)
    (hhook : s.dft.lldd_dev_found = true) (hrej : e.lldd_dev_found s.devs.length ≠ 0) :
    ∃ t, sas_discover_domain e fuel polls s = Except.ok t ∧
      t.port.port_dev = none ∧ s.devs.length ∉ t.port.disco_list ∧
      s.devs.length ∉ t.port.dev_list ∧ s.devs.length ∉ t.port.expander_list ∧
      t.topo_wq = s.topo_wq ∧ t.found s.devs.length = true ∧ t.kref s.devs.length = 1 := by
  obtain ⟨s2, y, a1, a2, a3, _, _, _, _, _, a9, _, _, a12⟩ :=
    sas_discover_domain_locked_end e s phy rest halloc hphy hclass hrphy hhook
  rw [sas_discover_domain_no_root e fuel polls s hroot, a12]
  simp only [hrej, ne_eq, not_false_eq_true, if_true]
  refine ⟨_, rfl, rfl, ?_, ?_, ?_, ?_, ?_, ?_⟩
  · simp only [setPort_port, sas_put_device_port, say_port]
    exact not_mem_list_del _ _
  · simp only [setPort_port, sas_put_device_port, say_port]
    exact not_mem_list_del _ _
  · simp only [setPort_port, sas_put_device_port, say_port]
    exact not_mem_list_del _ _
  · simp only [setPort_topo_wq, sas_put_device_topo_wq, say_topo_wq]
    exact a9
  · simp only [found_setPort, found_sas_put_device, found_say]
    rw [found_eq, a1]
    simp only [a3]
  · simp only [kref_setPort, kref_sas_put_device, kref_say]
    rw [kref_eq, a1]
    simp only [a2]

/-- C7 at the failing input: one PHY with an end-device identify frame, every
hook installed, the found hook returning an error. -/
theorem C7_found_reference_not_dropped_witness :
    ∃ t, sas_discover_domain env_found_fails 1
        (fun _ => domain_of all_hooks (port_of end_frame 2))
        (domain_of all_hooks (port_of end_frame 2)) = Except.ok t ∧
      t.port.port_dev = none ∧
      (domain_of all_hooks (port_of end_frame 2)).devs.length ∉ t.port.disco_list ∧
      (domain_of all_hooks (port_of end_frame 2)).devs.length ∉ t.port.dev_list ∧
      (domain_of all_hooks (port_of end_frame 2)).devs.length ∉ t.port.expander_list ∧
      t.topo_wq = (domain_of all_hooks (port_of end_frame 2)).topo_wq ∧
      t.found (domain_of all_hooks (port_of end_frame 2)).devs.length = true ∧
      t.kref (domain_of all_hooks (port_of end_frame 2)).devs.length = 1 :=
  C7_found_reference_not_dropped env_found_fails (domain_of all_hooks (port_of end_frame 2))
    ⟨end_frame, 3, false, none⟩ [] 1 (fun _ => domain_of all_hooks (port_of end_frame 2))
    rfl rfl rfl rfl rfl rfl (by decide)


/-! ## C6: classification failure -/

theorem alloc_rphy_fails (e : Env) (s : Domain) (d : DevId) (ty : Nat)
    (h : (ty ≠ SAS_SATA_DEV ∧ ty ≠ SAS_END_DEVICE ∧ ty ≠ SAS_EDGE_EXPANDER_DEVICE ∧
      ty ≠ SAS_FANOUT_EXPANDER_DEVICE) ∨ (ty = SAS_SATA_DEV ∧ e.sas_ata_init ≠ 0)) :
    (alloc_rphy e s d ty).2.1 = false ∧ (alloc_rphy e s d ty).1 ≠ 0 := by
  unfold alloc_rphy
  rcases h with ⟨h1, h2, h3, h4⟩ | ⟨h1, h2⟩
  · rw [if_neg h1, if_neg h2, if_neg h3, if_neg h4]
    have hne : (-ENODEV : Int) ≠ 0 := by decide
    exact ⟨rfl, hne⟩
  · rw [if_pos h1]
    dsimp only
    rw [if_pos h2]
    exact ⟨rfl, h2⟩

theorem kref_alloc_device_new (s : Domain) : (alloc_device s).kref s.devs.length = 1 := by
  rw [kref_eq, dev_alloc_device_new]
  rfl

theorem drain_wait_drained (polls : Nat → Domain) (fuel : Nat) (hfuel : 0 < fuel)
    (h : lists_empty (polls 0).port = true) :
    drain_wait polls fuel 0 = Except.ok (true, polls 0) := by
  cases fuel with
  | zero => omega
  | succ n =>
    unfold drain_wait
    rw [if_pos h]

/-- What a failed classification leaves: a non-zero return value, the port
and the queue as they were, the allocated device released. -/
theorem sas_get_port_device_fails (e : Env) (s : Domain) (halloc : e.sas_alloc_device = true)
    (hfail : classification_fails e s) :
    (sas_get_port_device e s).1 ≠ 0 ∧ (sas_get_port_device e s).2.port = s.port ∧
    (sas_get_port_device e s).2.topo_wq = s.topo_wq ∧
    (sas_get_port_device e s).2.kref s.devs.length = 0 := by
  unfold classification_fails at hfail
  cases hphy : s.port.phy_list with
  | nil =>
    rw [sas_get_port_device_no_phy e s halloc hphy]
    have hne : (-ENODEV : Int) ≠ 0 := by decide
    refine ⟨hne, by simp, by simp, ?_⟩
    simp only []
    rw [kref_sas_put_device, kref_alloc_device_new]
  | cons phy rest =>
    rw [hphy] at hfail
    simp only [] at hfail
    rw [sas_get_port_device_phy e s phy rest halloc hphy]
    have hty := dev_type_classify_root_new s phy
    obtain ⟨c1, _, c3, _⟩ := classified_fields s.port.oob_mode phy.frame_rcvd
    rw [c1] at hty
    have hk : (classify_root (alloc_device s) s.devs.length phy).kref s.devs.length = 1 := by
      rw [kref_eq, dev_classify_root_new]
      exact c3
    rw [hty]
    obtain ⟨f1, f2⟩ := alloc_rphy_fails e (classify_root (alloc_device s) s.devs.length phy)
      s.devs.length _ hfail
    have f3 : (alloc_rphy e (classify_root (alloc_device s) s.devs.length phy) s.devs.length
        (classify_frame s.port.oob_mode phy.frame_rcvd fresh_device).dev_type).2.2.kref
        s.devs.length = 1 := by
      rw [kref_eq, dev_alloc_rphy, ← kref_eq]
      exact hk
    simp only [f1, Bool.not_false, if_true]
    refine ⟨f2, by simp, by simp, ?_⟩
    rw [kref_sas_put_device, f3]

/-- The drain-wait loop returns the state of the first poll that finds the
three lists empty, when that poll is within the ceiling and the fuel reaches it. -/
theorem drain_wait_first_empty (polls : Nat → Domain) (k : Nat)
    (hk : k ≤ SAS_MAX_WAIT_RESCOURCE_CLEAR_TIME * 10)
    (hempty : lists_empty (polls k).port = true)
    (hbusy : ∀ j, j < k → lists_empty (polls j).port = false) :
    ∀ (fuel cnt : Nat), cnt ≤ k → k - cnt < fuel →
      drain_wait polls fuel cnt = Except.ok (true, polls k) := by
  intro fuel
  induction fuel with
  | zero =>
    intro cnt _ h2
    omega
  | succ n ih =>
    intro cnt h1 h2
    unfold drain_wait
    by_cases hc : cnt = k
    · subst hc
      rw [if_pos hempty]
    · have hlt : cnt < k := by omega
      rw [hbusy cnt hlt]
      simp only [Bool.false_eq_true, if_false]
      split_ifs with h3
      · omega
      · exact ih (cnt + 1) (by omega) (by omega)

/-- A failed classification, whether or not the device object could be
allocated: a non-zero return value, the port and the queue as they were, no
reference left on the new device. -/
theorem sas_get_port_device_fails_any (e : Env) (s : Domain)
    (hfail : classification_fails e s) :
    (sas_get_port_device e s).1 ≠ 0 ∧ (sas_get_port_device e s).2.port = s.port ∧
    (sas_get_port_device e s).2.topo_wq = s.topo_wq ∧
    (sas_get_port_device e s).2.kref s.devs.length = 0 := by
  by_cases halloc : e.sas_alloc_device = true
  · exact sas_get_port_device_fails e s halloc hfail
  · have hf : e.sas_alloc_device = false := by simpa using halloc
    rw [sas_get_port_device_nomem e s hf]
    have hne : (-ENOMEM : Int) ≠ 0 := by decide
    refine ⟨hne, rfl, rfl, ?_⟩
    simp only [Domain.kref]
    rw [List.getElem?_eq_none (le_refl _)]

/-- The state `add_skipped` is reached by a discovery, a deletion request
and the Add handler. -/
theorem add_skipped_reachable : Reachable add_skipped :=
  Reachable.step destroy_requested add_skipped
    (Reachable.step discovered_domain destroy_requested
      (Reachable.step fresh_port discovered_domain
        (Reachable.init fresh_port ⟨rfl, rfl, rfl, rfl, rfl, rfl⟩)
        (Step.discover env_ok 1 fresh_port discovered_domain rfl))
      (Step.unregister_dev env_ok 0 discovered_domain))
    (Step.run_event env_ok sas_device_event.SAS_DEVICE_ADD 0
      [(sas_device_event.SAS_DEVICE_DEL, 0)] destroy_requested add_skipped rfl rfl)

/-- C6 (as stated) fails: on a port whose root pointer is left from an
earlier discovery (device 0 was unlinked by the Add handler after destroy had
been requested, its Delete event is still queued) and whose PHY list is
empty, the drain-wait of `sas_discover_domain` finds the three lists empty,
classification fails with a non-zero code, no event is enqueued, and the root
pointer still names device 0. -/
theorem C6_counterexample :
    Reachable add_skipped ∧ add_skipped.port.port_dev = some 0 ∧
    lists_empty add_skipped.port = true ∧
    stale_root.port.port_dev = some 0 ∧ lists_empty stale_root.port = true ∧
    stale_root.port.phy_list = [] ∧ classification_fails env_ok stale_root ∧
    (sas_get_port_device env_ok stale_root).1 ≠ 0 ∧
    ∃ t, sas_discover_domain env_ok 1 (fun _ => stale_root) stale_root = Except.ok t ∧
      t.topo_wq = stale_root.topo_wq ∧ t.port = stale_root.port ∧
      ¬ (t.port.port_dev = none) :=
  ⟨add_skipped_reachable, rfl, rfl, rfl, rfl, rfl, trivial, by decide, _, rfl, rfl, rfl,
    by decide⟩

/-- C6 (amended): for every port and payload, if root-device classification
in `sas_get_port_device` fails (unrecognised device type, empty PHY list, or
SATA initialisation failure), it returns a non-zero error code, the port (so
the root pointer and the three device lists) is exactly as before the call,
and the device object it allocated has been released down to reference count
zero; `sas_discover_domain`, whether it classifies at once (port without a
root) or after its drain-wait found the three lists empty at some poll within
the ceiling, then returns having enqueued no event and leaves the port as
classification found it: the root pointer is unset if it was unset, and a
root pointer left from an earlier discovery stays as it was. -/
theorem C6_classification_failure (e : Env) (s : Domain)
    (hfail : classification_fails e s) :
    (sas_get_port_device e s).1 ≠ 0 ∧
    (sas_get_port_device e s).2.port = s.port ∧
    (sas_get_port_device e s).2.port.port_dev = s.port.port_dev ∧
    (sas_get_port_device e s).2.port.disco_list = s.port.disco_list ∧
    (sas_get_port_device e s).2.port.dev_list = s.port.dev_list ∧
    (sas_get_port_device e s).2.port.expander_list = s.port.expander_list ∧
    (sas_get_port_device e s).2.kref s.devs.length = 0 ∧
    (∀ (fuel : Nat) (polls : Nat → Domain) (s0 : Domain) (k : Nat),
      ((s0.port.port_dev = none ∧ s0 = s) ∨
       (s0.port.port_dev ≠ none ∧ k < fuel ∧ k ≤ SAS_MAX_WAIT_RESCOURCE_CLEAR_TIME * 10 ∧
        polls k = s ∧ lists_empty (polls k).port = true ∧
        ∀ j, j < k → lists_empty (polls j).port = false)) →
      ∃ t, sas_discover_domain e fuel polls s0 = Except.ok t ∧ t.topo_wq = s.topo_wq ∧
        t.port = s.port ∧ t.port.port_dev = s.port.port_dev ∧ t.kref s.devs.length = 0 ∧
        (s.port.port_dev = none → t.port.port_dev = none)) := by
  obtain ⟨h1, h2, h3, h4⟩ := sas_get_port_device_fails_any e s hfail
  refine ⟨h1, h2, by rw [h2], by rw [h2], by rw [h2], by rw [h2], h4, ?_⟩
  intro fuel polls s0 k hreach
  have hlocked : sas_discover_domain_locked e s = Except.ok (sas_get_port_device e s).2 := by
    unfold sas_discover_domain_locked
    simp only [h1, ne_eq, not_false_eq_true, if_true]
  have hrun : sas_discover_domain e fuel polls s0 = Except.ok (sas_get_port_device e s).2 := by
    rcases hreach with ⟨hnone, hs0⟩ | ⟨hsome, hfuel, hk, hpoll, hempty, hbusy⟩
    · subst hs0
      rw [sas_discover_domain_no_root e fuel polls s0 hnone, hlocked]
    · unfold sas_discover_domain
      have hroot : s0.port.port_dev.isSome = true := by
        cases hp : s0.port.port_dev with
        | none => exact absurd hp hsome
        | some _ => rfl
      rw [if_pos hroot, drain_wait_first_empty polls k hk hempty hbusy fuel 0 (Nat.zero_le _)
        (by omega)]
      simp only [hpoll]
      exact hlocked
  refine ⟨_, hrun, h3, h2, by rw [h2], h4, ?_⟩
  intro hnone
  rw [h2]
  exact hnone

/-- C6 (amended) witness: on the port of `stale_root` the drain-wait finds
the lists empty at its first poll, classification fails for want of a PHY,
and `sas_discover_domain` returns with the queue and the port as they were. -/
theorem C6_classification_failure_witness :
    classification_fails env_ok stale_root ∧
    (sas_get_port_device env_ok stale_root).1 ≠ 0 ∧
    (sas_get_port_device env_ok stale_root).2.port = stale_root.port ∧
    (sas_get_port_device env_ok stale_root).2.kref stale_root.devs.length = 0 ∧
    ∃ t, sas_discover_domain env_ok 1 (fun _ => stale_root) stale_root = Except.ok t ∧
      t.topo_wq = stale_root.topo_wq ∧ t.port = stale_root.port ∧
      t.port.port_dev = stale_root.port.port_dev ∧ t.kref stale_root.devs.length = 0 ∧
      (stale_root.port.port_dev = none → t.port.port_dev = none) :=
  ⟨trivial, (C6_classification_failure env_ok stale_root trivial).1,
    (C6_classification_failure env_ok stale_root trivial).2.1,
    (C6_classification_failure env_ok stale_root trivial).2.2.2.2.2.2.1,
    (C6_classification_failure env_ok stale_root trivial).2.2.2.2.2.2.2 1
      (fun _ => stale_root) stale_root 0
      (Or.inr ⟨by decide, by decide, by decide, rfl, rfl, fun j hj => absurd hj (by omega)⟩)⟩

/-! ## C1: reference counts of listed devices -/

/-- C1, what the code does: a reachable state in which a device is on
`disco_list` with reference count zero.  The root end device is discovered
while the allocation of its Add event fails (`sas_discover_end_dev` ignores
the result of `sas_notify_device_event`), so it stays on `disco_list` with no
event queued; `sas_unregister_domain_devices` queues its Delete event; the
Delete handler finds `dev_list_node` unlinked, takes the
`sas_unregister_fail_dev` path, which never unlinks `disco_list_node`, and
drops the last reference. -/
theorem C1_freed_while_on_disco_list :
    initial fresh_port ∧
    sas_discover_domain env_nomem 1 (fun _ => fresh_port) fresh_port =
      Except.ok discovered_no_event ∧
    discovered_no_event.port.disco_list = [0] ∧ discovered_no_event.topo_wq = [] ∧
    discovered_no_event.kref 0 = 2 ∧
    unregister_requested.topo_wq = [(sas_device_event.SAS_DEVICE_DEL, 0)] ∧
    sas_topo_event_fns env_ok sas_device_event.SAS_DEVICE_DEL
      { unregister_requested with topo_wq := [] } 0 = Except.ok deleted_on_disco_list ∧
    Reachable deleted_on_disco_list ∧
    0 ∈ deleted_on_disco_list.port.disco_list ∧ deleted_on_disco_list.kref 0 = 0 ∧
    deleted_on_disco_list.devs.map (fun x => x.freed) = [true] ∧
    ¬ (∀ d, (d ∈ deleted_on_disco_list.port.disco_list ∨
        d ∈ deleted_on_disco_list.port.dev_list ∨
        d ∈ deleted_on_disco_list.port.expander_list ∨
        event_queued deleted_on_disco_list d) → 1 ≤ deleted_on_disco_list.kref d) :=
  ⟨⟨rfl, rfl, rfl, rfl, rfl, rfl⟩, rfl, rfl, rfl, rfl, rfl, rfl,
    Reachable.step unregister_requested deleted_on_disco_list
      (Reachable.step discovered_no_event unregister_requested
        (Reachable.step fresh_port discovered_no_event
          (Reachable.init fresh_port ⟨rfl, rfl, rfl, rfl, rfl, rfl⟩)
          (Step.discover env_nomem 1 fresh_port discovered_no_event rfl))
        (Step.unregister_domain_devices env_ok true discovered_no_event))
      (Step.run_event env_ok sas_device_event.SAS_DEVICE_DEL 0 [] unregister_requested
        deleted_on_disco_list rfl rfl),
    by decide, rfl, rfl,
    fun h => absurd (h 0 (Or.inl (by decide))) (by decide)⟩

/-! ## State changes that give no device a reference of its own -/

theorem destroy_eq (s : Domain) (d : DevId) :
    s.destroy d = match s.dev d with
      | some x => x.state.SAS_DEV_DESTROY
      | none => false := rfl

theorem own_refs_le {s t : Domain} {i : DevId} (hk : t.kref i ≤ s.kref i)
    (hf : t.found i = s.found i) : t.own_refs i ≤ s.own_refs i := by
  unfold Domain.own_refs
  rw [hf]
  omega

theorem own_refs_of_dev {s t : Domain} {i : DevId} (h : t.dev i = s.dev i) :
    t.own_refs i = s.own_refs i := by
  unfold Domain.own_refs
  rw [kref_eq, kref_eq, SasDiscover.found_eq, SasDiscover.found_eq, h]

theorem Soft.same (s : Domain) : Soft s s :=
  ⟨fun _ => rfl, fun _ => le_refl _, fun _ h => h, fun _ h => Or.inl h⟩

theorem Soft.comp {s t u : Domain} (h1 : Soft s t) (h2 : Soft t u) : Soft s u := by
  refine ⟨fun i => (h2.valid i).trans (h1.valid i),
    fun i => le_trans (h2.own i) (h1.own i),
    fun i h => h2.destroy i (h1.destroy i h), ?_⟩
  intro i h
  rcases h2.queue i h with h | h
  · rcases h1.queue i h with h | h
    · exact Or.inl h
    · exact Or.inr (h2.destroy i h)
  · exact Or.inr h

theorem Soft.of_devs {s t : Domain} (hd : t.devs = s.devs) (hq : t.topo_wq = s.topo_wq) :
    Soft s t := by
  have hdev : ∀ i, t.dev i = s.dev i := by
    intro i
    unfold Domain.dev
    rw [hd]
  refine ⟨fun i => by rw [hdev], fun i => le_of_eq (own_refs_of_dev (hdev i)),
    fun i h => by rw [destroy_eq, hdev]; exact h, fun i h => Or.inl (by rw [← hq]; exact h)⟩

theorem Soft.upd (s : Domain) (d : DevId) (f : domain_device → domain_device)
    (hk : ∀ x, (f x).kref ≤ x.kref)
    (hf : ∀ x, (f x).state.SAS_DEV_FOUND = x.state.SAS_DEV_FOUND)
    (hd : ∀ x, x.state.SAS_DEV_DESTROY = true → (f x).state.SAS_DEV_DESTROY = true) :
    Soft s (s.updDev d f) := by
  refine ⟨?_, ?_, ?_, fun i h => Or.inl (by simpa using h)⟩
  · intro i
    rw [dev_updDev]
    split_ifs with h
    · subst h; simp
    · rfl
  · intro i
    apply own_refs_le
    · rw [kref_eq, kref_eq, dev_updDev]
      split_ifs with h
      · subst h
        cases s.dev i with
        | none => exact le_refl _
        | some x => exact hk x
      · exact le_refl _
    · exact found_updDev_keep s d i f hf
  · intro i
    rw [destroy_eq, destroy_eq, dev_updDev]
    split_ifs with h
    · subst h
      cases s.dev i with
      | none => exact fun h => h
      | some x => exact hd x
    · exact fun h => h

theorem Soft.of_frame {s t : Domain} (h : Frame s t) : Soft s t := by
  refine ⟨?_, fun i => own_refs_le (h.kref_le i) (h.found_same i), ?_,
    fun i hq => Or.inl (by rw [← h.topo_wq]; exact hq)⟩
  · intro i
    have h5 := h.devs i
    cases hs : s.dev i <;> cases ht : t.dev i <;> simp only [hs, ht, dev_keeps] at h5 ⊢
    · rfl
  · intro i
    have h5 := h.devs i
    rw [destroy_eq, destroy_eq]
    cases hs : s.dev i <;> cases ht : t.dev i <;> simp only [hs, ht, dev_keeps] at h5 ⊢
    · exact fun h => h
    · rw [h5.2.2.2.2.1]
      exact fun h => h

theorem Soft.say (s : Domain) (a : Action) : Soft s (s.say a) := Soft.of_devs rfl rfl

theorem Soft.setPort (s : Domain) (f : asd_sas_port → asd_sas_port) : Soft s (s.setPort f) :=
  Soft.of_devs rfl rfl

theorem sas_put_device_soft (s : Domain) (d : DevId) : Soft s (sas_put_device s d) :=
  Soft.of_frame (sas_put_device_frame s d)

/-- Releasing a reference of a device lowers the count of its own
references by one, down to zero at most. -/
theorem own_refs_sas_put_device (s : Domain) (d : DevId) :
    (sas_put_device s d).own_refs d ≤ s.own_refs d - 1 := by
  unfold Domain.own_refs
  rw [kref_sas_put_device, found_sas_put_device]
  split_ifs <;> omega

/-- The gone notification gives back the reference of the found hook
together with the mark, so no device gains a reference of its own. -/
theorem sas_notify_lldd_dev_gone_soft (s : Domain) (d : DevId) :
    Soft s (sas_notify_lldd_dev_gone s d) := by
  refine ⟨?_, ?_, ?_, fun i h => Or.inl (by rw [← sas_notify_lldd_dev_gone_topo_wq s d]; exact h)⟩
  · intro i
    unfold sas_notify_lldd_dev_gone
    split_ifs
    · rfl
    · split
      · rfl
      · split_ifs
        · dsimp only
          rw [(sas_put_device_soft _ d).valid i, dev_say, dev_updDev]
          split_ifs with h
          · subst h; simp
          · rfl
        · rfl
  · intro i
    unfold Domain.own_refs
    rw [found_sas_notify_lldd_dev_gone]
    by_cases hid : i = d
    · subst hid
      rw [kref_sas_notify_lldd_dev_gone]
      by_cases hh : s.dft.lldd_dev_gone = true
      · by_cases hf : s.found i = true
        · simp [hh, hf]
        · simp [hh, hf]
      · simp [hh]
    · have hk : (sas_notify_lldd_dev_gone s d).kref i ≤ s.kref i := by
        unfold sas_notify_lldd_dev_gone
        split_ifs
        · exact le_refl _
        · split
          · exact le_refl _
          · split_ifs
            · dsimp only
              refine le_trans ((sas_put_device_frame _ d).kref_le i) ?_
              rw [kref_say, kref_updDev_ne _ _ _ _ hid]
            · exact le_refl _
      simp only [hid, and_false, if_false]
      omega
  · intro i
    unfold sas_notify_lldd_dev_gone
    split_ifs
    · exact fun h => h
    · split
      · exact fun h => h
      · split_ifs
        · dsimp only
          intro h
          apply (sas_put_device_soft _ d).destroy i
          rw [destroy_eq, dev_say, dev_updDev]
          rw [destroy_eq] at h
          split_ifs with hid
          · subst hid
            cases hs : s.dev i with
            | none => rw [hs] at h; cases h
            | some y =>
              rw [hs] at h
              exact h
          · exact h
        · exact fun h => h

theorem detach_from_parent_soft (s : Domain) (d : DevId) : Soft s (detach_from_parent s d) := by
  unfold detach_from_parent
  split
  · exact Soft.same s
  · split
    · exact Soft.setPort s _
    · exact Soft.upd s d _ (fun _ => le_refl _) (fun _ => rfl) (fun _ h => h)

theorem detach_from_parent_port_dev (s : Domain) (d : DevId) :
    (detach_from_parent s d).port.port_dev = s.port.port_dev ∨
    (detach_from_parent s d).port.port_dev = none := by
  unfold detach_from_parent
  split
  · exact Or.inl rfl
  · split
    · exact Or.inr rfl
    · exact Or.inl (by simp)

theorem sas_unregister_fail_dev_soft (s : Domain) (d : DevId) :
    Soft s (sas_unregister_fail_dev s d) := by
  unfold sas_unregister_fail_dev
  exact ((sas_notify_lldd_dev_gone_soft s d).comp (detach_from_parent_soft _ d)).comp
    (sas_put_device_soft _ d)

theorem sas_unregister_fail_dev_lists (s : Domain) (d : DevId) :
    (sas_unregister_fail_dev s d).port.disco_list = s.port.disco_list ∧
    (sas_unregister_fail_dev s d).port.dev_list = s.port.dev_list ∧
    (sas_unregister_fail_dev s d).port.expander_list = s.port.expander_list ∧
    ((sas_unregister_fail_dev s d).port.port_dev = s.port.port_dev ∨
      (sas_unregister_fail_dev s d).port.port_dev = none) := by
  unfold sas_unregister_fail_dev
  dsimp only
  obtain ⟨_, _, _, b4, b5, b6, _⟩ := detach_from_parent_keeps (sas_notify_lldd_dev_gone s d) d
  have b7 := detach_from_parent_port_dev (sas_notify_lldd_dev_gone s d) d
  rw [sas_notify_lldd_dev_gone_port] at b7
  rw [sas_put_device_port, b4, b5, b6, sas_notify_lldd_dev_gone_port]
  exact ⟨rfl, rfl, rfl, b7⟩

/-- What `sas_unregister_common_dev` does to the three lists: the shared
`dev_list_node` is unlinked, `disco_list` is not touched. -/
theorem sas_unregister_common_dev_soft (s : Domain) (d : DevId) :
    Soft s (sas_unregister_common_dev s d) ∧
    (sas_unregister_common_dev s d).port.disco_list = s.port.disco_list ∧
    (sas_unregister_common_dev s d).port.dev_list = list_del d s.port.dev_list ∧
    (sas_unregister_common_dev s d).port.expander_list = list_del d s.port.expander_list ∧
    ((sas_unregister_common_dev s d).port.port_dev = s.port.port_dev ∨
      (sas_unregister_common_dev s d).port.port_dev = none) := by
  unfold sas_unregister_common_dev
  dsimp only
  have h1 := sas_notify_lldd_dev_gone_soft s d
  have hp1 := sas_notify_lldd_dev_gone_port s d
  generalize sas_notify_lldd_dev_gone s d = s1 at h1 hp1 ⊢
  have h2 := detach_from_parent_soft s1 d
  obtain ⟨_, _, _, b4, b5, b6, _⟩ := detach_from_parent_keeps s1 d
  have b7 := detach_from_parent_port_dev s1 d
  generalize detach_from_parent s1 d = s2 at h2 b4 b5 b6 b7 ⊢
  have hs3 : ∀ s3 : Domain, s3 = s2.setPort (fun p => { p with
      dev_list := list_del d p.dev_list, expander_list := list_del d p.expander_list }) →
      Soft s2 s3 ∧ s3.port.dev_list = list_del d s2.port.dev_list ∧
      s3.port.expander_list = list_del d s2.port.expander_list ∧
      s3.port.disco_list = s2.port.disco_list ∧ s3.port.port_dev = s2.port.port_dev := by
    intro s3 h
    subst h
    exact ⟨Soft.setPort s2 _, rfl, rfl, rfl, rfl⟩
  obtain ⟨h3, hs3p, hs3e, hs3d, hs3r⟩ := hs3 _ rfl
  generalize s2.setPort (fun p => { p with
      dev_list := list_del d p.dev_list, expander_list := list_del d p.expander_list }) = s3
    at h3 hs3p hs3e hs3d hs3r ⊢
  have h4 : ∀ s4 : Domain, s4 = (match s3.dev d with
      | none => s3
      | some dev =>
        if dev.dev_type = SAS_EDGE_EXPANDER_DEVICE ∨ dev.dev_type = SAS_FANOUT_EXPANDER_DEVICE
        then s3
        else if dev_is_sata dev = true then s3.say (Action.sas_ata_end_eh d) else s3) →
      Soft s3 s4 ∧ s4.port = s3.port := by
    intro s4 h
    subst h
    split
    · exact ⟨Soft.same _, rfl⟩
    · split_ifs
      · exact ⟨Soft.same _, rfl⟩
      · exact ⟨Soft.say _ _, rfl⟩
      · exact ⟨Soft.same _, rfl⟩
  obtain ⟨c0, c1⟩ := h4 _ rfl
  generalize (match s3.dev d with
      | none => s3
      | some dev =>
        if dev.dev_type = SAS_EDGE_EXPANDER_DEVICE ∨ dev.dev_type = SAS_FANOUT_EXPANDER_DEVICE
        then s3
        else if dev_is_sata dev = true then s3.say (Action.sas_ata_end_eh d) else s3) = s4
    at c0 c1 ⊢
  have h5 : ∀ s5 : Domain, s5 = (match s4.dev d with
      | none => s4
      | some dev =>
        if dev.dev_type = SAS_END_DEVICE ∧ dev.eh_list_node = true then
          { s4.updDev d (fun x => { x with eh_list_node := false }) with
            eh_active := s4.eh_active - 1 }
        else s4) →
      Soft s4 s5 ∧ s5.port = s4.port := by
    intro s5 h
    subst h
    split
    · exact ⟨Soft.same _, rfl⟩
    · split_ifs
      · refine ⟨?_, by simp⟩
        refine Soft.comp ?_ (Soft.of_devs (s := s4.updDev d
          (fun x => { x with eh_list_node := false })) rfl rfl)
        exact Soft.upd s4 d _ (fun _ => le_refl _) (fun _ => rfl) (fun _ h => h)
      · exact ⟨Soft.same _, rfl⟩
  obtain ⟨e0, e1⟩ := h5 _ rfl
  generalize (match s4.dev d with
      | none => s4
      | some dev =>
        if dev.dev_type = SAS_END_DEVICE ∧ dev.eh_list_node = true then
          { s4.updDev d (fun x => { x with eh_list_node := false }) with
            eh_active := s4.eh_active - 1 }
        else s4) = s5 at e0 e1 ⊢
  have hport : (sas_put_device s5 d).port = s3.port := by
    rw [sas_put_device_port, e1, c1]
  refine ⟨?_, ?_, ?_, ?_, ?_⟩
  · exact ((((h1.comp h2).comp h3).comp c0).comp e0).comp (sas_put_device_soft s5 d)
  · rw [hport, hs3d, b4, hp1]
  · rw [hport, hs3p, b5, hp1]
  · rw [hport, hs3e, b6, hp1]
  · rw [hport, hs3r, ← hp1]
    exact b7

/-- The Delete handler revives no device and unlinks at most the device it
was called for, from `dev_list` and `expander_list` only. -/
theorem sas_del_device_soft (s t : Domain) (d : DevId)
    (h : sas_del_device s d = Except.ok t) :
    Soft s t ∧ t.port.disco_list = s.port.disco_list ∧
    ((t.port.dev_list = s.port.dev_list ∧ t.port.expander_list = s.port.expander_list) ∨
     (t.port.dev_list = list_del d s.port.dev_list ∧
      t.port.expander_list = list_del d s.port.expander_list)) ∧
    (t.port.port_dev = s.port.port_dev ∨ t.port.port_dev = none) := by
  unfold sas_del_device at h
  cases hx : s.dev d with
  | none => rw [hx] at h; cases h
  | some x =>
    rw [hx] at h
    simp only [] at h
    cases hr : x.rphy with
    | none => rw [hr] at h; cases h
    | some r =>
      rw [hr] at h
      simp only [] at h
      have h0 : ∀ s0 : Domain, s0 = (if x.dev_type = SAS_EDGE_EXPANDER_DEVICE ∨
          x.dev_type = SAS_FANOUT_EXPANDER_DEVICE then s.say (Action.sas_del_parent_port d)
          else s) → Soft s s0 ∧ s0.port = s.port := by
        intro s0 h
        subst h
        split_ifs
        · exact ⟨Soft.say _ _, rfl⟩
        · exact ⟨Soft.same _, rfl⟩
      obtain ⟨a0, a1⟩ := h0 _ rfl
      generalize (if x.dev_type = SAS_EDGE_EXPANDER_DEVICE ∨
          x.dev_type = SAS_FANOUT_EXPANDER_DEVICE then s.say (Action.sas_del_parent_port d)
          else s) = s0 at a0 a1 h
      have h1 : ∀ s1 : Domain, s1 = (if d ∉ s0.port.dev_list ∧ d ∉ s0.port.expander_list then
            sas_unregister_fail_dev (s0.say (Action.sas_rphy_free d)) d
          else if x.state.SAS_DEV_PROBE_FAIL = true then
            sas_unregister_common_dev ((s0.updDev d
              (fun x => { x with state := { x.state with SAS_DEV_PROBE_FAIL := false } })).say
              (Action.sas_rphy_free d)) d
          else
            sas_unregister_common_dev (((sas_notify_lldd_before_dev_gone s0 d).say
              (Action.sas_remove_children d)).say (Action.sas_rphy_delete d)) d) →
          Soft s0 s1 ∧ s1.port.disco_list = s0.port.disco_list ∧
          ((s1.port.dev_list = s0.port.dev_list ∧
              s1.port.expander_list = s0.port.expander_list) ∨
           (s1.port.dev_list = list_del d s0.port.dev_list ∧
            s1.port.expander_list = list_del d s0.port.expander_list)) ∧
          (s1.port.port_dev = s0.port.port_dev ∨ s1.port.port_dev = none) := by
        intro s1 h
        subst h
        split_ifs
        · obtain ⟨l1, l2, l3, l4⟩ :=
            sas_unregister_fail_dev_lists (s0.say (Action.sas_rphy_free d)) d
          exact ⟨(Soft.say _ _).comp (sas_unregister_fail_dev_soft _ d), l1, Or.inl ⟨l2, l3⟩,
            l4⟩
        · obtain ⟨l0, l1, l2, l3, l4⟩ := sas_unregister_common_dev_soft ((s0.updDev d
              (fun x => { x with state := { x.state with SAS_DEV_PROBE_FAIL := false } })).say
              (Action.sas_rphy_free d)) d
          refine ⟨?_, by rw [l1]; simp, Or.inr ⟨by rw [l2]; simp, by rw [l3]; simp⟩,
            by simpa using l4⟩
          refine Soft.comp ?_ l0
          refine Soft.comp ?_ (Soft.say _ _)
          exact Soft.upd s0 d _ (fun _ => le_refl _) (fun _ => rfl) (fun _ h => h)
        · obtain ⟨l0, l1, l2, l3, l4⟩ := sas_unregister_common_dev_soft
            (((sas_notify_lldd_before_dev_gone s0 d).say
              (Action.sas_remove_children d)).say (Action.sas_rphy_delete d)) d
          have hb : Soft s0 (sas_notify_lldd_before_dev_gone s0 d) ∧
              (sas_notify_lldd_before_dev_gone s0 d).port = s0.port := by
            unfold sas_notify_lldd_before_dev_gone
            split_ifs
            · exact ⟨Soft.say _ _, rfl⟩
            · exact ⟨Soft.same _, rfl⟩
          refine ⟨?_, by rw [l1]; simp [hb.2], Or.inr ⟨by rw [l2]; simp [hb.2],
            by rw [l3]; simp [hb.2]⟩, by simpa [hb.2] using l4⟩
          refine Soft.comp ?_ l0
          refine Soft.comp ?_ (Soft.say _ _)
          refine Soft.comp ?_ (Soft.say _ _)
          exact hb.1
      obtain ⟨c0, c1, c2, c3⟩ := h1 _ rfl
      generalize (if d ∉ s0.port.dev_list ∧ d ∉ s0.port.expander_list then
            sas_unregister_fail_dev (s0.say (Action.sas_rphy_free d)) d
          else if x.state.SAS_DEV_PROBE_FAIL = true then
            sas_unregister_common_dev ((s0.updDev d
              (fun x => { x with state := { x.state with SAS_DEV_PROBE_FAIL := false } })).say
              (Action.sas_rphy_free d)) d
          else
            sas_unregister_common_dev (((sas_notify_lldd_before_dev_gone s0 d).say
              (Action.sas_remove_children d)).say (Action.sas_rphy_delete d)) d) = s1
        at c0 c1 c2 c3 h
      injection h with h
      have hf : Soft s1 t ∧ t.port = s1.port := by
        subst h
        split_ifs
        · exact ⟨Soft.say _ _, rfl⟩
        · exact ⟨Soft.same _, rfl⟩
      rw [hf.2, ← a1]
      exact ⟨(a0.comp c0).comp hf.1, c1, c2, c3⟩

/-! ## Requests, the add handler and the dispatch of the root device -/

theorem sas_unregister_dev_soft (e : Env) (s : Domain) (d : DevId) :
    Soft s (sas_unregister_dev e s d) := by
  refine ⟨?_, ?_, ?_, ?_⟩
  · intro i
    rw [dev_sas_unregister_dev]
    split_ifs with h
    · subst h; simp
    · rfl
  · intro i
    apply own_refs_le
    · rw [kref_eq, kref_eq, dev_sas_unregister_dev]
      split_ifs with h
      · subst h
        cases s.dev i <;> exact le_refl _
      · exact le_refl _
    · rw [SasDiscover.found_eq, SasDiscover.found_eq, dev_sas_unregister_dev]
      split_ifs with h
      · subst h
        cases s.dev i <;> rfl
      · rfl
  · intro i
    rw [destroy_eq, destroy_eq, dev_sas_unregister_dev]
    split_ifs with h
    · subst h
      cases s.dev i with
      | none => exact fun h => h
      | some x => exact fun _ => rfl
    · exact fun h => h
  · intro i hq
    rw [sas_unregister_dev_topo_wq] at hq
    rcases List.mem_append.mp hq with hq | hq
    · exact Or.inl hq
    · right
      split_ifs at hq with hc
      · have hi : i = d := by simpa using hq
        subst hi
        cases hx : s.dev i with
        | none => rw [hx] at hc; simp at hc
        | some x => exact destroy_sas_unregister_dev e s i x hx
      · simp at hq

theorem sas_fail_probe_soft (e : Env) (s : Domain) (d : DevId) :
    Soft s (sas_fail_probe e s d) := by
  unfold sas_fail_probe
  dsimp only
  refine Soft.comp ?_ (sas_unregister_dev_soft e _ d)
  exact Soft.upd s d _ (fun _ => le_refl _) (fun _ => rfl) (fun _ h => h)

theorem sas_probe_sata_device_soft (e : Env) (s : Domain) (d : DevId) :
    Soft s (sas_probe_sata_device e s d) := by
  unfold sas_probe_sata_device
  dsimp only
  split_ifs
  · exact (Soft.say s _).comp (sas_fail_probe_soft e _ d)
  · exact Soft.say s _

theorem sas_add_device_soft (e : Env) (s t : Domain) (d : DevId)
    (h : sas_add_device e s d = Except.ok t) : Soft s t := by
  unfold sas_add_device at h
  cases hx : s.dev d with
  | none => rw [hx] at h; cases h
  | some x =>
    rw [hx] at h
    simp only [] at h
    by_cases hd : d ∈ s.port.disco_list
    · simp only [hd, not_true_eq_false, if_false] at h
      injection h with h
      subst h
      refine Soft.comp ?_ (Soft.setPort _ _)
      by_cases hdes : x.state.SAS_DEV_DESTROY = true
      · rw [if_pos hdes]
        exact Soft.same s
      · rw [if_neg hdes]
        have hb : Soft s (sas_probe_sata_device e
            (s.setPort (fun p => { p with dev_list := p.dev_list ++ [d] })) d) :=
          (Soft.setPort s _).comp (sas_probe_sata_device_soft e _ d)
        generalize sas_probe_sata_device e
          (s.setPort (fun p => { p with dev_list := p.dev_list ++ [d] })) d = b at hb ⊢
        cases b.dev d with
        | none => exact hb
        | some dev1 =>
          dsimp only
          by_cases hp : (!dev1.state.SAS_DEV_PROBE_FAIL) = true
          · rw [if_pos hp]
            by_cases hr : e.sas_rphy_add ≠ 0
            · rw [if_pos hr]
              exact (hb.comp (Soft.say b _)).comp (sas_fail_probe_soft e _ d)
            · rw [if_neg hr]
              exact hb.comp (Soft.say b _)
          · rw [if_neg hp]
            exact hb
    · simp only [hd, not_false_eq_true, if_true] at h
      cases h

theorem sas_add_device_port_dev (e : Env) (s t : Domain) (d : DevId)
    (h : sas_add_device e s d = Except.ok t) : t.port.port_dev = s.port.port_dev := by
  unfold sas_add_device at h
  cases hx : s.dev d with
  | none => rw [hx] at h; cases h
  | some x =>
    rw [hx] at h
    simp only [] at h
    by_cases hd : d ∈ s.port.disco_list
    · simp only [hd, not_true_eq_false, if_false] at h
      injection h with h
      subst h
      simp only [setPort_port]
      by_cases hdes : x.state.SAS_DEV_DESTROY = true
      · rw [if_pos hdes]
      · rw [if_neg hdes]
        split
        · simp
        · split_ifs <;> simp
    · simp only [hd, not_false_eq_true, if_true] at h
      cases h

theorem Dispatched.idle (s : Domain) (d : DevId) : Dispatched s s d :=
  ⟨rfl, fun _ => rfl, fun _ => rfl, fun _ _ => rfl, by unfold Domain.own_refs; omega,
    fun _ h => h⟩

theorem Dispatched.of_say (s : Domain) (a : Action) (d : DevId) : Dispatched s (s.say a) d :=
  ⟨rfl, fun _ => rfl, fun _ => rfl, fun _ _ => rfl, by unfold Domain.own_refs; simp,
    fun _ h => h⟩

/-- The dispatch of an end device changes no list, no destroy request and no
count but that of its device, and queues no Delete event. -/
theorem sas_discover_end_dev_dispatched (e : Env) (s : Domain) (d : DevId) :
    Dispatched s (sas_discover_end_dev e s d).2 d := by
  have hf : Dispatched s (sas_notify_lldd_dev_found e s d).2 d ∧
      (sas_notify_lldd_dev_found e s d).2.topo_wq = s.topo_wq := by
    unfold sas_notify_lldd_dev_found
    split_ifs
    · exact ⟨Dispatched.idle s d, rfl⟩
    · refine ⟨⟨by simp, ?_, ?_, ?_, ?_, fun i h => by simpa using h⟩, by simp⟩
      · intro i
        simp only [dev_updDev, dev_say]
        split_ifs with h
        · subst h; simp
        · rfl
      · intro i
        simp only [destroy_eq, dev_updDev, dev_say]
        split_ifs with h
        · subst h
          cases s.dev i <;> rfl
        · rfl
      · intro i hi
        apply own_refs_of_dev
        simp only [dev_updDev, dev_say, if_neg hi]
      · simp only [Domain.own_refs, kref_eq, SasDiscover.found_eq, dev_updDev_self, dev_say]
        cases s.dev d with
        | none => simp
        | some x => simp
  obtain ⟨⟨f1, f2, f3, f4, f5, f6⟩, f7⟩ := hf
  unfold sas_discover_end_dev
  dsimp only
  generalize sas_notify_lldd_dev_found e s d = r at f1 f2 f3 f4 f5 f6 f7 ⊢
  split_ifs
  · exact ⟨f1, f2, f3, f4, f5, f6⟩
  · refine ⟨by simp [f1], ?_, ?_, ?_, ?_, ?_⟩
    · intro i
      rw [dev_sas_notify_device_event]
      exact f2 i
    · intro i
      rw [destroy_eq, dev_sas_notify_device_event, ← destroy_eq]
      exact f3 i
    · intro i hi
      rw [own_refs_of_dev (dev_sas_notify_device_event e r.2 d i _)]
      exact f4 i hi
    · rw [own_refs_of_dev (dev_sas_notify_device_event e r.2 d d _)]
      exact f5
    · intro i h
      rw [sas_notify_device_event_topo_wq, f7] at h
      rcases List.mem_append.mp h with h | h
      · exact h
      · split_ifs at h <;> simp at h

/-! ## What classification does to the lists -/

theorem dev_alloc_device_ne (s : Domain) (i : DevId) (h : i ≠ s.devs.length) :
    (alloc_device s).dev i = s.dev i := by
  rcases Nat.lt_or_gt_of_ne h with h | h
  · exact dev_alloc_device_old s i h
  · have h1 : s.devs.length ≤ i := Nat.le_of_lt h
    have h2 : (s.devs ++ [fresh_device]).length ≤ i := by
      simp only [List.length_append, List.length_singleton]
      omega
    simp only [alloc_device, Domain.say, Domain.dev]
    rw [List.getElem?_eq_none h1, List.getElem?_eq_none h2]

theorem classify_root_soft (s : Domain) (d : DevId) (phy : asd_sas_phy) :
    Soft s (classify_root s d phy) := by
  unfold classify_root
  dsimp only
  refine Soft.comp ?_ (Soft.upd _ d _ (fun _ => le_refl _) (fun _ => rfl) (fun _ h => h))
  refine Soft.comp ?_ (Soft.upd _ d _ (fun x => le_of_eq (sas_init_dev_keeps x).2.2.2.1)
    (fun x => by rw [(sas_init_dev_keeps x).2.2.2.2.1])
    (fun x h => by rw [(sas_init_dev_keeps x).2.2.2.2.1]; exact h))
  refine Soft.comp ?_ (Soft.upd _ d _ (fun x => le_of_eq (classify_frame_keeps _ _ x).1)
    (fun x => by rw [(classify_frame_keeps _ _ x).2.1])
    (fun x h => by rw [(classify_frame_keeps _ _ x).2.1]; exact h))
  exact Soft.upd _ d _ (fun _ => le_refl _) (fun _ => rfl) (fun _ h => h)

theorem alloc_rphy_soft (e : Env) (s : Domain) (d : DevId) (ty : Nat) :
    Soft s (alloc_rphy e s d ty).2.2 :=
  Soft.of_devs (alloc_rphy_state e s d ty).2.2.2.1 (alloc_rphy_state e s d ty).2.1

theorem link_root_soft (e : Env) (s : Domain) (d : DevId) (phy : asd_sas_phy)
    (x : domain_device) (hx : s.dev d = some x) : Soft s (link_root e s d phy) := by
  obtain ⟨⟨y, hy, _, _, _, hk, hst, _⟩, _⟩ := link_root_spec e s d phy x hx
  refine ⟨?_, ?_, ?_, fun i h => Or.inl (by rw [← link_root_topo_wq e s d phy]; exact h)⟩
  · intro i
    by_cases h : i = d
    · subst h; rw [hy, hx]; rfl
    · rw [dev_link_root_ne e s d i phy h]
  · intro i
    by_cases h : i = d
    · subst h
      apply own_refs_le
      · rw [kref_eq, kref_eq, hy, hx]; exact le_of_eq hk
      · rw [SasDiscover.found_eq, SasDiscover.found_eq, hy, hx]
        simp only [hst]
    · exact le_of_eq (own_refs_of_dev (dev_link_root_ne e s d i phy h))
  · intro i
    rw [destroy_eq, destroy_eq]
    by_cases h : i = d
    · subst h; rw [hy, hx]; simp only [hst]; exact fun h => h
    · rw [dev_link_root_ne e s d i phy h]; exact fun h => h

/-- What `sas_get_port_device` does to the lists once the device is allocated:
either it releases the new device again and leaves the port alone, or it
makes the new device the root and links it at the tail of `disco_list` or of
`expander_list`, holding one reference and not marked found. -/
theorem sas_get_port_device_lists (e : Env) (s : Domain) (h : e.sas_alloc_device = true) :
    Soft (alloc_device s) (sas_get_port_device e s).2 ∧
    (sas_get_port_device e s).2.port.dev_list = s.port.dev_list ∧
    (((sas_get_port_device e s).2.port = s.port ∧
      (sas_get_port_device e s).2.kref s.devs.length = 0) ∨
     ((sas_get_port_device e s).2.port.port_dev = some s.devs.length ∧
      (sas_get_port_device e s).2.kref s.devs.length ≤ 1 ∧
      (sas_get_port_device e s).2.found s.devs.length = false ∧
      (((sas_get_port_device e s).2.port.disco_list = s.port.disco_list ++ [s.devs.length] ∧
        (sas_get_port_device e s).2.port.expander_list = s.port.expander_list) ∨
       ((sas_get_port_device e s).2.port.disco_list = s.port.disco_list ∧
        (sas_get_port_device e s).2.port.expander_list =
          s.port.expander_list ++ [s.devs.length])))) := by
  cases hphy : s.port.phy_list with
  | nil =>
    rw [sas_get_port_device_no_phy e s h hphy]
    refine ⟨sas_put_device_soft _ _, by simp, Or.inl ⟨by simp, ?_⟩⟩
    simp only []
    rw [kref_sas_put_device, kref_alloc_device_new]
  | cons phy rest =>
    rw [sas_get_port_device_phy e s phy rest h hphy]
    have hc := dev_classify_root_new s phy
    obtain ⟨_, _, c3, c4, _⟩ := classified_fields s.port.oob_mode phy.frame_rcvd
    have hs4 := classify_root_soft (alloc_device s) s.devs.length phy
    have hp4 : (classify_root (alloc_device s) s.devs.length phy).port = s.port := by simp
    generalize classify_root (alloc_device s) s.devs.length phy = s4 at hc hs4 hp4 ⊢
    have hr := dev_alloc_rphy e s4 s.devs.length s.devs.length (s4.dev_type s.devs.length)
    have hrs := alloc_rphy_soft e s4 s.devs.length (s4.dev_type s.devs.length)
    have hrp := alloc_rphy_port e s4 s.devs.length (s4.dev_type s.devs.length)
    generalize alloc_rphy e s4 s.devs.length (s4.dev_type s.devs.length) = r at hr hrs hrp ⊢
    rw [hc] at hr
    split
    · refine ⟨(hs4.comp hrs).comp (sas_put_device_soft _ _), by simp [hrp, hp4],
        Or.inl ⟨by simp [hrp, hp4], ?_⟩⟩
      simp only []
      rw [kref_sas_put_device, kref_eq, hr]
      simp only [c3]
    · obtain ⟨⟨y, hy, _, _, _, hk, hst, _⟩, l0, l1, l2, l3⟩ :=
        link_root_spec e r.2.2 s.devs.length phy _ hr
      refine ⟨(hs4.comp hrs).comp (link_root_soft e r.2.2 s.devs.length phy _ hr),
        by simp only []; rw [l1, hrp, hp4], Or.inr ⟨l0, ?_, ?_, ?_⟩⟩
      · simp only []
        rw [kref_eq, hy]
        simp only [hk, c3]
        exact le_refl _
      · simp only []
        rw [SasDiscover.found_eq, hy]
        simp only [hst, c4]
      · simp only []
        rw [l2, l3, hrp, hp4]
        split_ifs
        · exact Or.inl ⟨rfl, rfl⟩
        · exact Or.inr ⟨rfl, rfl⟩

/-! ## The lists between operations -/

theorem ListInv.of_initial (s : Domain) (h : initial s) : ListInv s := by
  obtain ⟨h1, h2, h3, h4, h5, h6⟩ := h
  refine ⟨?_, ?_, ?_, ?_, ?_⟩
  · intro i hi
    simp [on_some_list, h4, h5, h6] at hi
  · intro i hi
    simp [on_two_lists, h4, h5, h6] at hi
  · intro i hi
    simp [h2] at hi
  · intro i hi
    simp [Domain.own_refs, Domain.kref, h1] at hi
  · intro i hi
    rw [h3] at hi
    cases hi

/-- The invariant is kept by a state change that gives no device a reference
of its own and moves only the devices of `moved` between the lists, when the
invariant holds of the moved devices afterwards. -/
theorem ListInv.step {s t : Domain} (hs : ListInv s) (moved : DevId → Prop)
    (hvalid : ∀ i, (s.dev i).isSome = true → (t.dev i).isSome = true)
    (hdestroy : ∀ i, s.destroy i = true → t.destroy i = true)
    (hqueue : ∀ i, (sas_device_event.SAS_DEVICE_DEL, i) ∈ t.topo_wq →
      (sas_device_event.SAS_DEVICE_DEL, i) ∈ s.topo_wq ∨ t.destroy i = true)
    (hown : ∀ i, ¬ moved i → 1 ≤ t.own_refs i → 1 ≤ s.own_refs i)
    (hroot : ∀ i, ¬ moved i → t.port.port_dev = some i → s.port.port_dev = some i)
    (hm1 : ∀ i, moved i → on_some_list t.port i → (t.dev i).isSome = true)
    (hm2 : ∀ i, moved i → ¬ on_two_lists t.port i)
    (hm3 : ∀ i, moved i → t.destroy i = false →
      (1 ≤ t.own_refs i ∨ t.port.port_dev = some i) → on_some_list t.port i)
    (hdisco : ∀ i, ¬ moved i → (i ∈ t.port.disco_list ↔ i ∈ s.port.disco_list))
    (hdev : ∀ i, ¬ moved i → (i ∈ t.port.dev_list ↔ i ∈ s.port.dev_list))
    (hexp : ∀ i, ¬ moved i → (i ∈ t.port.expander_list ↔ i ∈ s.port.expander_list)) :
    ListInv t := by
  have hds : ∀ i, t.destroy i = false → s.destroy i = false := by
    intro i hd
    cases h : s.destroy i with
    | false => rfl
    | true => rw [hdestroy i h] at hd; cases hd
  have hon : ∀ i, ¬ moved i → on_some_list s.port i → on_some_list t.port i := by
    intro i hm h
    unfold on_some_list at h ⊢
    rw [hdisco i hm, hdev i hm, hexp i hm]
    exact h
  refine ⟨?_, ?_, ?_, ?_, ?_⟩
  · intro i hi
    by_cases hm : moved i
    · exact hm1 i hm hi
    · apply hvalid
      apply hs.valid
      unfold on_some_list at hi ⊢
      rw [hdisco i hm, hdev i hm, hexp i hm] at hi
      exact hi
  · intro i hi
    by_cases hm : moved i
    · exact hm2 i hm hi
    · apply hs.at_most_one i
      unfold on_two_lists at hi ⊢
      rw [hdisco i hm, hdev i hm, hexp i hm] at hi
      exact hi
  · intro i hi
    rcases hqueue i hi with h | h
    · exact hdestroy i (hs.del_requested i h)
    · exact h
  · intro i hk hd
    by_cases hm : moved i
    · exact hm3 i hm hd (Or.inl hk)
    · exact hon i hm (hs.listed i (hown i hm hk) (hds i hd))
  · intro i hr hd
    by_cases hm : moved i
    · exact hm3 i hm hd (Or.inr hr)
    · exact hon i hm (hs.root i (hroot i hm hr) (hds i hd))

/-- The invariant is kept by a state change that gives no device a reference
of its own, leaves the three lists alone and leaves or clears the root
pointer. -/
theorem ListInv.soft {s t : Domain} (hs : ListInv s) (h : Soft s t)
    (h1 : t.port.disco_list = s.port.disco_list) (h2 : t.port.dev_list = s.port.dev_list)
    (h3 : t.port.expander_list = s.port.expander_list)
    (h4 : t.port.port_dev = s.port.port_dev ∨ t.port.port_dev = none) : ListInv t := by
  refine hs.step (fun _ => False) (fun i hi => by rw [h.valid i]; exact hi) h.destroy h.queue
    (fun i _ hk => le_trans hk (h.own i)) ?_ (fun _ hm => hm.elim) (fun _ hm => hm.elim)
    (fun _ hm => hm.elim) (fun i _ => by rw [h1]) (fun i _ => by rw [h2])
    (fun i _ => by rw [h3])
  intro i _ hr
  rcases h4 with h4 | h4
  · rw [← h4]; exact hr
  · rw [h4] at hr; cases hr

theorem Soft.of_pop {s t : Domain} {x : sas_device_event × DevId}
    {rest : List (sas_device_event × DevId)} (hq : s.topo_wq = x :: rest)
    (h : Soft { s with topo_wq := rest } t) : Soft s t := by
  refine ⟨h.valid, h.own, h.destroy, ?_⟩
  intro i hi
  rcases h.queue i hi with h1 | h1
  · left
    rw [hq]
    exact List.mem_cons_of_mem _ h1
  · exact Or.inr h1

theorem sas_unregister_dev_inv (e : Env) (s : Domain) (d : DevId) (hs : ListInv s) :
    ListInv (sas_unregister_dev e s d) := by
  have hp := sas_unregister_dev_port e s d
  exact hs.soft (sas_unregister_dev_soft e s d) (by rw [hp]) (by rw [hp]) (by rw [hp])
    (Or.inl (by rw [hp]))

theorem Dispatched.inv {s t : Domain} {d : DevId} (h : Dispatched s t d) (hs : ListInv s)
    (hr : s.port.port_dev = some d) : ListInv t := by
  refine hs.step (fun i => i = d) (fun i hi => by rw [h.valid i]; exact hi)
    (fun i hi => by rw [h.destroy i]; exact hi) (fun i hi => Or.inl (h.queue i hi))
    (fun i hm hk => by rw [← h.own i hm]; exact hk)
    (fun i _ hi => by rw [← h.port]; exact hi) ?_ ?_ ?_ ?_ ?_ ?_
  · intro i hm hi
    subst hm
    rw [h.valid i]
    rw [h.port] at hi
    exact hs.valid i hi
  · intro i _
    rw [h.port]
    exact hs.at_most_one i
  · intro i hm hd _
    subst hm
    rw [h.port]
    rw [h.destroy i] at hd
    exact hs.root i hr hd
  all_goals
    intro i _
    rw [h.port]

theorem sas_get_port_device_inv (e : Env) (s : Domain) (hs : ListInv s) :
    ListInv (sas_get_port_device e s).2 := by
  by_cases ha : e.sas_alloc_device = true
  · obtain ⟨hsoft, hdl, hcases⟩ := sas_get_port_device_lists e s ha
    have hnone : s.dev s.devs.length = none := by
      unfold Domain.dev
      exact List.getElem?_eq_none (le_refl _)
    have hfresh : ¬ on_some_list s.port s.devs.length := by
      intro h
      have := hs.valid _ h
      rw [hnone] at this
      cases this
    have hnoroot : s.port.port_dev ≠ some s.devs.length := by
      intro h
      apply hfresh
      apply hs.root _ h
      rw [destroy_eq, hnone]
    have hnew : ((sas_get_port_device e s).2.dev s.devs.length).isSome = true := by
      rw [hsoft.valid, dev_alloc_device_new]
      rfl
    have hne : ∀ i, (s.dev i).isSome = true → i ≠ s.devs.length := by
      intro i hi h
      subst h
      rw [hnone] at hi
      cases hi
    have hd0 : ∀ i, i ≠ s.devs.length → (alloc_device s).destroy i = s.destroy i := by
      intro i hi
      rw [destroy_eq, destroy_eq, dev_alloc_device_ne s i hi]
    have hdes : ∀ i, s.destroy i = true → (sas_get_port_device e s).2.destroy i = true := by
      intro i hi
      apply hsoft.destroy
      have hsome : (s.dev i).isSome = true := by
        rw [destroy_eq] at hi
        cases hx : s.dev i with
        | none => rw [hx] at hi; cases hi
        | some x => rfl
      rw [hd0 i (hne i hsome)]
      exact hi
    generalize (sas_get_port_device e s).2 = t at hsoft hdl hcases hnew hdes
    refine hs.step (fun i => i = s.devs.length) ?_ hdes ?_ ?_ ?_ ?_ ?_ ?_ ?_ ?_ ?_
    · intro i hi
      rw [hsoft.valid, dev_alloc_device_ne s i (hne i hi)]
      exact hi
    · intro i hi
      rcases hsoft.queue i hi with h | h
      · exact Or.inl h
      · exact Or.inr h
    · intro i hm hk
      rw [← own_refs_of_dev (dev_alloc_device_ne s i hm)]
      exact le_trans hk (hsoft.own i)
    · intro i hm hr
      rcases hcases with ⟨c1, _⟩ | ⟨c1, _⟩
      · rw [← c1]; exact hr
      · rw [c1] at hr
        injection hr with hr
        exact absurd hr.symm hm
    · intro i hm _
      subst hm
      exact hnew
    · intro i hm htwo
      subst hm
      apply hfresh
      unfold on_two_lists at htwo
      unfold on_some_list
      rw [hdl] at htwo
      rcases hcases with ⟨c1, _⟩ | ⟨_, _, _, ⟨c1, c2⟩ | ⟨c1, c2⟩⟩
      · rw [c1] at htwo
        rcases htwo with h | h | h
        · exact Or.inl h.1
        · exact Or.inl h.1
        · exact Or.inr (Or.inl h.1)
      · rw [c2] at htwo
        rcases htwo with h | h | h
        · exact Or.inr (Or.inl h.2)
        · exact Or.inr (Or.inr h.2)
        · exact Or.inr (Or.inl h.1)
      · rw [c1] at htwo
        rcases htwo with h | h | h
        · exact Or.inl h.1
        · exact Or.inl h.1
        · exact Or.inr (Or.inl h.1)
    · intro i hm _ hk
      subst hm
      unfold on_some_list
      rcases hcases with ⟨c1, c3⟩ | ⟨_, _, _, ⟨c1, _⟩ | ⟨_, c2⟩⟩
      · exfalso
        rcases hk with hk | hk
        · unfold Domain.own_refs at hk
          rw [c3] at hk
          omega
        · rw [c1] at hk
          exact hnoroot hk
      · rw [c1]
        exact Or.inl (by simp)
      · rw [c2]
        exact Or.inr (Or.inr (by simp))
    · intro i hm
      rcases hcases with ⟨c1, _⟩ | ⟨_, _, _, ⟨c1, _⟩ | ⟨c1, _⟩⟩
      · rw [c1]
      · rw [c1]
        simp [hm]
      · rw [c1]
    · intro i _
      rw [hdl]
    · intro i hm
      rcases hcases with ⟨c1, _⟩ | ⟨_, _, _, ⟨_, c2⟩ | ⟨_, c2⟩⟩
      · rw [c1]
      · rw [c2]
      · rw [c2]
        simp [hm]
  · have hf : e.sas_alloc_device = false := by simpa using ha
    rw [sas_get_port_device_nomem e s hf]
    exact hs

theorem sas_add_device_inv (e : Env) (s t : Domain) (d : DevId) (hs : ListInv s)
    (ev : sas_device_event) (rest : List (sas_device_event × DevId))
    (hq : s.topo_wq = (ev, d) :: rest)
    (h : sas_add_device e { s with topo_wq := rest } d = Except.ok t) : ListInv t := by
  have hsoft := Soft.of_pop hq (sas_add_device_soft e _ t d h)
  have hpd : t.port.port_dev = s.port.port_dev :=
    sas_add_device_port_dev e { s with topo_wq := rest } t d h
  have hxd : ∃ x, s.dev d = some x ∧ d ∈ s.port.disco_list := by
    unfold sas_add_device at h
    cases hx : s.dev d with
    | none =>
      have hx2 : ({ s with topo_wq := rest } : Domain).dev d = none := hx
      rw [hx2] at h
      cases h
    | some x =>
      refine ⟨x, rfl, ?_⟩
      by_contra hd
      have hx2 : ({ s with topo_wq := rest } : Domain).dev d = some x := hx
      rw [hx2] at h
      have hd2 : d ∉ ({ s with topo_wq := rest } : Domain).port.disco_list := hd
      simp only [hd2, not_false_eq_true, if_true] at h
      cases h
  obtain ⟨x, hx, hd⟩ := hxd
  obtain ⟨t2, ht2, l1, l2, l3, _⟩ := sas_add_device_port e { s with topo_wq := rest } d x hx hd
  rw [h] at ht2
  injection ht2 with ht2
  subst ht2
  have l1b : t.port.disco_list = list_del d s.port.disco_list := l1
  have l2b : t.port.expander_list = s.port.expander_list := l2
  have l3b : t.port.dev_list =
      (if x.state.SAS_DEV_DESTROY = true then s.port.dev_list else s.port.dev_list ++ [d]) := l3
  refine hs.step (fun i => i = d) (fun i hi => by rw [hsoft.valid i]; exact hi) hsoft.destroy
    hsoft.queue (fun i _ hk => le_trans hk (hsoft.own i))
    (fun i _ hr => by rw [← hpd]; exact hr) ?_ ?_ ?_ ?_ ?_ ?_
  · intro i hm _
    subst hm
    rw [hsoft.valid i, hx]
    rfl
  · intro i hm htwo
    subst hm
    unfold on_two_lists at htwo
    rw [l1b, l2b] at htwo
    rcases htwo with h | h | h
    · exact not_mem_list_del i _ h.1
    · exact not_mem_list_del i _ h.1
    · exact hs.at_most_one i (Or.inr (Or.inl ⟨hd, h.2⟩))
  · intro i hm hdes _
    subst hm
    have hxs : x.state.SAS_DEV_DESTROY = false := by
      cases hc : x.state.SAS_DEV_DESTROY with
      | false => rfl
      | true =>
        have : s.destroy i = true := by
          rw [destroy_eq, hx]
          exact hc
        rw [hsoft.destroy i this] at hdes
        cases hdes
    unfold on_some_list
    rw [l3b, hxs]
    exact Or.inr (Or.inl (by simp))
  · intro i hm
    rw [l1b, mem_list_del]
    exact ⟨fun h => h.1, fun h => ⟨h, hm⟩⟩
  · intro i hm
    rw [l3b]
    split_ifs
    · rfl
    · simp [hm]
  · intro i _
    rw [l2b]

theorem sas_del_device_inv (s t : Domain) (d : DevId) (hs : ListInv s)
    (rest : List (sas_device_event × DevId))
    (hq : s.topo_wq = (sas_device_event.SAS_DEVICE_DEL, d) :: rest)
    (h : sas_del_device { s with topo_wq := rest } d = Except.ok t) : ListInv t := by
  obtain ⟨hsoft0, l1, l23, l4⟩ := sas_del_device_soft _ t d h
  have hsoft := Soft.of_pop hq hsoft0
  have l1b : t.port.disco_list = s.port.disco_list := l1
  have l23b : (t.port.dev_list = s.port.dev_list ∧
      t.port.expander_list = s.port.expander_list) ∨
     (t.port.dev_list = list_del d s.port.dev_list ∧
      t.port.expander_list = list_del d s.port.expander_list) := l23
  have l4b : t.port.port_dev = s.port.port_dev ∨ t.port.port_dev = none := l4
  have hdes : s.destroy d = true := hs.del_requested d (by rw [hq]; exact List.mem_cons_self _ _)
  have hsome : (s.dev d).isSome = true := by
    rw [destroy_eq] at hdes
    cases hx : s.dev d with
    | none => rw [hx] at hdes; cases hdes
    | some x => rfl
  refine hs.step (fun i => i = d) (fun i hi => by rw [hsoft.valid i]; exact hi) hsoft.destroy
    hsoft.queue (fun i _ hk => le_trans hk (hsoft.own i)) ?_ ?_ ?_ ?_ ?_ ?_ ?_
  · intro i _ hr
    rcases l4b with h4 | h4
    · rw [← h4]; exact hr
    · rw [h4] at hr; cases hr
  · intro i hm _
    subst hm
    rw [hsoft.valid i]
    exact hsome
  · intro i hm htwo
    subst hm
    apply hs.at_most_one i
    unfold on_two_lists at htwo ⊢
    rw [l1b] at htwo
    rcases l23b with ⟨c1, c2⟩ | ⟨c1, c2⟩
    · rw [c1, c2] at htwo
      exact htwo
    · rw [c1, c2] at htwo
      rcases htwo with h | h | h
      · exact absurd h.2 (not_mem_list_del i _)
      · exact absurd h.2 (not_mem_list_del i _)
      · exact absurd h.1 (not_mem_list_del i _)
  · intro i hm hd _
    subst hm
    rw [hsoft.destroy i hdes] at hd
    cases hd
  · intro i _
    rw [l1b]
  · intro i hm
    rcases l23b with ⟨c1, _⟩ | ⟨c1, _⟩
    · rw [c1]
    · rw [c1, mem_list_del]
      exact ⟨fun h => h.1, fun h => ⟨h, hm⟩⟩
  · intro i hm
    rcases l23b with ⟨_, c2⟩ | ⟨_, c2⟩
    · rw [c2]
    · rw [c2, mem_list_del]
      exact ⟨fun h => h.1, fun h => ⟨h, hm⟩⟩

/-! ## The invariant through discovery, domain unregistration and suspend -/

theorem not_on_some_list_of_empty (p : asd_sas_port) (i : DevId)
    (h : lists_empty p = true) : ¬ on_some_list p i := by
  unfold lists_empty at h
  simp only [Bool.and_eq_true, List.isEmpty_iff] at h
  obtain ⟨⟨h1, h2⟩, h3⟩ := h
  unfold on_some_list
  rw [h1, h2, h3]
  simp

/-- The root pointer after `sas_get_port_device`, on a port whose root was
unset or whose lists were empty: it names a destroy-requested device, or the
new device holding one reference and not marked found. -/
theorem sas_get_port_device_root (e : Env) (s : Domain) (hs : ListInv s)
    (hpre : s.port.port_dev = none ∨ lists_empty s.port = true) (d : DevId)
    (hr : (sas_get_port_device e s).2.port.port_dev = some d) :
    (sas_get_port_device e s).2.destroy d = true ∨
    ((sas_get_port_device e s).2.kref d ≤ 1 ∧ (sas_get_port_device e s).2.found d = false) := by
  have hold : s.port.port_dev = some d → s.destroy d = true := by
    intro h
    rcases hpre with hp | hp
    · rw [hp] at h; cases h
    · cases hd : s.destroy d with
      | true => rfl
      | false => exact absurd (hs.root d h hd) (not_on_some_list_of_empty _ _ hp)
  by_cases ha : e.sas_alloc_device = true
  · obtain ⟨hsoft, _, hcases⟩ := sas_get_port_device_lists e s ha
    rcases hcases with ⟨c1, _⟩ | ⟨c1, c2, c3, _⟩
    · left
      rw [c1] at hr
      have hd := hold hr
      apply hsoft.destroy
      have hne : d ≠ s.devs.length := by
        intro h
        subst h
        rw [destroy_eq] at hd
        have hnone : s.dev s.devs.length = none := by
          unfold Domain.dev
          exact List.getElem?_eq_none (le_refl _)
        rw [hnone] at hd
        cases hd
      rw [destroy_eq, dev_alloc_device_ne s d hne, ← destroy_eq]
      exact hd
    · right
      rw [c1] at hr
      injection hr with hr
      subst hr
      exact ⟨c2, c3⟩
  · have hf : e.sas_alloc_device = false := by simpa using ha
    rw [sas_get_port_device_nomem e s hf] at hr ⊢
    exact Or.inl (hold hr)

/-- The error unwind of `sas_discover_domain` keeps the invariant when the
device it releases is destroy-requested or holds at most one reference of its
own: unlinked from the three lists, the device is left with none. -/
theorem unwind_inv (q : Domain) (d : DevId) (hq : ListInv q)
    (hd : q.destroy d = true ∨ q.own_refs d ≤ 1) :
    ListInv ((sas_put_device (((q.say (Action.sas_rphy_free d)).setPort
      (fun p => { p with disco_list := list_del d p.disco_list })).setPort
      (fun p => { p with
        dev_list := list_del d p.dev_list, expander_list := list_del d p.expander_list })) d).setPort
      (fun p => { p with port_dev := none })) := by
  have hc : ∀ c : Domain, c = ((q.say (Action.sas_rphy_free d)).setPort
      (fun p => { p with disco_list := list_del d p.disco_list })).setPort
      (fun p => { p with
        dev_list := list_del d p.dev_list, expander_list := list_del d p.expander_list }) →
      Soft q c ∧ c.own_refs d = q.own_refs d ∧
      c.port.disco_list = list_del d q.port.disco_list ∧
      c.port.dev_list = list_del d q.port.dev_list ∧
      c.port.expander_list = list_del d q.port.expander_list := by
    intro c h
    subst h
    exact ⟨((Soft.say q _).comp (Soft.setPort _ _)).comp (Soft.setPort _ _), rfl, rfl, rfl, rfl⟩
  obtain ⟨c0, c1, c2, c3, c4⟩ := hc _ rfl
  generalize ((q.say (Action.sas_rphy_free d)).setPort
      (fun p => { p with disco_list := list_del d p.disco_list })).setPort
      (fun p => { p with
        dev_list := list_del d p.dev_list, expander_list := list_del d p.expander_list }) = c
    at c0 c1 c2 c3 c4 ⊢
  have hsoft : Soft q ((sas_put_device c d).setPort (fun p => { p with port_dev := none })) :=
    (c0.comp (sas_put_device_soft c d)).comp (Soft.setPort _ _)
  have hown : ((sas_put_device c d).setPort
      (fun p => { p with port_dev := none })).own_refs d ≤ q.own_refs d - 1 := by
    have h1 : ((sas_put_device c d).setPort
        (fun p => { p with port_dev := none })).own_refs d = (sas_put_device c d).own_refs d :=
      rfl
    rw [h1, ← c1]
    exact own_refs_sas_put_device c d
  have hl1 : ((sas_put_device c d).setPort
      (fun p => { p with port_dev := none })).port.disco_list = list_del d q.port.disco_list := by
    simp [c2]
  have hl2 : ((sas_put_device c d).setPort
      (fun p => { p with port_dev := none })).port.dev_list = list_del d q.port.dev_list := by
    simp [c3]
  have hl3 : ((sas_put_device c d).setPort
      (fun p => { p with port_dev := none })).port.expander_list =
      list_del d q.port.expander_list := by
    simp [c4]
  have hl4 : ((sas_put_device c d).setPort
      (fun p => { p with port_dev := none })).port.port_dev = none := rfl
  generalize (sas_put_device c d).setPort (fun p => { p with port_dev := none }) = t
    at hsoft hown hl1 hl2 hl3 hl4 ⊢
  refine hq.step (fun i => i = d) (fun i hi => by rw [hsoft.valid i]; exact hi) hsoft.destroy
    hsoft.queue (fun i _ hk => le_trans hk (hsoft.own i)) ?_ ?_ ?_ ?_ ?_ ?_ ?_
  · intro i _ hr
    rw [hl4] at hr
    cases hr
  · intro i hm hi
    subst hm
    exfalso
    unfold on_some_list at hi
    rw [hl1, hl2, hl3] at hi
    rcases hi with h | h | h <;> exact not_mem_list_del i _ h
  · intro i hm hi
    subst hm
    unfold on_two_lists at hi
    rw [hl1, hl2, hl3] at hi
    rcases hi with h | h | h <;> exact not_mem_list_del i _ h.1
  · intro i hm hdes hk
    subst hm
    exfalso
    rcases hk with hk | hk
    · rcases hd with hd | hd
      · rw [hsoft.destroy i hd] at hdes
        cases hdes
      · omega
    · rw [hl4] at hk
      cases hk
  · intro i hm
    rw [hl1, mem_list_del]
    exact ⟨fun h => h.1, fun h => ⟨h, hm⟩⟩
  · intro i hm
    rw [hl2, mem_list_del]
    exact ⟨fun h => h.1, fun h => ⟨h, hm⟩⟩
  · intro i hm
    rw [hl3, mem_list_del]
    exact ⟨fun h => h.1, fun h => ⟨h, hm⟩⟩

/-- The part of `sas_discover_domain` under `disco_mutex` keeps the
invariant, whichever of its exits it takes: failed classification, successful
dispatch, or the unwind of a failed dispatch. -/
theorem sas_discover_domain_locked_inv (e : Env) (s t : Domain) (hs : ListInv s)
    (hpre : s.port.port_dev = none ∨ lists_empty s.port = true)
    (h : sas_discover_domain_locked e s = Except.ok t) : ListInv t := by
  have hg := sas_get_port_device_inv e s hs
  have hroot := sas_get_port_device_root e s hs hpre
  unfold sas_discover_domain_locked at h
  dsimp only at h
  generalize sas_get_port_device e s = r at h hg hroot
  by_cases hr1 : r.1 ≠ 0
  · rw [if_pos hr1] at h
    injection h with h
    subst h
    exact hg
  · rw [if_neg hr1] at h
    cases hp : r.2.port.port_dev with
    | none => rw [hp] at h; cases h
    | some d =>
      rw [hp] at h
      dsimp only at h
      cases hx : r.2.dev d with
      | none => rw [hx] at h; cases h
      | some dev =>
        rw [hx] at h
        dsimp only at h
        have hD : ∀ q : Int × Domain, q =
            (if dev.dev_type = SAS_END_DEVICE then sas_discover_end_dev e r.2 d
            else if dev.dev_type = SAS_EDGE_EXPANDER_DEVICE ∨
                dev.dev_type = SAS_FANOUT_EXPANDER_DEVICE then
              (e.sas_discover_root_expander, r.2.say (Action.sas_discover_root_expander d))
            else if (dev.dev_type = SAS_SATA_DEV ∨ dev.dev_type = SAS_SATA_PM) ∧
                e.CONFIG_SCSI_SAS_ATA = true then
              (e.sas_discover_sata, r.2.say (Action.sas_discover_sata d))
            else (- ENXIO, r.2)) → Dispatched r.2 q.2 d := by
          intro q hq
          subst hq
          split_ifs
          · exact sas_discover_end_dev_dispatched e r.2 d
          · exact Dispatched.of_say r.2 _ d
          · exact Dispatched.of_say r.2 _ d
          · exact Dispatched.idle r.2 d
        have hq := hD _ rfl
        generalize (if dev.dev_type = SAS_END_DEVICE then sas_discover_end_dev e r.2 d
            else if dev.dev_type = SAS_EDGE_EXPANDER_DEVICE ∨
                dev.dev_type = SAS_FANOUT_EXPANDER_DEVICE then
              (e.sas_discover_root_expander, r.2.say (Action.sas_discover_root_expander d))
            else if (dev.dev_type = SAS_SATA_DEV ∨ dev.dev_type = SAS_SATA_PM) ∧
                e.CONFIG_SCSI_SAS_ATA = true then
              (e.sas_discover_sata, r.2.say (Action.sas_discover_sata d))
            else (- ENXIO, r.2)) = q at h hq
        have hqi := hq.inv hg hp
        by_cases hq1 : q.1 ≠ 0
        · rw [if_pos hq1] at h
          injection h with h
          subst h
          apply unwind_inv q.2 d hqi
          rcases hroot d hp with hd | ⟨hk, _⟩
          · left
            rw [hq.destroy]
            exact hd
          · right
            exact le_trans hq.own_self hk
        · rw [if_neg hq1] at h
          injection h with h
          subst h
          exact hqi

/-- When every poll sees the same state, the drain-wait loop returns that
state, and reports the lists empty only if they are. -/
theorem drain_wait_const (s : Domain) :
    ∀ (fuel cnt : Nat) (b : Bool) (t : Domain),
      drain_wait (fun _ => s) fuel cnt = Except.ok (b, t) →
      t = s ∧ (b = true → lists_empty s.port = true) := by
  intro fuel
  induction fuel with
  | zero =>
    intro cnt b t h
    cases h
  | succ n ih =>
    intro cnt b t h
    unfold drain_wait at h
    by_cases he : lists_empty s.port = true
    · rw [if_pos he] at h
      injection h with h
      injection h with h1 h2
      exact ⟨h2.symm, fun _ => he⟩
    · rw [if_neg he] at h
      by_cases hc : cnt + 1 > SAS_MAX_WAIT_RESCOURCE_CLEAR_TIME * 10
      · rw [if_pos hc] at h
        injection h with h
        injection h with h1 h2
        refine ⟨h2.symm, fun hb => ?_⟩
        rw [← h1] at hb
        cases hb
      · rw [if_neg hc] at h
        exact ih (cnt + 1) b t h

theorem sas_discover_domain_inv (e : Env) (fuel : Nat) (s t : Domain) (hs : ListInv s)
    (h : sas_discover_domain e fuel (fun _ => s) s = Except.ok t) : ListInv t := by
  unfold sas_discover_domain at h
  by_cases hp : s.port.port_dev.isSome = true
  · rw [if_pos hp] at h
    cases hdw : drain_wait (fun _ => s) fuel 0 with
    | error f => rw [hdw] at h; cases h
    | ok p =>
      obtain ⟨b, u⟩ := p
      rw [hdw] at h
      obtain ⟨hu, hb⟩ := drain_wait_const s fuel 0 b u hdw
      subst hu
      cases b with
      | false =>
        dsimp only at h
        injection h with h
        subst h
        exact hs
      | true =>
        dsimp only at h
        exact sas_discover_domain_locked_inv e u t hs (Or.inr (hb rfl)) h
  · rw [if_neg hp] at h
    have hnone : s.port.port_dev = none := by
      cases hx : s.port.port_dev with
      | none => rfl
      | some _ => rw [hx] at hp; exact absurd rfl hp
    exact sas_discover_domain_locked_inv e s t hs (Or.inl hnone) h

/-- Folding a step that gives no device a reference of its own and leaves
the port alone. -/
theorem foldl_soft (g : Domain → DevId → Domain)
    (hg : ∀ t d, Soft t (g t d) ∧ (g t d).port = t.port) (L : List DevId) :
    ∀ s : Domain, Soft s (L.foldl g s) ∧ (L.foldl g s).port = s.port := by
  induction L with
  | nil => intro s; exact ⟨Soft.same s, rfl⟩
  | cons a L ih =>
    intro s
    rw [List.foldl_cons]
    obtain ⟨h1, h2⟩ := ih (g s a)
    exact ⟨(hg s a).1.comp h1, h2.trans (hg s a).2⟩

theorem sas_unregister_domain_devices_inv (e : Env) (s : Domain) (gone : Bool)
    (hs : ListInv s) : ListInv (sas_unregister_domain_devices e s gone) := by
  have hmark : ∀ t d, Soft t (sas_unregister_dev e (if gone = true then
        t.updDev d (fun x => { x with state := { x.state with SAS_DEV_GONE := true } })
      else t) d) ∧
      (sas_unregister_dev e (if gone = true then
        t.updDev d (fun x => { x with state := { x.state with SAS_DEV_GONE := true } })
      else t) d).port = t.port := by
    intro t d
    split_ifs
    · refine ⟨Soft.comp ?_ (sas_unregister_dev_soft e _ d), by simp⟩
      exact Soft.upd t d _ (fun _ => le_refl _) (fun _ => rfl) (fun _ h => h)
    · exact ⟨sas_unregister_dev_soft e t d, by simp⟩
  unfold sas_unregister_domain_devices
  dsimp only
  obtain ⟨a1, a2⟩ := foldl_soft (fun t d => sas_unregister_dev e t d)
    (fun t d => ⟨sas_unregister_dev_soft e t d, sas_unregister_dev_port e t d⟩)
    s.port.disco_list s
  generalize s.port.disco_list.foldl (fun t d => sas_unregister_dev e t d) s = s1 at a1 a2 ⊢
  obtain ⟨b1, b2⟩ := foldl_soft _ hmark s.port.dev_list.reverse s1
  generalize s.port.dev_list.reverse.foldl _ s1 = s2 at b1 b2 ⊢
  obtain ⟨c1, c2⟩ := foldl_soft _ hmark s.port.expander_list.reverse s2
  generalize s.port.expander_list.reverse.foldl _ s2 = s3 at c1 c2 ⊢
  have hp : s3.port = s.port := by rw [c2, b2, a2]
  exact hs.soft (((a1.comp b1).comp c1).comp (Soft.setPort s3 _)) (by simp [hp]) (by simp [hp])
    (by simp [hp]) (Or.inl (by simp [hp]))

theorem sas_suspend_devices_inv (s t : Domain) (hs : ListInv s)
    (h : sas_suspend_devices s = Except.ok t) : ListInv t := by
  unfold sas_suspend_devices at h
  dsimp only at h
  have hg : ∀ t d, Soft t (sas_notify_lldd_dev_gone t d) ∧
      (sas_notify_lldd_dev_gone t d).port = t.port :=
    fun t d => ⟨sas_notify_lldd_dev_gone_soft t d, sas_notify_lldd_dev_gone_port t d⟩
  have h1 : ∀ s1 : Domain, s1 = (s.setPort (fun p => { p with disc_pending_suspend := false })).say
      Action.sas_suspend_sata → Soft s s1 ∧ s1.port.disco_list = s.port.disco_list ∧
      s1.port.dev_list = s.port.dev_list ∧ s1.port.expander_list = s.port.expander_list ∧
      s1.port.port_dev = s.port.port_dev := by
    intro s1 h
    subst h
    exact ⟨(Soft.setPort s _).comp (Soft.say _ _), rfl, rfl, rfl, rfl⟩
  obtain ⟨a0, a1, a2, a3, a4⟩ := h1 _ rfl
  generalize (s.setPort (fun p => { p with disc_pending_suspend := false })).say
      Action.sas_suspend_sata = s1 at a0 a1 a2 a3 a4 h
  obtain ⟨b1, b2⟩ := foldl_soft _ hg s1.port.dev_list s1
  generalize s1.port.dev_list.foldl sas_notify_lldd_dev_gone s1 = s2 at b1 b2 h
  obtain ⟨c1, c2⟩ := foldl_soft _ hg s2.port.expander_list s2
  generalize s2.port.expander_list.foldl sas_notify_lldd_dev_gone s2 = s3 at c1 c2 h
  have hp : s3.port = s1.port := by rw [c2, b2]
  cases hph : suspend_phys s3.dft s3.port.phy_list s3.port.suspended with
  | error f => rw [hph] at h; cases h
  | ok p =>
    obtain ⟨phys, susp, acts⟩ := p
    rw [hph] at h
    dsimp only at h
    injection h with h
    subst h
    refine hs.soft (((a0.comp b1).comp c1).comp (Soft.of_devs rfl rfl)) ?_ ?_ ?_ (Or.inl ?_)
    · show s3.port.disco_list = s.port.disco_list
      rw [hp, a1]
    · show s3.port.dev_list = s.port.dev_list
      rw [hp, a2]
    · show s3.port.expander_list = s.port.expander_list
      rw [hp, a3]
    · show s3.port.port_dev = s.port.port_dev
      rw [hp, a4]

/-- Every operation of the discovery engine keeps the invariant. -/
theorem Step.keeps_inv {s t : Domain} (h : Step s t) (hs : ListInv s) : ListInv t := by
  cases h with
  | discover e fuel _ _ hd => exact sas_discover_domain_inv e fuel s t hs hd
  | run_event e ev d rest _ _ hq hr =>
    cases ev with
    | SAS_DEVICE_ADD => exact sas_add_device_inv e s t d hs _ rest hq hr
    | SAS_DEVICE_DEL => exact sas_del_device_inv s t d hs rest hq hr
  | unregister_dev e d => exact sas_unregister_dev_inv e s d hs
  | unregister_domain_devices e gone => exact sas_unregister_domain_devices_inv e s gone hs
  | suspend _ _ hsus => exact sas_suspend_devices_inv s t hs hsus

theorem Reachable.list_inv {s : Domain} (h : Reachable s) : ListInv s := by
  induction h with
  | init s hi => exact ListInv.of_initial s hi
  | step s t _ hop ih => exact hop.keeps_inv ih

/-! ## C11: membership of the three lists -/

end SasDiscover
